import Mathlib

/-!
# Host/firmware interface queues of the CVP driver (`msm/eva/cvp_hfi.c`)

Shallow embedding of the ring-queue primitives `__write_queue` and
`__read_queue` and of the power-collapse path, followed by the properties
proved about them.

Modelling conventions

* A `u32` is a natural number; every load from a header field, from the size
  word of a packet or from `mem_size` reduces the stored value modulo `2^32`,
  and every arithmetic result is reduced modulo `2^32`.
* Memory is word addressed: `mem i` is the 32-bit word at byte offset `4 * i`
  from the base pointer.  Every `memcpy` of the two functions moves a whole
  number of words between word-aligned addresses.
* Pointers into the queue array are byte offsets from
  `q_array.align_virtual_addr`; a `NULL` pointer is `none`.
* `dprintk`, `__dump_packet`, the spin lock and the memory barriers have no
  effect on the sequential state and are not modelled.
* Constants that are defined in headers outside this file are parameters.
-/

namespace CvpHfi

/-! ## Machine integers and errno values -/

/-- Reduction of a natural number to the range of a `u32`. -/
def u32 (x : Nat) : Nat := x % 4294967296

/-- The `u32` sum `a + b`. -/
def add32 (a b : Nat) : Nat := (a + b) % 4294967296

/-- The `u32` difference `a - b` of two `u32` values (wraps below zero). -/
def sub32 (a b : Nat) : Nat := (a + 4294967296 - b) % 4294967296

/-- The `u32` shift `x << 2`. -/
def shl2 (x : Nat) : Nat := (x * 4) % 4294967296

/-- The shift `x >> 2`. -/
def shr2 (x : Nat) : Nat := x / 4

/-- The errno values returned by the modelled functions. -/
def EPERM : Int := 1
def ENOENT : Int := 2
def E2BIG : Int := 7
def EAGAIN : Int := 11
def ENOMEM : Int := 12
def EBUSY : Int := 16
def EEXIST : Int := 17
def ENODEV : Int := 19
def EINVAL : Int := 22
def ENOTEMPTY : Int := 39
def ENODATA : Int := 61
def ECONNRESET : Int := 104

/-! ## Data model -/

/-- The fields of `struct cvp_hfi_queue_header` that the queue primitives
read or write. -/
structure cvp_hfi_queue_header where
  qhdr_type : Nat
  qhdr_rx_req : Nat
  qhdr_tx_req : Nat
  qhdr_read_idx : Nat
  qhdr_write_idx : Nat
  deriving DecidableEq

/-- The fields of `struct cvp_mem_addr` used by the queue primitives:
`align_virtual_addr` is `none` for `NULL`, otherwise the words of the mapped
memory counted from the base pointer. -/
structure cvp_mem_addr where
  align_virtual_addr : Option (Nat → Nat)
  mem_size : Nat

/-- The queue descriptor `struct cvp_iface_q_info`: header pointer and
queue array. -/
structure cvp_iface_q_info where
  q_hdr : Option cvp_hfi_queue_header
  q_array : cvp_mem_addr

/-- An allocated queue: header `queue`, array contents `mem`, array size
`mem_size` bytes. -/
def mk_qinfo (queue : cvp_hfi_queue_header) (mem : Nat → Nat) (mem_size : Nat) :
    cvp_iface_q_info :=
  ⟨some queue, ⟨some mem, mem_size⟩⟩

/-- `memcpy(dst + dst_off, src + src_off, n)` with byte offsets and a byte
count, on word-addressed memories; returns the new contents of `dst`. -/
def memcpy (dst : Nat → Nat) (dst_off : Nat) (src : Nat → Nat) (src_off : Nat)
    (n : Nat) : Nat → Nat :=
  fun i =>
    if dst_off / 4 ≤ i ∧ i < dst_off / 4 + n / 4 then src (src_off / 4 + (i - dst_off / 4))
    else dst i

/-- What `__write_queue` leaves behind: return code, the queue descriptor
after the call, and the value stored through `rx_req_is_set` (`none` when the
function returns before that store). -/
structure write_result where
  rc : Int
  qinfo : Option cvp_iface_q_info
  rx_req_is_set : Option Bool

/-- What `__read_queue` leaves behind: return code, the queue descriptor, the
output buffer `packet` and the cell `*pb_tx_req_is_set`. -/
structure read_result where
  rc : Int
  qinfo : Option cvp_iface_q_info
  packet : Option (Nat → Nat)
  pb_tx_req_is_set : Option Nat

/-- The header behind a queue descriptor pointer, when there is one. -/
def q_hdr_of (qinfo : Option cvp_iface_q_info) : Option cvp_hfi_queue_header :=
  qinfo.bind fun qi => qi.q_hdr

/-- The contents of the queue array behind a queue descriptor pointer. -/
def q_mem_of (qinfo : Option cvp_iface_q_info) : Option (Nat → Nat) :=
  qinfo.bind fun qi => qi.q_array.align_virtual_addr

/-! ## `__write_queue` -/

/-- The value of the local `empty_space` of `__write_queue` (lines 421-423):
the free words computed from the two indices, `capacity` being
`mem_size >> 2`. -/
def empty_space (capacity read_idx write_idx : Nat) : Nat :=
  if write_idx ≥ read_idx then sub32 capacity (write_idx - read_idx)
  else read_idx - write_idx

/-- The function `__write_queue` (lines 383-471).  `qinfo` and `packet` are the
two pointer arguments; the result carries what would be stored through
`rx_req_is_set` when that pointer is not `NULL`. -/
def __write_queue (qinfo : Option cvp_iface_q_info) (packet : Option (Nat → Nat)) :
    write_result :=
  match qinfo, packet with
  | none, _ => ⟨-EINVAL, qinfo, none⟩
  | some _, none => ⟨-EINVAL, qinfo, none⟩
  | some qi, some pkt =>
    match qi.q_array.align_virtual_addr with
    | none => ⟨-EINVAL, qinfo, none⟩
    | some mem =>
      match qi.q_hdr with
      | none => ⟨-ENOENT, qinfo, none⟩
      | some queue =>
        let mem_size := u32 qi.q_array.mem_size
        let packet_size_in_words := shr2 (u32 (pkt 0))
        if packet_size_in_words = 0 ∨ packet_size_in_words > shr2 mem_size then
          ⟨-ENODATA, qinfo, none⟩
        else
          let read_idx := u32 queue.qhdr_read_idx
          let write_idx := u32 queue.qhdr_write_idx
          if empty_space (shr2 mem_size) read_idx write_idx ≤ packet_size_in_words then
            ⟨-ENOTEMPTY,
              some { qi with q_hdr := some { queue with qhdr_tx_req := 1 } }, none⟩
          else
            let queue := { queue with qhdr_tx_req := 0 }
            let new_write_idx := add32 write_idx packet_size_in_words
            -- byte offset of `write_ptr` from `align_virtual_addr`; it is never
            -- below the base, so only the upper comparison can fail
            let write_ptr := shl2 write_idx
            if write_ptr > mem_size then
              ⟨-ENODATA, some { qi with q_hdr := some queue }, none⟩
            else
              if new_write_idx < shr2 mem_size then
                let mem := memcpy mem write_ptr pkt 0 (shl2 packet_size_in_words)
                let queue := { queue with qhdr_write_idx := new_write_idx }
                ⟨0, some ⟨some queue, ⟨some mem, qi.q_array.mem_size⟩⟩,
                  some (decide (u32 queue.qhdr_rx_req = 1))⟩
              else
                let new_write_idx := sub32 new_write_idx (shr2 mem_size)
                let mem := memcpy mem write_ptr pkt 0
                  (shl2 (sub32 packet_size_in_words new_write_idx))
                let mem := memcpy mem 0 pkt
                  (shl2 (sub32 packet_size_in_words new_write_idx)) (shl2 new_write_idx)
                let queue := { queue with qhdr_write_idx := new_write_idx }
                ⟨0, some ⟨some queue, ⟨some mem, qi.q_array.mem_size⟩⟩,
                  some (decide (u32 queue.qhdr_rx_req = 1))⟩

/-! ## `__read_queue` -/

/-- Lines 539-601 of `__read_queue`: the part after the empty-queue test.
`queue` is the header as it stands when control reaches line 539, `read_idx`
and `write_idx` are the two locals loaded at lines 515-516. -/
def __read_queue_packet (CVP_IFACEQ_VAR_HUGE_PKT_SIZE : Nat)
    (qi : cvp_iface_q_info) (queue : cvp_hfi_queue_header) (mem : Nat → Nat)
    (out : Nat → Nat) (pb : Nat) (receive_request read_idx write_idx : Nat) :
    read_result :=
  let mem_size := u32 qi.q_array.mem_size
  -- byte offset of `read_ptr` from `align_virtual_addr`; the upper bound of the
  -- check is `align_virtual_addr + mem_size - sizeof(u32)`
  let read_ptr := shl2 read_idx
  if read_ptr + 4 > mem_size then
    ⟨-ENODATA, some { qi with q_hdr := some queue }, some out, some pb⟩
  else
    let packet_size_in_words := shr2 (u32 (mem (read_ptr / 4)))
    if packet_size_in_words = 0 then
      ⟨-ENODATA, some { qi with q_hdr := some queue }, some out, some pb⟩
    else
      let new_read_idx := add32 read_idx packet_size_in_words
      let copied : Nat × (Nat → Nat) × Int :=
        if shl2 packet_size_in_words ≤ CVP_IFACEQ_VAR_HUGE_PKT_SIZE
            ∧ read_idx ≤ shr2 mem_size then
          if new_read_idx < shr2 mem_size then
            (new_read_idx, memcpy out 0 mem read_ptr (shl2 packet_size_in_words), 0)
          else
            let new_read_idx := sub32 new_read_idx (shr2 mem_size)
            let out := memcpy out 0 mem read_ptr
              (shl2 (sub32 packet_size_in_words new_read_idx))
            let out := memcpy out (shl2 (sub32 packet_size_in_words new_read_idx))
              mem 0 (shl2 new_read_idx)
            (new_read_idx, out, 0)
        else
          (write_idx, out, -ENODATA)
      let new_read_idx := copied.1
      let queue :=
        if new_read_idx ≠ u32 queue.qhdr_write_idx then { queue with qhdr_rx_req := 0 }
        else { queue with qhdr_rx_req := receive_request }
      let queue := { queue with qhdr_read_idx := new_read_idx }
      ⟨copied.2.2, some { qi with q_hdr := some queue }, some copied.2.1,
        some (if u32 queue.qhdr_tx_req = 1 then 1 else 0)⟩

/-- The function `__read_queue` (lines 473-602).  `packet` is the output buffer
and `pb_tx_req_is_set` the cell behind the third pointer argument, both with
their contents before the call.  The second load of `qhdr_write_idx` at
line 526 reads the header of the model, which no other agent changes. -/
def __read_queue (CVP_IFACEQ_VAR_HUGE_PKT_SIZE HFI_Q_ID_CTRL_TO_HOST_MSG_Q : Nat)
    (qinfo : Option cvp_iface_q_info) (packet : Option (Nat → Nat))
    (pb_tx_req_is_set : Option Nat) : read_result :=
  match qinfo, packet, pb_tx_req_is_set with
  | none, _, _ => ⟨-EINVAL, qinfo, packet, pb_tx_req_is_set⟩
  | some _, none, _ => ⟨-EINVAL, qinfo, packet, pb_tx_req_is_set⟩
  | some _, some _, none => ⟨-EINVAL, qinfo, packet, pb_tx_req_is_set⟩
  | some qi, some out, some pb =>
    match qi.q_array.align_virtual_addr with
    | none => ⟨-EINVAL, qinfo, packet, pb_tx_req_is_set⟩
    | some mem =>
      match qi.q_hdr with
      | none => ⟨-ENOMEM, qinfo, packet, pb_tx_req_is_set⟩
      | some queue =>
        let receive_request :=
          if u32 queue.qhdr_type &&& HFI_Q_ID_CTRL_TO_HOST_MSG_Q ≠ 0 then 1 else 0
        let read_idx := u32 queue.qhdr_read_idx
        let write_idx := u32 queue.qhdr_write_idx
        if read_idx = write_idx then
          let queue := { queue with qhdr_rx_req := receive_request }
          if write_idx ≠ u32 queue.qhdr_write_idx then
            __read_queue_packet CVP_IFACEQ_VAR_HUGE_PKT_SIZE qi
              { queue with qhdr_rx_req := 0 } mem out 0 receive_request read_idx write_idx
          else
            ⟨-ENODATA, some { qi with q_hdr := some queue }, some out, some 0⟩
        else
          __read_queue_packet CVP_IFACEQ_VAR_HUGE_PKT_SIZE qi queue mem out pb
            receive_request read_idx write_idx

/-! ## Device, sessions and power collapse -/

/-- A session object `struct cvp_hal_session`: `addr` is the address of the
object (the identity that pointer comparisons see), `flags` its flag word,
`session_id` the `void *session_id` of the client and `device` the back
pointer to the owning device (`none` for `NULL`, otherwise the address of
the one device of the model). -/
structure cvp_hal_session where
  addr : Nat
  flags : Nat
  session_id : Nat
  device : Option Nat
  deriving DecidableEq

/-- One entry of the response array, `struct msm_cvp_cb_info`: the response
type, the `device_id` and `session_id` members of the response and, in
`data`, everything else of the response. -/
structure msm_cvp_cb_info where
  response_type : Nat
  device_id : Nat
  session_id : Nat
  data : Nat
  deriving DecidableEq

/-- The steps of `iris_hfi_core_init` and `__load_fw` that acquire something:
the allocation of `bus_vote.data` and the calls of `__init_resources`,
`load_cvp_fw_impl`, `msm_cvp_mmrm_register` and `__interface_queues_init`. -/
inductive init_step where
  | bus_vote_data
  | init_resources
  | load_cvp_fw_impl
  | mmrm_register
  | interface_queues_init
  deriving DecidableEq

/-- What the driver did to the outside world, in order of occurrence:
a fatal hardware error reported to `msm_cvp_res_handle_fatal_hw_error`,
a register write, the cancelling and queueing of the delayed power-collapse
work, a call of `device->callback`, the re-enabling of the interrupt, a
step of the core initialisation that acquires something and the disabling of
the interrupt by `disable_irq_nosync`. -/
inductive hw_event where
  | fatal_hw_error
  | reg_write (reg value : Nat)
  | cancel_delayed_work
  | queue_delayed_work (delay : Nat)
  | callback (response_type : Nat) (rsp : msm_cvp_cb_info)
  | enable_irq
  | acquire (step : init_step)
  | disable_irq_nosync
  deriving DecidableEq

/-- The fields of `struct msm_cvp_platform_resources` (`device->res`) that
the modelled functions read; `pm_qos_hdls` tells whether the pointer
`pm_qos.pm_qos_hdls` is set. -/
structure msm_cvp_platform_resources where
  sw_power_collapsible : Bool
  msm_cvp_pwr_collapse_delay : Nat
  pm_qos_latency_us : Nat
  pm_qos_hdls : Bool

/-- The fields of `struct iris_hfi_device` used by the modelled functions.
`state` holds the value of `enum iris_hfi_state`; `reg_reads` counts the
register reads done so far and `trace` records the events of `hw_event`.
`iface_cmdq`, `iface_msgq` and `iface_dbgq` are the entries
`CVP_IFACEQ_CMDQ_IDX`, `CVP_IFACEQ_MSGQ_IDX` and `CVP_IFACEQ_DBGQ_IDX` of
`iface_queues`; `raw_packet` and `response_pkt` are the two buffers of the
device (`none` for `NULL`), `callback` tells whether the callback pointer is
set. -/
structure iris_hfi_device where
  device_id : Nat
  state : Nat
  power_enabled : Bool
  sess_head : List cvp_hal_session
  skip_pc_count : Nat
  last_packet_type : Nat
  intr_status : Nat
  reg_reads : Nat
  trace : List hw_event
  res : msm_cvp_platform_resources
  iface_cmdq : cvp_iface_q_info
  iface_msgq : cvp_iface_q_info
  iface_dbgq : cvp_iface_q_info
  raw_packet : Option (Nat → Nat)
  response_pkt : Option (Nat → msm_cvp_cb_info)
  callback : Bool

/-- Everything `__power_collapse` takes from outside `cvp_hfi.c`: constants of
the headers, the global `msm_cvp_dsp_disable`, the DSP driver entry point
`cvp_dsp_suspend` and the hardware behind `readl_relaxed` (the value of the
`k`-th register read of the run, at register offset `reg`). -/
structure cvp_platform where
  IRIS_STATE_DEINIT : Nat
  SESSION_PAUSE : Nat
  CVP_CTRL_STATUS : Nat
  CVP_WRAPPER_CPU_STATUS : Nat
  CVP_CTRL_STATUS_PC_READY : Nat
  msm_cvp_dsp_disable : Bool
  cvp_dsp_suspend : Nat → Int
  readl_relaxed : Nat → Nat → Nat

/-- The functions of `cvp_hfi.c` that `__power_collapse` calls after the DSP
has agreed to suspend, taken as parameters: each maps the device to the
device it leaves behind, with its return code where it has one. -/
structure power_callees where
  __flush_debug_queue : iris_hfi_device → iris_hfi_device
  __prepare_pc : iris_hfi_device → Int × iris_hfi_device
  __suspend : iris_hfi_device → Int × iris_hfi_device

/-- The function `__core_in_valid_state` (lines 130-133). -/
def __core_in_valid_state (P : cvp_platform) (device : iris_hfi_device) : Bool :=
  decide (device.state ≠ P.IRIS_STATE_DEINIT)

/-- The loop of `__dsp_suspend` over the session list (lines 237-249):
`true` when it leaves the function with `-EBUSY`. -/
def __dsp_suspend_scan (P : cvp_platform) (force : Bool) : List cvp_hal_session → Bool
  | [] => false
  | temp :: rest =>
    if force then __dsp_suspend_scan P force rest
    else if u32 temp.flags &&& P.SESSION_PAUSE = 0 then true
    else __dsp_suspend_scan P force rest

/-- The function `__dsp_suspend` (lines 229-261). -/
def __dsp_suspend (P : cvp_platform) (device : iris_hfi_device) (force : Bool)
    (flags : Nat) : Int :=
  if P.msm_cvp_dsp_disable then 0
  else if __dsp_suspend_scan P force device.sess_head then -EBUSY
  else
    let rc := P.cvp_dsp_suspend flags
    if rc ≠ 0 then -EINVAL else 0

/-- The function `__read_register` (lines 714-745) for a device pointer that
is not `NULL`, with the device lock held: the `int` it returns, as the `u32`
its callers store it in, and the device afterwards. -/
def __read_register (P : cvp_platform) (device : iris_hfi_device) (reg : Nat) :
    Nat × iris_hfi_device :=
  if !device.power_enabled then
    (sub32 0 22, { device with trace := device.trace ++ [hw_event.fatal_hw_error] })
  else
    (u32 (P.readl_relaxed device.reg_reads reg),
      { device with reg_reads := device.reg_reads + 1 })

/-- The polling loop of `__power_collapse` (lines 596-606), `fuel` being
`max_tries - count`: the values of `count`, `wfi_status` and `pc_ready` and
the device when the loop is left. -/
def __power_collapse_poll (P : cvp_platform) :
    Nat → iris_hfi_device → Nat → Nat → Nat → Nat × Nat × Nat × iris_hfi_device
  | 0, device, count, wfi_status, pc_ready => (count, wfi_status, pc_ready, device)
  | fuel + 1, device, count, _, _ =>
    let r1 := __read_register P device P.CVP_WRAPPER_CPU_STATUS
    let wfi_status := r1.1
    let r2 := __read_register P r1.2 P.CVP_CTRL_STATUS
    let pc_ready := r2.1
    if wfi_status &&& 1 ≠ 0 ∧ pc_ready &&& P.CVP_CTRL_STATUS_PC_READY ≠ 0 then
      (count, wfi_status, pc_ready, r2.2)
    else
      __power_collapse_poll P fuel r2.2 (count + 1) wfi_status pc_ready

/-- The label `skip_power_off` of `__power_collapse` (lines 631-635). -/
def __power_collapse_skip (K : power_callees) (device : iris_hfi_device) :
    Int × Option iris_hfi_device :=
  (-EAGAIN, some (K.__flush_debug_queue device))

/-- The function `__power_collapse` (lines 2537-2636). -/
def __power_collapse (P : cvp_platform) (K : power_callees)
    (device : Option iris_hfi_device) (force : Bool) : Int × Option iris_hfi_device :=
  let max_tries := 150
  match device with
  | none => (-EINVAL, none)
  | some dev =>
    if !dev.power_enabled then (0, some dev)
    else if !__core_in_valid_state P dev then (-EINVAL, some dev)
    else
      let rc := __dsp_suspend P dev force 0
      if rc = -EBUSY then (rc, some dev)
      else if rc ≠ 0 then __power_collapse_skip K dev
      else
        let dev := K.__flush_debug_queue dev
        let r := __read_register P dev P.CVP_CTRL_STATUS
        let pc_ready := r.1 &&& P.CVP_CTRL_STATUS_PC_READY
        let dev := r.2
        if pc_ready = 0 then
          let r := __read_register P dev P.CVP_WRAPPER_CPU_STATUS
          let wfi_status := r.1
          let r := __read_register P r.2 P.CVP_CTRL_STATUS
          let idle_status := r.1
          let dev := r.2
          if wfi_status &&& 1 = 0 then __power_collapse_skip K dev
          else if idle_status &&& 1073741824 = 0 then __power_collapse_skip K dev
          else
            let r := K.__prepare_pc dev
            if r.1 ≠ 0 then __power_collapse_skip K r.2
            else
              let p := __power_collapse_poll P max_tries r.2 0 wfi_status pc_ready
              if p.1 = max_tries then __power_collapse_skip K p.2.2.2
              else
                let s := K.__suspend p.2.2.2
                (s.1, some s.2)
        else
          let r := __read_register P dev P.CVP_WRAPPER_CPU_STATUS
          let wfi_status := r.1
          if wfi_status &&& 1 = 0 then __power_collapse_skip K r.2
          else
            let s := K.__suspend r.2
            (s.1, some s.2)

/-! ## Registers, sessions and the command path -/

/-- What the command path and the response path take from outside
`cvp_hfi.c`, on top of `cvp_platform`: constants and enumerators of the
headers, the globals `msm_cvp_fw_coverage` and `gfa_cv.state` (as the test
`gfa_cv.state == DSP_SUSPEND`), the accessor of the member `packet_type` of
`struct cvp_hal_cmd_pkt_hdr`, the packet builders behind `call_hfi_pkt_op`
(each gives its return code and the packet it leaves in the buffer), the
decoder `cvp_hfi_process_msg_packet` (from the device id, the raw packet and
the old contents of the slot to the return code and the new contents of the
slot), `cvp_hfi_process_sys_init_done_prop_read` with the copy into the slot
(as the new `data` of the slot), the hash `hash32_ptr` of a session address,
what a call of `device->callback` does to the device by calling back
into the driver, and what one pass of the loop of `__flush_debug_queue` does
to the packet buffer (lines 2700-2723, the layout of the debug packet being
in a header). -/
structure hfi_platform extends cvp_platform where
  IRIS_STATE_INIT : Nat
  CVP_CPU_CS_H2ASOFTINT : Nat
  CVP_CC_MVS1C_GDSCR : Nat
  CVP_CC_MVS1C_CBCR : Nat
  CVP_IFACEQ_VAR_HUGE_PKT_SIZE : Nat
  HFI_Q_ID_CTRL_TO_HOST_MSG_Q : Nat
  HFI_CMD_SYS_PC_PREP : Nat
  HFI_CMD_SYS_SESSION_END : Nat
  HFI_CMD_SYS_SESSION_ABORT : Nat
  HFI_CMD_SESSION_CVP_FLUSH : Nat
  CVP_MAX_PC_SKIP_COUNT : Nat
  CVP_FATAL_INTR_BMSK : Nat
  CVP_WRAPPER_INTR_STATUS_A2HWD_BMSK : Nat
  HAL_NO_RESP : Nat
  HAL_SYS_ERROR : Nat
  HAL_SYS_INIT_DONE : Nat
  HAL_SYS_WATCHDOG_TIMEOUT : Nat
  HAL_SESSION_ERROR : Nat
  HAL_SESSION_CMD_DONE : List Nat
  msm_cvp_fw_coverage : Nat
  dsp_suspended : Bool
  packet_type : (Nat → Nat) → Nat
  sys_pc_prep : Int × (Nat → Nat)
  sys_coverage_config : Nat → Int × (Nat → Nat)
  session_cmd : Nat → cvp_hal_session → Int × (Nat → Nat)
  session_set_buffers : cvp_hal_session → Nat → Nat → Int × (Nat → Nat)
  session_release_buffers : cvp_hal_session → Int × (Nat → Nat)
  session_send : cvp_hal_session → (Nat → Nat) → Int × (Nat → Nat)
  cvp_hfi_process_msg_packet : Nat → (Nat → Nat) → msm_cvp_cb_info → Int × msm_cvp_cb_info
  sys_init_done_data : iris_hfi_device → (Nat → Nat) → msm_cvp_cb_info → Nat
  hash32_ptr : Nat → Nat
  callback : Nat → msm_cvp_cb_info → iris_hfi_device → iris_hfi_device
  CVP_WRAPPER_INTR_STATUS : Nat
  CVP_CPU_CS_A2HSOFTINTCLR : Nat
  CVP_WRAPPER_INTR_MASK_A2HCPU_BMSK : Nat
  debug_packet : (Nat → Nat) → (Nat → Nat)

/-- The functions that `__resume` calls once it has found the power off,
taken as parameters: each maps the device to the device it leaves behind,
with its return code where `__resume` looks at one. -/
structure resume_callees where
  __iris_power_on : iris_hfi_device → Int × iris_hfi_device
  __tzbsp_set_cvp_state : Nat → iris_hfi_device → Int × iris_hfi_device
  __setup_ucregion_memory_map : iris_hfi_device → iris_hfi_device
  __boot_firmware : iris_hfi_device → Int × iris_hfi_device
  msm_cvp_trigger_ssr : iris_hfi_device → iris_hfi_device
  __set_threshold_registers : iris_hfi_device → iris_hfi_device
  cvp_pm_qos_update : Bool → iris_hfi_device → iris_hfi_device
  __sys_set_debug : iris_hfi_device → iris_hfi_device
  __enable_subcaches : iris_hfi_device → iris_hfi_device
  __set_subcaches : iris_hfi_device → iris_hfi_device
  __dsp_resume : iris_hfi_device → iris_hfi_device
  power_off : iris_hfi_device → iris_hfi_device

/-- The enumerators of `enum tzbsp_subsys_state` (lines 54-58). -/
def TZ_SUBSYS_STATE_SUSPEND : Nat := 0
def TZ_SUBSYS_STATE_RESUME : Nat := 1

/-- The constant `cvp_max_packets` (line 65). -/
def cvp_max_packets : Nat := 32

/-- The function `__write_register` (lines 646-676) for a device pointer
that is not `NULL`, with the device lock held. -/
def __write_register (device : iris_hfi_device) (reg value : Nat) : iris_hfi_device :=
  if !device.power_enabled then
    { device with trace := device.trace ++ [hw_event.fatal_hw_error] }
  else
    { device with trace := device.trace ++ [hw_event.reg_write reg value] }

/-- The loop of `__is_session_valid` over the session list (lines 2740-2742),
`session` being the address compared. -/
def __is_session_valid_scan (session : Nat) : List cvp_hal_session → Bool
  | [] => false
  | temp :: rest => if session = temp.addr then true else __is_session_valid_scan session rest

/-- The function `__is_session_valid` (lines 2732-2748); `session` is the
pointer value, which the function never dereferences. -/
def __is_session_valid (device : Option iris_hfi_device) (session : Option Nat) : Bool :=
  match device, session with
  | some dev, some s => __is_session_valid_scan s dev.sess_head
  | _, _ => false

/-- The loop of `__session_clean` over the session list (lines 2105-2110):
the list after `list_del` of the first node at the address `session`. -/
def __session_clean_unlink (session : Nat) : List cvp_hal_session → List cvp_hal_session
  | [] => []
  | temp :: rest =>
    if session = temp.addr then rest else temp :: __session_clean_unlink session rest

/-- The function `__session_clean` (lines 2090-2114).  `dev` is the device
that `session->device` points to when it is not `NULL`.  The result is that
device after the call and the contents of the session object after the
poisoning of line 2112 (it is freed right after). -/
def __session_clean (dev : iris_hfi_device) (session : Option cvp_hal_session) :
    iris_hfi_device × Option cvp_hal_session :=
  match session with
  | none => (dev, none)
  | some s =>
    if s.device = none then (dev, some s)
    else
      ({ dev with sess_head := __session_clean_unlink s.addr dev.sess_head },
        some { s with flags := 0, session_id := 0, device := none })

/-- The function `iris_hfi_validate_session` (lines 4739-4757); `dev` is the
device that `session->device` points to when it is not `NULL`. -/
def iris_hfi_validate_session (dev : iris_hfi_device) (sess : Option cvp_hal_session) : Int :=
  match sess with
  | none => -EINVAL
  | some session =>
    if session.device = none then -EINVAL
    else if !__is_session_valid (some dev) (some session.addr) then -ECONNRESET
    else 0

/-- The device after a call that was given a device: the model never turns a
device pointer into `NULL`. -/
def dev_of (r : Option iris_hfi_device) (dev : iris_hfi_device) : iris_hfi_device :=
  r.getD dev

/-- The label `exit` of `__resume` (lines 4300-4304) with `rc = 0`. -/
def __resume_exit (E : hfi_platform) (dev : iris_hfi_device) : Int × Option iris_hfi_device :=
  if dev.last_packet_type ≠ E.HFI_CMD_SYS_PC_PREP then
    (0, some { dev with skip_pc_count := 0 })
  else (0, some dev)

/-- The function `__resume` (lines 4234-4312). -/
def __resume (E : hfi_platform) (R : resume_callees) (device : Option iris_hfi_device) :
    Int × Option iris_hfi_device :=
  match device with
  | none => (-EINVAL, none)
  | some dev =>
    if dev.power_enabled then __resume_exit E dev
    else if !__core_in_valid_state E.tocvp_platform dev then (-EINVAL, some dev)
    else
      let p := R.__iris_power_on dev
      if p.1 ≠ 0 then (p.1, some p.2)
      else
        let g := __read_register E.tocvp_platform p.2 E.CVP_CC_MVS1C_GDSCR
        let c := __read_register E.tocvp_platform g.2 E.CVP_CC_MVS1C_CBCR
        let t := R.__tzbsp_set_cvp_state TZ_SUBSYS_STATE_RESUME c.2
        if t.1 ≠ 0 then (t.1, some (R.power_off t.2))
        else
          let dev := R.__setup_ucregion_memory_map t.2
          let b := R.__boot_firmware dev
          if b.1 ≠ 0 then
            let dev := R.msm_cvp_trigger_ssr b.2
            let t := R.__tzbsp_set_cvp_state TZ_SUBSYS_STATE_SUSPEND dev
            (b.1, some (R.power_off t.2))
          else
            let dev := R.__set_threshold_registers b.2
            let dev :=
              if dev.res.pm_qos_latency_us ≠ 0 ∧ dev.res.pm_qos_hdls then
                R.cvp_pm_qos_update true dev
              else dev
            let dev := R.__sys_set_debug dev
            let dev := R.__enable_subcaches dev
            let dev := R.__set_subcaches dev
            let dev := R.__dsp_resume dev
            __resume_exit E dev

/-- What `__iface_cmdq_write_relaxed` leaves behind: return code, device and
the value stored through `requires_interrupt` (`none` when nothing was
stored). -/
structure cmdq_result where
  rc : Int
  device : Option iris_hfi_device
  requires_interrupt : Option Bool

/-- The function `__iface_cmdq_write_relaxed` (lines 1140-1200), with the
device lock held. -/
def __iface_cmdq_write_relaxed (E : hfi_platform) (R : resume_callees)
    (device : Option iris_hfi_device) (pkt : Option (Nat → Nat)) : cmdq_result :=
  match device, pkt with
  | none, _ => ⟨-EINVAL, device, none⟩
  | some _, none => ⟨-EINVAL, device, none⟩
  | some dev, some packet =>
    if !__core_in_valid_state E.tocvp_platform dev then ⟨-EINVAL, some dev, none⟩
    else
      let dev := { dev with last_packet_type := E.packet_type packet }
      if dev.iface_cmdq.q_array.align_virtual_addr.isNone then ⟨-ENODATA, some dev, none⟩
      else
        let r := __resume E R (some dev)
        let dev := dev_of r.2 dev
        if r.1 ≠ 0 then ⟨-E2BIG, some dev, none⟩
        else
          let w := __write_queue (some dev.iface_cmdq) (some packet)
          let dev := { dev with iface_cmdq := w.qinfo.getD dev.iface_cmdq }
          if w.rc = 0 then
            let dev :=
              if dev.res.sw_power_collapsible then
                { dev with
                  trace := dev.trace ++ [hw_event.cancel_delayed_work,
                    hw_event.queue_delayed_work dev.res.msm_cvp_pwr_collapse_delay] }
              else dev
            ⟨0, some dev, w.rx_req_is_set⟩
          else ⟨-E2BIG, some dev, w.rx_req_is_set⟩

/-- The function `__iface_cmdq_write` (lines 1202-1214). -/
def __iface_cmdq_write (E : hfi_platform) (R : resume_callees)
    (device : Option iris_hfi_device) (pkt : Option (Nat → Nat)) :
    Int × Option iris_hfi_device :=
  let r := __iface_cmdq_write_relaxed E R device pkt
  let needs_interrupt := r.requires_interrupt.getD false
  if r.rc = 0 ∧ needs_interrupt then
    (0, r.device.map fun dev => __write_register dev E.CVP_CPU_CS_H2ASOFTINT 1)
  else (r.rc, r.device)

/-- The function `__prepare_pc` (lines 2452-2469). -/
def __prepare_pc (E : hfi_platform) (R : resume_callees) (device : iris_hfi_device) :
    Int × iris_hfi_device :=
  let b := E.sys_pc_prep
  if b.1 ≠ 0 then (b.1, device)
  else
    let w := __iface_cmdq_write E R (some device) (some b.2)
    if w.1 ≠ 0 then (-ENOTEMPTY, dev_of w.2 device) else (0, dev_of w.2 device)

/-- The function `__sys_set_coverage` (lines 1715-1736). -/
def __sys_set_coverage (E : hfi_platform) (R : resume_callees) (device : iris_hfi_device)
    (mode : Nat) : Int × iris_hfi_device :=
  let b := E.sys_coverage_config mode
  if b.1 ≠ 0 then (-ENOTEMPTY, device)
  else
    let w := __iface_cmdq_write E R (some device) (some b.2)
    if w.1 ≠ 0 then (-ENOTEMPTY, dev_of w.2 device) else (0, dev_of w.2 device)

/-- The function `__send_session_cmd` (lines 2192-2216); `dev` is the device
that `session->device` points to. -/
def __send_session_cmd (E : hfi_platform) (R : resume_callees) (dev : iris_hfi_device)
    (session : cvp_hal_session) (pkt_type : Nat) : Int × iris_hfi_device :=
  if !__is_session_valid (session.device.map fun _ => dev) (some session.addr) then
    (-ECONNRESET, dev)
  else
    let b := E.session_cmd pkt_type session
    if b.1 = -EPERM then (0, dev)
    else if b.1 ≠ 0 then (b.1, dev)
    else
      let w := __iface_cmdq_write E R (session.device.map fun _ => dev) (some b.2)
      if w.1 ≠ 0 then (-ENOTEMPTY, dev_of w.2 dev) else (b.1, dev_of w.2 dev)

/-- The function `iris_hfi_session_end` (lines 2218-2248). -/
def iris_hfi_session_end (E : hfi_platform) (R : resume_callees) (dev : iris_hfi_device)
    (session : Option cvp_hal_session) : Int × iris_hfi_device :=
  match session with
  | none => (-EINVAL, dev)
  | some sess =>
    if sess.device = none then (-EINVAL, dev)
    else
      let dev :=
        if E.msm_cvp_fw_coverage ≠ 0 then (__sys_set_coverage E R dev E.msm_cvp_fw_coverage).2
        else dev
      __send_session_cmd E R dev sess E.HFI_CMD_SYS_SESSION_END

/-- The function `iris_hfi_session_abort` (lines 2250-2270). -/
def iris_hfi_session_abort (E : hfi_platform) (R : resume_callees) (dev : iris_hfi_device)
    (sess : Option cvp_hal_session) : Int × iris_hfi_device :=
  match sess with
  | none => (-EINVAL, dev)
  | some session =>
    if session.device = none then (-EINVAL, dev)
    else __send_session_cmd E R dev session E.HFI_CMD_SYS_SESSION_ABORT

/-- The function `iris_hfi_session_set_buffers` (lines 2272-2305). -/
def iris_hfi_session_set_buffers (E : hfi_platform) (R : resume_callees)
    (dev : iris_hfi_device) (sess : Option cvp_hal_session) (iova size : Nat) :
    Int × iris_hfi_device :=
  match sess with
  | none => (-EINVAL, dev)
  | some session =>
    if session.device = none ∨ u32 iova = 0 ∨ u32 size = 0 then (-EINVAL, dev)
    else if !__is_session_valid (some dev) (some session.addr) then (-ECONNRESET, dev)
    else
      let b := E.session_set_buffers session (u32 iova) (u32 size)
      if b.1 ≠ 0 then (b.1, dev)
      else
        let w := __iface_cmdq_write E R (some dev) (some b.2)
        if w.1 ≠ 0 then (-ENOTEMPTY, dev_of w.2 dev) else (b.1, dev_of w.2 dev)

/-- The function `iris_hfi_session_release_buffers` (lines 2307-2339). -/
def iris_hfi_session_release_buffers (E : hfi_platform) (R : resume_callees)
    (dev : iris_hfi_device) (sess : Option cvp_hal_session) : Int × iris_hfi_device :=
  match sess with
  | none => (-EINVAL, dev)
  | some session =>
    if session.device = none then (-EINVAL, dev)
    else if !__is_session_valid (some dev) (some session.addr) then (-ECONNRESET, dev)
    else
      let b := E.session_release_buffers session
      if b.1 ≠ 0 then (b.1, dev)
      else
        let w := __iface_cmdq_write E R (some dev) (some b.2)
        if w.1 ≠ 0 then (-ENOTEMPTY, dev_of w.2 dev) else (b.1, dev_of w.2 dev)

/-- The function `iris_hfi_session_send` (lines 2341-2377). -/
def iris_hfi_session_send (E : hfi_platform) (R : resume_callees) (dev : iris_hfi_device)
    (sess : Option cvp_hal_session) (in_pkt : Nat → Nat) : Int × iris_hfi_device :=
  match sess with
  | none => (-ENODEV, dev)
  | some session =>
    if session.device = none then (-ENODEV, dev)
    else if !__is_session_valid (some dev) (some session.addr) then (-ECONNRESET, dev)
    else
      let b := E.session_send session in_pkt
      if b.1 ≠ 0 then (b.1, dev)
      else
        let w := __iface_cmdq_write E R (some dev) (some b.2)
        if w.1 ≠ 0 then (-ENOTEMPTY, dev_of w.2 dev) else (b.1, dev_of w.2 dev)

/-- The function `iris_hfi_session_flush` (lines 2379-2399). -/
def iris_hfi_session_flush (E : hfi_platform) (R : resume_callees) (dev : iris_hfi_device)
    (sess : Option cvp_hal_session) : Int × iris_hfi_device :=
  match sess with
  | none => (-EINVAL, dev)
  | some session =>
    if session.device = none then (-EINVAL, dev)
    else __send_session_cmd E R dev session E.HFI_CMD_SESSION_CVP_FLUSH

/-- The function `__process_fatal_error` (lines 2443-2450): the callback is
called with `HAL_SYS_ERROR` and a zeroed `msm_cvp_cb_cmd_done` that carries
the device id. -/
def __process_fatal_error (E : hfi_platform) (device : iris_hfi_device) : iris_hfi_device :=
  let cmd_done : msm_cvp_cb_info := ⟨E.HAL_SYS_ERROR, device.device_id, 0, 0⟩
  E.callback E.HAL_SYS_ERROR cmd_done
    { device with trace := device.trace ++ [hw_event.callback E.HAL_SYS_ERROR cmd_done] }

/-- The function `iris_hfi_pm_handler` (lines 2471-2535); `device` is the
device found through the first core of `cvp_driver->cores`. -/
def iris_hfi_pm_handler (E : hfi_platform) (K : power_callees)
    (device : Option iris_hfi_device) : Option iris_hfi_device :=
  match device with
  | none => none
  | some dev =>
    if dev.skip_pc_count ≥ E.CVP_MAX_PC_SKIP_COUNT then
      some (__process_fatal_error E { dev with skip_pc_count := 0 })
    else
      let r :=
        if E.dsp_suspended then __power_collapse E.tocvp_platform K (some dev) true
        else __power_collapse E.tocvp_platform K (some dev) false
      let dev := dev_of r.2 dev
      if r.1 = 0 then
        some { dev with
          skip_pc_count := 0
          trace := dev.trace ++ [hw_event.cancel_delayed_work] }
      else if r.1 = -EBUSY then
        some { dev with
          skip_pc_count := 0
          trace := dev.trace ++ [hw_event.queue_delayed_work dev.res.msm_cvp_pwr_collapse_delay] }
      else if r.1 = -EAGAIN then
        some { dev with
          skip_pc_count := dev.skip_pc_count + 1
          trace := dev.trace ++ [hw_event.queue_delayed_work dev.res.msm_cvp_pwr_collapse_delay] }
      else some dev

/-! ## The response path -/

/-- What `__iface_msgq_read` and `__iface_dbgq_read` leave behind: the return
code, the device and the packet buffer `pkt`. -/
structure iface_read_result where
  rc : Int
  device : iris_hfi_device
  packet : Option (Nat → Nat)

/-- The function `__iface_msgq_read` (lines 1216-1251) for a device pointer
that is not `NULL`, with the device lock held; `pkt` is the buffer with its
contents before the call. -/
def __iface_msgq_read (E : hfi_platform) (device : iris_hfi_device)
    (pkt : Option (Nat → Nat)) : iface_read_result :=
  match pkt with
  | none => ⟨-EINVAL, device, none⟩
  | some out =>
    if !__core_in_valid_state E.tocvp_platform device then ⟨-EINVAL, device, some out⟩
    else if device.iface_msgq.q_array.align_virtual_addr.isNone then
      ⟨-ENODATA, device, some out⟩
    else
      let r := __read_queue E.CVP_IFACEQ_VAR_HUGE_PKT_SIZE E.HFI_Q_ID_CTRL_TO_HOST_MSG_Q
        (some device.iface_msgq) (some out) (some 0)
      let device := { device with iface_msgq := r.qinfo.getD device.iface_msgq }
      if r.rc = 0 then
        if r.pb_tx_req_is_set.getD 0 ≠ 0 then
          ⟨0, __write_register device E.CVP_CPU_CS_H2ASOFTINT 1, some (r.packet.getD out)⟩
        else ⟨0, device, some (r.packet.getD out)⟩
      else ⟨-ENODATA, device, some (r.packet.getD out)⟩

/-- The function `__iface_dbgq_read` (lines 1253-1282) for a device pointer
that is not `NULL`, with the device lock held. -/
def __iface_dbgq_read (E : hfi_platform) (device : iris_hfi_device)
    (pkt : Option (Nat → Nat)) : iface_read_result :=
  match pkt with
  | none => ⟨-EINVAL, device, none⟩
  | some out =>
    if device.iface_dbgq.q_array.align_virtual_addr.isNone then
      ⟨-ENODATA, device, some out⟩
    else
      let r := __read_queue E.CVP_IFACEQ_VAR_HUGE_PKT_SIZE E.HFI_Q_ID_CTRL_TO_HOST_MSG_Q
        (some device.iface_dbgq) (some out) (some 0)
      let device := { device with iface_dbgq := r.qinfo.getD device.iface_dbgq }
      if r.rc = 0 then
        if r.pb_tx_req_is_set.getD 0 ≠ 0 then
          ⟨0, __write_register device E.CVP_CPU_CS_H2ASOFTINT 1, some (r.packet.getD out)⟩
        else ⟨0, device, some (r.packet.getD out)⟩
      else ⟨-ENODATA, device, some (r.packet.getD out)⟩

/-- The function `__flush_debug_queue` (lines 2658-2730) for a device and a
packet buffer that are not `NULL`: the device and the buffer it leaves.  Each
unit of `fuel` pays for one call of `__iface_dbgq_read`; `none` when the fuel
does not reach the end of the loop. -/
def __flush_debug_queue (E : hfi_platform) :
    Nat → iris_hfi_device → (Nat → Nat) → Option (iris_hfi_device × (Nat → Nat))
  | 0, _, _ => none
  | fuel + 1, device, packet =>
    let r := __iface_dbgq_read E device (some packet)
    if r.rc ≠ 0 then some (r.device, r.packet.getD packet)
    else __flush_debug_queue E fuel r.device (E.debug_packet (r.packet.getD packet))

/-- The loop of `__get_session` over the session list (lines 2755-2758). -/
def __get_session_scan (E : hfi_platform) (session_id : Nat) :
    List cvp_hal_session → Option cvp_hal_session
  | [] => none
  | temp :: rest =>
    if session_id = u32 (E.hash32_ptr temp.addr) then some temp
    else __get_session_scan E session_id rest

/-- The function `__get_session` (lines 2750-2761). -/
def __get_session (E : hfi_platform) (device : iris_hfi_device) (session_id : Nat) :
    Option cvp_hal_session :=
  __get_session_scan E session_id device.sess_head

/-- The function `process_system_msg` (lines 2767-2792): the slot `*info`
afterwards.  `__process_sys_error` only terminates and prints the SFR buffer,
which is not part of the model. -/
def process_system_msg (E : hfi_platform) (info : msm_cvp_cb_info)
    (device : iris_hfi_device) (raw_packet : Nat → Nat) : msm_cvp_cb_info :=
  if info.response_type = E.HAL_SYS_ERROR then info
  else if info.response_type = E.HAL_SYS_INIT_DONE then
    { info with data := E.sys_init_done_data device raw_packet info }
  else info

/-- The function `get_session_id` (lines 2795-2828): the value behind the
pointer it returns, `none` for `NULL`.  `HAL_SESSION_CMD_DONE` lists the
sixteen response types of the first group of cases. -/
def get_session_id (E : hfi_platform) (info : msm_cvp_cb_info) : Option Nat :=
  if info.response_type ∈ E.HAL_SESSION_CMD_DONE then some info.session_id
  else if info.response_type = E.HAL_SESSION_ERROR then some info.session_id
  else none

/-- The body of the loop of `__response_handler` from the decoding of the
packet to the resolution of the session (lines 2892-2941), `info` being the
old contents of the slot `packets[packet_count]`: whether the packet is kept
(`false` on the paths that take `packet_count` back and continue) and the
new contents of the slot. -/
def __response_handler_packet (E : hfi_platform) (device : iris_hfi_device)
    (raw_packet : Nat → Nat) (info : msm_cvp_cb_info) : Bool × msm_cvp_cb_info :=
  let r := E.cvp_hfi_process_msg_packet device.device_id raw_packet info
  if r.1 ≠ 0 then (false, r.2)
  else if r.2.response_type = E.HAL_NO_RESP then (false, r.2)
  else
    let info := process_system_msg E r.2 device raw_packet
    match get_session_id E info with
    | none => (true, info)
    | some session_id =>
      match __get_session E device (u32 session_id) with
      | none => (false, info)
      | some session => (true, { info with session_id := session.session_id })

/-- The state of the loop of `__response_handler`: the device, the contents
of the buffer `raw_packet`, the array `packets` and `packet_count`. -/
structure response_state where
  device : iris_hfi_device
  raw_packet : Nat → Nat
  packets : Nat → msm_cvp_cb_info
  packet_count : Nat

/-- The loop of `__response_handler` that drains the message queue (lines
2890-2952).  Each unit of `fuel` pays for one call of `__iface_msgq_read`;
`none` when the fuel does not reach the end of the loop. -/
def __response_handler_drain (E : hfi_platform) :
    Nat → response_state → Option response_state
  | 0, _ => none
  | fuel + 1, s =>
    let r := __iface_msgq_read E s.device (some s.raw_packet)
    let raw := r.packet.getD s.raw_packet
    if r.rc ≠ 0 then some ⟨r.device, raw, s.packets, s.packet_count⟩
    else
      let k := __response_handler_packet E r.device raw (s.packets s.packet_count)
      let packets := Function.update s.packets s.packet_count k.2
      if !k.1 then __response_handler_drain E fuel ⟨r.device, raw, packets, s.packet_count⟩
      else if s.packet_count + 1 ≥ cvp_max_packets then
        some ⟨r.device, raw, packets, s.packet_count + 1⟩
      else if k.2.response_type = E.HAL_SYS_ERROR then
        some ⟨r.device, raw, packets, s.packet_count + 1⟩
      else __response_handler_drain E fuel ⟨r.device, raw, packets, s.packet_count + 1⟩

/-- The label `exit` of `__response_handler` (lines 2964-2966): the flush of
the debug queue and the return of `packet_count`, with the buffers stored
back into the device. -/
def __response_handler_exit (E : hfi_platform) (fuel : Nat) (s : response_state) :
    Option (Nat × iris_hfi_device) :=
  match __flush_debug_queue E fuel s.device s.raw_packet with
  | none => none
  | some f =>
    some (s.packet_count,
      { f.1 with raw_packet := some f.2, response_pkt := some s.packets })

/-- The function `__response_handler` (lines 2843-2967) for a device pointer
that is not `NULL`: the number of responses it returns and the device, whose
array `response_pkt` holds them.  The SFR buffer is only printed and is not
part of the model. -/
def __response_handler (E : hfi_platform) (fuel : Nat) (device : iris_hfi_device) :
    Option (Nat × iris_hfi_device) :=
  if device.state ≠ E.IRIS_STATE_INIT then some (0, device)
  else
    match device.raw_packet, device.response_pkt with
    | some raw_packet, some packets =>
      if u32 device.intr_status &&& E.CVP_FATAL_INTR_BMSK ≠ 0 then
        __response_handler_exit E fuel
          ⟨device, raw_packet,
            Function.update packets 0 ⟨E.HAL_SYS_WATCHDOG_TIMEOUT, device.device_id, 0, 0⟩, 1⟩
      else
        match __response_handler_drain E fuel ⟨device, raw_packet, packets, 0⟩ with
        | none => none
        | some s =>
          if s.device.res.sw_power_collapsible then
            __response_handler_exit E fuel
              { s with device := { s.device with
                  trace := s.device.trace ++ [hw_event.cancel_delayed_work,
                    hw_event.queue_delayed_work s.device.res.msm_cvp_pwr_collapse_delay] } }
          else __response_handler_exit E fuel s
    | _, _ => some (0, device)

/-- The function `__core_clear_interrupt` (lines 2024-2047) for a device
pointer that is not `NULL`.  The counters `reg_count` and `spur_count`, which
are only printed, are not part of the model. -/
def __core_clear_interrupt (E : hfi_platform) (device : iris_hfi_device) :
    iris_hfi_device :=
  let r := __read_register E.tocvp_platform device E.CVP_WRAPPER_INTR_STATUS
  let mask := E.CVP_WRAPPER_INTR_MASK_A2HCPU_BMSK ||| E.CVP_FATAL_INTR_BMSK
  let device :=
    if r.1 &&& mask ≠ 0 then { r.2 with intr_status := u32 r.2.intr_status ||| r.1 }
    else r.2
  __write_register device E.CVP_CPU_CS_A2HSOFTINTCLR 1

/-- The loop of `iris_hfi_core_work_handler` that issues the callbacks (lines
3024-3037), with `i` the index and `n` the number of passes left up to
`num_responses`. -/
def iris_hfi_core_work_callbacks (E : hfi_platform) :
    Nat → Nat → iris_hfi_device → iris_hfi_device
  | 0, _, device => device
  | n + 1, i, device =>
    match device.response_pkt with
    | none => device
    | some packets =>
      if !__core_in_valid_state E.tocvp_platform device then device
      else
        iris_hfi_core_work_callbacks E n (i + 1)
          (E.callback (packets i).response_type (packets i)
            { device with
              trace := device.trace ++
                [hw_event.callback (packets i).response_type (packets i)] })

/-- The part of `iris_hfi_core_work_handler` under the device lock (lines
2986-3012): `num_responses` and the device. -/
def iris_hfi_core_work_locked (E : hfi_platform) (R : resume_callees) (fuel : Nat)
    (device : iris_hfi_device) : Option (Nat × iris_hfi_device) :=
  if !__core_in_valid_state E.tocvp_platform device then some (0, device)
  else if !device.callback then some (0, device)
  else
    let r := __resume E R (some device)
    if r.1 ≠ 0 then some (0, dev_of r.2 device)
    else __response_handler E fuel (__core_clear_interrupt E (dev_of r.2 device))

/-- The function `iris_hfi_core_work_handler` (lines 2969-3047); `device` is
the device found through the first core of `cvp_driver->cores`. -/
def iris_hfi_core_work_handler (E : hfi_platform) (R : resume_callees) (fuel : Nat)
    (device : iris_hfi_device) : Option iris_hfi_device :=
  match iris_hfi_core_work_locked E R fuel device with
  | none => none
  | some r =>
    let intr_status := r.2.intr_status
    let device := iris_hfi_core_work_callbacks E r.1 0 r.2
    if u32 intr_status &&& E.CVP_WRAPPER_INTR_STATUS_A2HWD_BMSK = 0 then
      some { device with trace := device.trace ++ [hw_event.enable_irq] }
    else some device

/-! ## Core initialisation -/

/-- What `iris_hfi_core_init` and `__load_fw` take from outside the modelled
part, on top of `hfi_platform` and `resume_callees`: whether the `kzalloc` of
`bus_vote.data` succeeds, the functions they call (each maps the device to
the device it leaves, with its return code where one is looked at;
`msm_cvp_mmrm_deregister` stands for the call under the test of
`dev->mmrm_cvp`, `add_va_md_nodes` for the three registrations of lines
1872-1877 and `pm_qos_add_requests` for lines 1918-1940), the test of line
4337 on `device->res`, the global `msm_cvp_mmrm_enabled`, the result of
`msm_cvp_map_ipcc_regs` with the address it stores, two register offsets and
the two packet builders. -/
structure core_init_callees where
  kzalloc_bus_vote_data : Bool
  __init_resources : iris_hfi_device → Int × iris_hfi_device
  __initialize_packetization : iris_hfi_device → Int × iris_hfi_device
  load_fw_required : Bool
  load_cvp_fw_impl : iris_hfi_device → Int × iris_hfi_device
  __deinit_resources : iris_hfi_device → iris_hfi_device
  msm_cvp_mmrm_enabled : Bool
  msm_cvp_mmrm_register : iris_hfi_device → Int × iris_hfi_device
  msm_cvp_mmrm_deregister : iris_hfi_device → iris_hfi_device
  __interface_queues_init : iris_hfi_device → Int × iris_hfi_device
  add_va_md_nodes : iris_hfi_device → iris_hfi_device
  msm_cvp_map_ipcc_regs : Int × Nat
  CVP_MMAP_ADDR : Nat
  CVP_VERSION_INFO : Nat
  sys_init : Int × (Nat → Nat)
  sys_image_version : Int × (Nat → Nat)
  __set_ubwc_config : iris_hfi_device → iris_hfi_device
  __sys_set_idle_indicator : iris_hfi_device → iris_hfi_device
  pm_qos_add_requests : iris_hfi_device → iris_hfi_device
  cvp_dsp_send_hfi_queue : iris_hfi_device → iris_hfi_device
  __unload_fw : iris_hfi_device → iris_hfi_device

/-- The device with the step `step` appended to its trace. -/
def record_step (device : iris_hfi_device) (step : init_step) : iris_hfi_device :=
  { device with trace := device.trace ++ [hw_event.acquire step] }

/-- The function `__load_fw` (lines 4314-4353). -/
def __load_fw (C : core_init_callees) (R : resume_callees) (device : iris_hfi_device) :
    Int × iris_hfi_device :=
  let r := C.__init_resources (record_step device init_step.init_resources)
  if r.1 ≠ 0 then (r.1, r.2)
  else
    let p := C.__initialize_packetization r.2
    if p.1 ≠ 0 then (p.1, C.__deinit_resources p.2)
    else
      let o := R.__iris_power_on p.2
      if o.1 ≠ 0 then (o.1, C.__deinit_resources o.2)
      else if C.load_fw_required then
        let l := C.load_cvp_fw_impl (record_step o.2 init_step.load_cvp_fw_impl)
        if l.1 ≠ 0 then (l.1, C.__deinit_resources (R.power_off l.2))
        else (l.1, l.2)
      else (o.1, o.2)

/-- The label `err_core_init` of `iris_hfi_core_init` (lines 1955-1967) with
the return value `rc`. -/
def __core_init_fail (E : hfi_platform) (C : core_init_callees) (dev : iris_hfi_device)
    (rc : Int) : Int × Option iris_hfi_device :=
  (rc, some (C.msm_cvp_mmrm_deregister
    (C.__unload_fw { dev with state := E.IRIS_STATE_DEINIT })))

/-- Lines 1905-1953 of `iris_hfi_core_init`: what follows the write of the
system-init packet, up to `return 0`. -/
def __core_init_finish (E : hfi_platform) (C : core_init_callees) (R : resume_callees)
    (dev : iris_hfi_device) : Int × Option iris_hfi_device :=
  let dev :=
    if C.sys_image_version.1 ≠ 0 then dev
    else dev_of (__iface_cmdq_write E R (some dev) (some C.sys_image_version.2)).2 dev
  let dev := R.__sys_set_debug dev
  let dev := R.__enable_subcaches dev
  let dev := R.__set_subcaches dev
  let dev := C.__set_ubwc_config dev
  let dev := C.__sys_set_idle_indicator dev
  let dev := if dev.res.pm_qos_latency_us ≠ 0 then C.pm_qos_add_requests dev else dev
  (0, some (C.cvp_dsp_send_hfi_queue dev))

/-- Lines 1857-1903 of `iris_hfi_core_init`: from the state change to the
write of the system-init packet.  The value read from `CVP_VERSION_INFO` is
stored in `dev->version`, which is not part of the model. -/
def __core_init_boot (E : hfi_platform) (C : core_init_callees) (R : resume_callees)
    (dev : iris_hfi_device) : Int × Option iris_hfi_device :=
  let dev := { dev with state := E.IRIS_STATE_INIT }
  let q := C.__interface_queues_init (record_step dev init_step.interface_queues_init)
  if q.1 ≠ 0 then __core_init_fail E C q.2 (-ENOMEM)
  else
    let dev := C.add_va_md_nodes q.2
    let dev :=
      if C.msm_cvp_map_ipcc_regs.1 = 0 then
        __write_register dev C.CVP_MMAP_ADDR (u32 C.msm_cvp_map_ipcc_regs.2)
      else dev
    let b := R.__boot_firmware dev
    if b.1 ≠ 0 then __core_init_fail E C b.2 (-ENODEV)
    else
      let dev := (__read_register E.tocvp_platform b.2 C.CVP_VERSION_INFO).2
      if C.sys_init.1 ≠ 0 then __core_init_fail E C dev C.sys_init.1
      else
        let w := __iface_cmdq_write E R (some dev) (some C.sys_init.2)
        if w.1 ≠ 0 then __core_init_fail E C (dev_of w.2 dev) (-ENOTEMPTY)
        else __core_init_finish E C R (dev_of w.2 dev)

/-- The function `iris_hfi_core_init` (lines 1812-1968).  `pm_stay_awake` and
`pm_relax` are not part of the model. -/
def iris_hfi_core_init (E : hfi_platform) (C : core_init_callees) (R : resume_callees)
    (device : Option iris_hfi_device) : Int × Option iris_hfi_device :=
  match device with
  | none => (-ENODEV, none)
  | some dev =>
    let dev := record_step dev init_step.bus_vote_data
    if !C.kzalloc_bus_vote_data then (-ENOMEM, some dev)
    else
      let l := __load_fw C R dev
      if l.1 ≠ 0 then (l.1, some l.2)
      else if C.msm_cvp_mmrm_enabled then
        let m := C.msm_cvp_mmrm_register (record_step l.2 init_step.mmrm_register)
        if m.1 ≠ 0 then __core_init_fail E C m.2 m.1
        else __core_init_boot E C R m.2
      else __core_init_boot E C R l.2



/-! ## Power on, power off and suspend -/

/-- The functions that `__iris_power_on`, `power_off_iris2` and `__suspend`
call, taken as parameters, with the register offset
`CVP_WRAPPER_DEBUG_BRIDGE_LPI_CONTROL` of a header: each maps the device to
the device it leaves behind, with its return code where it has one. -/
structure iris2_callees where
  __vote_buses : iris_hfi_device → Int × iris_hfi_device
  __power_on_controller : iris_hfi_device → Int × iris_hfi_device
  __power_on_core : iris_hfi_device → Int × iris_hfi_device
  msm_cvp_scale_clocks : iris_hfi_device → Int × iris_hfi_device
  __set_registers : iris_hfi_device → iris_hfi_device
  interrupt_init : iris_hfi_device → iris_hfi_device
  __power_off_core : iris_hfi_device → Int × iris_hfi_device
  __power_off_controller : iris_hfi_device → Int × iris_hfi_device
  __unvote_buses : iris_hfi_device → Int × iris_hfi_device
  __disable_subcaches : iris_hfi_device → Int × iris_hfi_device
  CVP_WRAPPER_DEBUG_BRIDGE_LPI_CONTROL : Nat

/-- The function `__iris_power_on` (lines 3856-3915). -/
def __iris_power_on (W : iris2_callees) (device : iris_hfi_device) :
    Int × iris_hfi_device :=
  if device.power_enabled then (0, device)
  else
    let v := W.__vote_buses device
    if v.1 ≠ 0 then (v.1, { v.2 with power_enabled := false })
    else
      let c := W.__power_on_controller v.2
      if c.1 ≠ 0 then
        let dev := (W.__unvote_buses c.2).2
        (c.1, { dev with power_enabled := false })
      else
        let k := W.__power_on_core c.2
        if k.1 ≠ 0 then
          let dev := (W.__power_off_controller k.2).2
          let dev := (W.__unvote_buses dev).2
          (k.1, { dev with power_enabled := false })
        else
          -- a failure of `msm_cvp_scale_clocks` is only logged (`rc = 0`)
          let dev := (W.msm_cvp_scale_clocks k.2).2
          let dev := { dev with power_enabled := true }
          let dev := W.__set_registers dev
          let dev := W.interrupt_init dev
          let dev := { dev with intr_status := 0 }
          let dev := { dev with trace := dev.trace ++ [hw_event.enable_irq] }
          let dev := __write_register dev W.CVP_WRAPPER_DEBUG_BRIDGE_LPI_CONTROL 7
          (0, dev)

/-- The function `power_off_iris2` (lines 4213-4232). -/
def power_off_iris2 (E : hfi_platform) (W : iris2_callees) (device : iris_hfi_device) :
    iris_hfi_device :=
  if !device.power_enabled ∨ !device.res.sw_power_collapsible then device
  else
    let dev :=
      if u32 device.intr_status &&& E.CVP_WRAPPER_INTR_STATUS_A2HWD_BMSK = 0 then
        { device with trace := device.trace ++ [hw_event.disable_irq_nosync] }
      else device
    let dev := { dev with intr_status := 0 }
    let dev := (W.__power_off_core dev).2
    let dev := (W.__power_off_controller dev).2
    let dev := (W.__unvote_buses dev).2
    { dev with power_enabled := false }

/-- The function `__suspend` (lines 3917-3946); `R.power_off` is what
`call_iris_op(device, power_off, device)` invokes. -/
def __suspend (W : iris2_callees) (R : resume_callees) (device : Option iris_hfi_device) :
    Int × Option iris_hfi_device :=
  match device with
  | none => (-EINVAL, none)
  | some dev =>
    if !dev.power_enabled then (0, some dev)
    else
      let t := R.__tzbsp_set_cvp_state TZ_SUBSYS_STATE_SUSPEND dev
      if t.1 ≠ 0 then (t.1, some t.2)
      else
        let dev := (W.__disable_subcaches t.2).2
        let dev := R.power_off dev
        let dev :=
          if dev.res.pm_qos_latency_us ≠ 0 ∧ dev.res.pm_qos_hdls then
            R.cvp_pm_qos_update false dev
          else dev
        (t.1, some dev)

/-- The callees of `__resume` with the two that this file defines in place:
`__iris_power_on`, and `power_off_iris2` for
`call_iris_op(device, power_off, device)`, which is the member `power_off` of
`iris2_ops` (lines 105-111), the table line 4622 stores in `device->vpu_ops`. -/
def iris2_resume_callees (E : hfi_platform) (W : iris2_callees) (R : resume_callees) :
    resume_callees :=
  { R with
    __iris_power_on := __iris_power_on W
    power_off := power_off_iris2 E W }

/-- The callees of `__power_collapse` as this file defines them: `__prepare_pc`
and `__suspend` on the device that is passed on; `flush` stands for the call
`__flush_debug_queue(device, device->raw_packet)`. -/
def collapse_callees (E : hfi_platform) (W : iris2_callees) (R : resume_callees)
    (flush : iris_hfi_device → iris_hfi_device) : power_callees :=
  { __flush_debug_queue := flush
    __prepare_pc := __prepare_pc E R
    __suspend := fun d => ((__suspend W R (some d)).1, dev_of (__suspend W R (some d)).2 d) }

/-! ## Session creation -/

/-- What `iris_hfi_session_init` calls besides the command path: the packet
builder behind `call_hfi_pkt_op(dev, session_init, &pkt, s)` (its return code
and the packet it leaves in `pkt`) and `__sys_set_power_control`, whose
return code `__set_default_sys_properties` only logs. -/
structure session_init_callees where
  session_init : cvp_hal_session → Int × (Nat → Nat)
  __sys_set_power_control : iris_hfi_device → iris_hfi_device

/-- The function `__set_default_sys_properties` (lines 2081-2087): both return
codes are only logged. -/
def __set_default_sys_properties (R : resume_callees) (X : session_init_callees)
    (device : iris_hfi_device) : iris_hfi_device :=
  X.__sys_set_power_control (R.__sys_set_debug device)

/-- What `iris_hfi_session_init` leaves behind: return code, device and the
pointer stored in `*new_session` (`none` when `new_session` is `NULL`, the
stored pointer being `none` for `NULL`). -/
structure session_init_result where
  rc : Int
  device : Option iris_hfi_device
  new_session : Option (Option Nat)

/-- The function `iris_hfi_session_init` (lines 2142-2190).  `new_session` is
the pointer argument with what `*new_session` holds before the call, and
`kzalloc` is the address that `kzalloc` returns (`none` for `NULL`); the
back pointer `s->device` of the new session is non-`NULL`. -/
def iris_hfi_session_init (E : hfi_platform) (R : resume_callees) (X : session_init_callees)
    (device : Option iris_hfi_device) (session_id : Nat)
    (new_session : Option (Option Nat)) (kzalloc : Option Nat) : session_init_result :=
  match device, new_session with
  | none, _ => ⟨-EINVAL, device, new_session⟩
  | some _, none => ⟨-EINVAL, device, none⟩
  | some dev, some _ =>
    match kzalloc with
    | none => ⟨-EINVAL, some dev, some none⟩
    | some a =>
      let s : cvp_hal_session := ⟨a, 0, session_id, some dev.device_id⟩
      let dev := { dev with sess_head := dev.sess_head ++ [s] }
      let dev := __set_default_sys_properties R X dev
      let b := X.session_init s
      if b.1 ≠ 0 then
        ⟨-EINVAL, some (__session_clean dev (some s)).1, some none⟩
      else
        let w := __iface_cmdq_write E R (some dev) (some b.2)
        if w.1 ≠ 0 then
          ⟨-EINVAL, some (__session_clean (dev_of w.2 dev) (some s)).1, some none⟩
        else ⟨0, some (dev_of w.2 dev), some (some a)⟩

/-! ## Device creation and the firmware information -/

/-- The object `struct cvp_hal_data` behind `device->cvp_hal_data`;
`register_base` and `gcc_reg_base` are the mapped addresses (0 for `NULL`). -/
structure cvp_hal_data where
  irq : Nat
  firmware_base : Nat
  register_base : Nat
  register_size : Nat
  gcc_reg_base : Nat
  gcc_reg_size : Nat
  deriving DecidableEq

/-- The members of `struct msm_cvp_platform_resources` that
`__init_regs_and_interrupts` and `iris_hfi_get_fw_info` read. -/
structure hal_resources where
  firmware_base : Nat
  register_base : Nat
  register_size : Nat
  irq : Nat
  gcc_reg_base : Nat
  gcc_reg_size : Nat
  deriving DecidableEq

/-- What the creation of a device takes from outside `cvp_hfi.c`: the constant
`FIRMWARE_SIZE` and the macros `CONTAINS` and `OVERLAPS` of a header, whether
each allocation succeeds (`kzalloc` of the device, `kmalloc_array` of
`response_pkt`, `kzalloc` of `raw_packet`, `kzalloc` of the `cvp_hal_data`,
the two work queues), the address that `devm_ioremap` returns for a base and
a size (0 for `NULL`) and the return code of `request_irq` for an interrupt. -/
structure creation_platform where
  FIRMWARE_SIZE : Nat
  CONTAINS : Nat → Nat → Nat → Bool
  OVERLAPS : Nat → Nat → Nat → Nat → Bool
  kzalloc_device : Bool
  kmalloc_response_pkt : Bool
  kzalloc_raw_packet : Bool
  kzalloc_hal : Bool
  create_cvp_workq : Bool
  create_pm_workq : Bool
  devm_ioremap : Nat → Nat → Nat
  request_irq : Nat → Int

/-- The function `__check_core_registered` (lines 2401-2441).  The device
pointer is given by what the function reads through it: `none` for `NULL`,
otherwise the member `cvp_hal_data` (`none` for `NULL`). -/
def __check_core_registered (Y : creation_platform) (device : Option (Option cvp_hal_data))
    (fw_addr reg_addr reg_size irq : Nat) : Int :=
  match device with
  | none => -EINVAL
  | some none => -EINVAL
  | some (some hal) =>
    if hal.irq = irq ∧
        (Y.CONTAINS hal.firmware_base Y.FIRMWARE_SIZE fw_addr ∨
          Y.CONTAINS fw_addr Y.FIRMWARE_SIZE hal.firmware_base ∨
          Y.CONTAINS hal.register_base reg_size reg_addr ∨
          Y.CONTAINS reg_addr reg_size hal.register_base ∨
          Y.OVERLAPS hal.register_base reg_size reg_addr reg_size ∨
          Y.OVERLAPS reg_addr reg_size hal.register_base reg_size ∨
          Y.OVERLAPS hal.firmware_base Y.FIRMWARE_SIZE fw_addr Y.FIRMWARE_SIZE ∨
          Y.OVERLAPS fw_addr Y.FIRMWARE_SIZE hal.firmware_base Y.FIRMWARE_SIZE) then 0
    else -EINVAL

/-- The function `__init_regs_and_interrupts` (lines 3060-3117) for a device
pointer that is not `NULL`, `hal` being the member `cvp_hal_data` of the
device on entry: the return code and that member on return.  At the label
`error_irq_fail` the object is freed; the pointer in the device stays. -/
def __init_regs_and_interrupts (Y : creation_platform) (hal : Option cvp_hal_data)
    (res : hal_resources) : Int × Option cvp_hal_data :=
  let rc := __check_core_registered Y (some hal) res.firmware_base res.register_base
    res.register_size res.irq
  if rc = 0 then (-EEXIST, hal)
  else if !Y.kzalloc_hal then (-ENOMEM, hal)
  else
    let h : cvp_hal_data :=
      { irq := res.irq
        firmware_base := res.firmware_base
        register_base := Y.devm_ioremap res.register_base res.register_size
        register_size := res.register_size
        gcc_reg_base := 0
        gcc_reg_size := 0 }
    if h.register_base = 0 then (rc, hal)
    else
      let h :=
        if res.gcc_reg_base ≠ 0 then
          { h with
            gcc_reg_base := Y.devm_ioremap res.gcc_reg_base res.gcc_reg_size
            gcc_reg_size := res.gcc_reg_size }
        else h
      (Y.request_irq res.irq, some h)

/-- The members of a device that `__add_device` returns which the functions
below read. -/
structure added_device where
  device_id : Nat
  cvp_hal_data : Option cvp_hal_data
  res : hal_resources
  deriving DecidableEq

/-- What `__add_device` leaves behind: the pointer it returns (`none` for
`NULL`) and the value of its local `rc` on return. -/
structure add_device_result where
  hdevice : Option added_device
  rc : Int

/-- The function `__add_device` (lines 4625-4698); `callback` tells whether the
callback pointer is set.  The device comes from `kzalloc`, which zeroes it, and
nothing stores to `cvp_hal_data` before line 4659: that member is `NULL` in
the call of `__init_regs_and_interrupts`. -/
def __add_device (Y : creation_platform) (device_id : Nat) (res : Option hal_resources)
    (callback : Bool) : add_device_result :=
  match res with
  | none => ⟨none, 0⟩
  | some r =>
    if !callback then ⟨none, 0⟩
    else if !Y.kzalloc_device then ⟨none, 0⟩
    else if !Y.kmalloc_response_pkt then ⟨none, 0⟩
    else if !Y.kzalloc_raw_packet then ⟨none, 0⟩
    else
      let i := __init_regs_and_interrupts Y none r
      if i.1 ≠ 0 then ⟨none, i.1⟩
      else if !Y.create_cvp_workq then ⟨none, i.1⟩
      else if !Y.create_pm_workq then ⟨none, i.1⟩
      else ⟨some ⟨device_id, i.2, r⟩, i.1⟩

/-- The object `struct cvp_hal_fw_info` that `iris_hfi_get_fw_info` fills;
`version` is the array of characters, one per index. -/
structure cvp_hal_fw_info where
  version : Nat → Nat
  base_addr : Nat
  register_base : Nat
  register_size : Nat
  irq : Nat

/-- The loop of line 4386 of `iris_hfi_get_fw_info`,
`while (fw_version[i++] != 'V' && i < CVP_VERSION_LENGTH);`, from the index
`i`: the value of `i` when the loop is left.  Each unit of `fuel` pays for one
pass; the character `V` is 86. -/
def fw_version_scan (CVP_VERSION_LENGTH : Nat) (fw_version : Nat → Nat) : Nat → Nat → Nat
  | 0, i => i
  | fuel + 1, i =>
    if fw_version i ≠ 86 ∧ i + 1 < CVP_VERSION_LENGTH then
      fw_version_scan CVP_VERSION_LENGTH fw_version fuel (i + 1)
    else i + 1

/-- The function `iris_hfi_get_fw_info` (lines 4372-4408).
`CVP_VERSION_LENGTH` is the constant of a header and `fw_version` the array
`cvp_driver->fw_version`; the loop gets `CVP_VERSION_LENGTH + 1` units of
fuel, more than it can use.  The result is `none` where the function
dereferences a `cvp_hal_data` that is `NULL`. -/
def iris_hfi_get_fw_info (CVP_VERSION_LENGTH : Nat) (fw_version : Nat → Nat)
    (dev : Option added_device) (fw_info : Option cvp_hal_fw_info) :
    Option (Int × Option cvp_hal_fw_info) :=
  match dev, fw_info with
  | none, _ => some (-EINVAL, fw_info)
  | some _, none => some (-EINVAL, none)
  | some device, some info =>
    let i := fw_version_scan CVP_VERSION_LENGTH fw_version (CVP_VERSION_LENGTH + 1) 0
    let version :=
      if i = CVP_VERSION_LENGTH - 1 then Function.update info.version 0 0
      else
        Function.update
          (fun j => if j < CVP_VERSION_LENGTH then fw_version j else info.version j)
          (CVP_VERSION_LENGTH - 1) 0
    match device.cvp_hal_data with
    | none => none
    | some hal =>
      some (0,
        some
          { version := version
            base_addr := hal.firmware_base
            register_base := device.res.register_base
            register_size := hal.register_size
            irq := hal.irq })

/-! ## Notions used to state and prove the properties

None of the definitions below is a function of the driver: they name ring
positions, the packets pending in a queue, runs of several calls, the parts
of `__power_collapse` behind the DSP suspend, what a trace records, the
assumptions on the functions taken as parameters, and example values. -/

/-- Reduction of an index below twice the capacity `C` into the ring. -/
def wrap (C x : Nat) : Nat := if x < C then x else x - C

/-- The queue array after `n` words of `pkt` were stored from index `w` on,
continuing at index `0` behind the end of a ring of `C` words. -/
def ring_store (C : Nat) (mem : Nat → Nat) (w : Nat) (pkt : Nat → Nat) (n : Nat) :
    Nat → Nat :=
  fun x =>
    if w ≤ x ∧ x < w + n ∧ x < C then pkt (x - w)
    else if x + C < w + n then pkt (x + C - w)
    else mem x

/-- The output buffer after `n` words were loaded from index `r` on,
continuing at index `0` behind the end of a ring of `C` words. -/
def ring_load (C : Nat) (mem : Nat → Nat) (r : Nat) (out : Nat → Nat) (n : Nat) :
    Nat → Nat :=
  fun i => if i < n then mem (wrap C (r + i)) else out i

/-- Number of words of a packet: its size word shifted right by two. -/
def pkt_words (pkt : Nat → Nat) : Nat := shr2 (u32 (pkt 0))

/-- Total number of words of a list of packets. -/
def total_words : List (Nat → Nat) → Nat
  | [] => 0
  | p :: ps => pkt_words p + total_words ps

/-- The packets `ps` lie one behind the other in the ring of `C` words,
starting at the (unreduced) position `pos`, each of them with a size that
`__read_queue` accepts. -/
def layout (HUGE C : Nat) (mem : Nat → Nat) : Nat → List (Nat → Nat) → Prop
  | _, [] => True
  | pos, p :: ps =>
    pkt_words p ≠ 0 ∧ shl2 (pkt_words p) ≤ HUGE ∧
    (∀ i, i < pkt_words p → mem ((pos + i) % C) = p i) ∧
    layout HUGE C mem (pos + pkt_words p) ps

/-- The queue holds exactly the packets `pend`, oldest first, between its
read index and its write index. -/
def holds (HUGE : Nat) (queue : cvp_hfi_queue_header) (mem : Nat → Nat) (mem_size : Nat)
    (pend : List (Nat → Nat)) : Prop :=
  u32 queue.qhdr_read_idx < shr2 (u32 mem_size) ∧
  total_words pend < shr2 (u32 mem_size) ∧
  u32 queue.qhdr_write_idx
    = (u32 queue.qhdr_read_idx + total_words pend) % shr2 (u32 mem_size) ∧
  layout HUGE (shr2 (u32 mem_size)) mem (u32 queue.qhdr_read_idx) pend

/-- One call on a queue: a write of `pkt`, or a read into a buffer holding
`out` with `*pb_tx_req_is_set` holding `pb`. -/
inductive queue_op where
  | write (pkt : Nat → Nat)
  | read (out : Nat → Nat) (pb : Nat)

/-- What a call returned: the return code, with the packet handed to a write
or the output buffer left by a read. -/
inductive queue_event where
  | wrote (rc : Int) (pkt : Nat → Nat)
  | got (rc : Int) (out : Option (Nat → Nat))

/-- Runs the calls `ops` one after the other on the queue and records what
each of them returned. -/
def run_queue (HUGE MSGQ : Nat) :
    Option cvp_iface_q_info → List queue_op → List queue_event
  | _, [] => []
  | q, queue_op.write pkt :: ops =>
    queue_event.wrote (__write_queue q (some pkt)).rc pkt
      :: run_queue HUGE MSGQ (__write_queue q (some pkt)).qinfo ops
  | q, queue_op.read out pb :: ops =>
    queue_event.got (__read_queue HUGE MSGQ q (some out) (some pb)).rc
        (__read_queue HUGE MSGQ q (some out) (some pb)).packet
      :: run_queue HUGE MSGQ (__read_queue HUGE MSGQ q (some out) (some pb)).qinfo ops

/-- True when every write of the run returned 0. -/
def all_writes_ok : List queue_event → Bool
  | [] => true
  | queue_event.wrote rc _ :: es => decide (rc = 0) && all_writes_ok es
  | queue_event.got _ _ :: es => all_writes_ok es

/-- The packets handed to the writes of a run, in order. -/
def written : List queue_event → List (Nat → Nat)
  | [] => []
  | queue_event.wrote _ pkt :: es => pkt :: written es
  | queue_event.got _ _ :: es => written es

/-- The output buffers of the reads of a run that returned 0, in order. -/
def delivered : List queue_event → List (Nat → Nat)
  | [] => []
  | queue_event.wrote _ _ :: es => delivered es
  | queue_event.got rc (some out) :: es =>
    if rc = 0 then out :: delivered es else delivered es
  | queue_event.got _ none :: es => delivered es

/-- A packet of `n` words for the examples: the size word `4 * n` followed by
the words `tag + 1`, `tag + 2`, ... -/
def sample_pkt (n tag : Nat) : Nat → Nat :=
  fun i => if i = 0 then 4 * n else tag + i

/-- A platform for the examples: `SESSION_PAUSE` is bit 1, the register reads
return `readl`, and `dsp_disable` is the value of `msm_cvp_dsp_disable`. -/
def sample_platform (dsp_disable : Bool) (readl : Nat) : cvp_platform :=
  { IRIS_STATE_DEINIT := 1
    SESSION_PAUSE := 2
    CVP_CTRL_STATUS := 12
    CVP_WRAPPER_CPU_STATUS := 20
    CVP_CTRL_STATUS_PC_READY := 256
    msm_cvp_dsp_disable := dsp_disable
    cvp_dsp_suspend := fun _ => 0
    readl_relaxed := fun _ _ => readl }

/-- Callees for the examples: the debug queue is empty, the prepare-PC
command is accepted, and the suspend powers the core off. -/
def sample_callees : power_callees :=
  { __flush_debug_queue := fun d => d
    __prepare_pc := fun d => (0, d)
    __suspend := fun d => (0, { d with power_enabled := false }) }

/-- A powered, initialised device for the examples whose sessions carry the
flag words `flags`. -/
def sample_device (flags : List Nat) : iris_hfi_device :=
  { device_id := 0
    state := 2
    power_enabled := true
    sess_head := flags.map fun f => ⟨4096 + f, f, 7, some 0⟩
    skip_pc_count := 0
    last_packet_type := 0
    intr_status := 0
    reg_reads := 0
    trace := []
    res := ⟨true, 100, 0, false⟩
    iface_cmdq := mk_qinfo ⟨0, 1, 0, 0, 0⟩ (fun _ => 0) 64
    iface_msgq := mk_qinfo ⟨1, 1, 0, 0, 0⟩ (fun _ => 0) 64
    iface_dbgq := mk_qinfo ⟨2, 0, 0, 0, 0⟩ (fun _ => 0) 64
    raw_packet := some fun _ => 0
    response_pkt := some fun _ => ⟨0, 0, 0, 0⟩
    callback := true }

/-- The device with the flag words of all its sessions cleared: two devices
differ only in the flags of their sessions when they agree after this. -/
def erase_session_flags (d : iris_hfi_device) : iris_hfi_device :=
  { d with sess_head := d.sess_head.map fun s => { s with flags := 0 } }

/-- The callees of `__power_collapse` do not look at the flags of the
sessions: on devices that differ only there they return the same code and
leave devices that differ only there. -/
def flag_blind (K : power_callees) : Prop :=
  ∀ a b, erase_session_flags a = erase_session_flags b →
    erase_session_flags (K.__flush_debug_queue a) = erase_session_flags (K.__flush_debug_queue b) ∧
    (K.__prepare_pc a).1 = (K.__prepare_pc b).1 ∧
    erase_session_flags (K.__prepare_pc a).2 = erase_session_flags (K.__prepare_pc b).2 ∧
    (K.__suspend a).1 = (K.__suspend b).1 ∧
    erase_session_flags (K.__suspend a).2 = erase_session_flags (K.__suspend b).2

/-- The callees of `__power_collapse` never raise `skip_pc_count`. -/
def keeps_skip_count (K : power_callees) : Prop :=
  ∀ d, (K.__flush_debug_queue d).skip_pc_count ≤ d.skip_pc_count ∧
    (K.__prepare_pc d).2.skip_pc_count ≤ d.skip_pc_count ∧
    (K.__suspend d).2.skip_pc_count ≤ d.skip_pc_count

/-- The device after `n` successive runs of `iris_hfi_pm_handler`. -/
def pm_handler_runs (E : hfi_platform) (K : power_callees) : Nat → iris_hfi_device → iris_hfi_device
  | 0, dev => dev
  | n + 1, dev => pm_handler_runs E K n (dev_of (iris_hfi_pm_handler E K (some dev)) dev)

/-- A platform for the examples, on top of `sample_platform`: the packet type
is the second word of a packet, the decoder takes the response type from the
second word and the session id from the third and rejects the type 99, the
callback does not call back into the driver, and `cov` is the value of
`msm_cvp_fw_coverage`. -/
def sample_hfi (cov : Nat) (dsp_disable : Bool) (readl : Nat) : hfi_platform :=
  { tocvp_platform := sample_platform dsp_disable readl
    IRIS_STATE_INIT := 2
    CVP_CPU_CS_H2ASOFTINT := 28
    CVP_CC_MVS1C_GDSCR := 36
    CVP_CC_MVS1C_CBCR := 40
    CVP_IFACEQ_VAR_HUGE_PKT_SIZE := 12288
    HFI_Q_ID_CTRL_TO_HOST_MSG_Q := 1
    HFI_CMD_SYS_PC_PREP := 65544
    HFI_CMD_SYS_SESSION_END := 65545
    HFI_CMD_SYS_SESSION_ABORT := 65546
    HFI_CMD_SESSION_CVP_FLUSH := 65547
    CVP_MAX_PC_SKIP_COUNT := 10
    CVP_FATAL_INTR_BMSK := 56
    CVP_WRAPPER_INTR_STATUS_A2HWD_BMSK := 8
    HAL_NO_RESP := 0
    HAL_SYS_ERROR := 1
    HAL_SYS_INIT_DONE := 2
    HAL_SYS_WATCHDOG_TIMEOUT := 3
    HAL_SESSION_ERROR := 4
    HAL_SESSION_CMD_DONE := [5, 6, 7]
    msm_cvp_fw_coverage := cov
    dsp_suspended := false
    packet_type := fun p => p 1
    sys_pc_prep := (0, sample_pkt 2 65543)
    sys_coverage_config := fun _ => (0, sample_pkt 3 70000)
    session_cmd := fun t _ => (0, fun i => if i = 0 then 12 else if i = 1 then t else 0)
    session_set_buffers := fun _ _ _ => (0, sample_pkt 4 80000)
    session_release_buffers := fun _ => (0, sample_pkt 3 81000)
    session_send := fun _ p => (0, p)
    cvp_hfi_process_msg_packet := fun id raw _ =>
      (if raw 1 = 99 then -EINVAL else 0, ⟨raw 1, id, raw 2, raw 3⟩)
    sys_init_done_data := fun _ _ i => i.data
    hash32_ptr := fun a => a % 1000
    callback := fun _ _ d => d
    CVP_WRAPPER_INTR_STATUS := 44
    CVP_CPU_CS_A2HSOFTINTCLR := 48
    CVP_WRAPPER_INTR_MASK_A2HCPU_BMSK := 4
    debug_packet := fun p => p }

/-- Callees of `__resume` for the examples: every step succeeds, the power-on
enables the power and the power-off disables it. -/
def sample_resume_callees : resume_callees :=
  { __iris_power_on := fun d => (0, { d with power_enabled := true })
    __tzbsp_set_cvp_state := fun _ d => (0, d)
    __setup_ucregion_memory_map := fun d => d
    __boot_firmware := fun d => (0, d)
    msm_cvp_trigger_ssr := fun d => d
    __set_threshold_registers := fun d => d
    cvp_pm_qos_update := fun _ d => d
    __sys_set_debug := fun d => d
    __enable_subcaches := fun d => d
    __set_subcaches := fun d => d
    __dsp_resume := fun d => d
    power_off := fun d => { d with power_enabled := false } }

/-- The end of `__power_collapse`: the call of `__suspend` (lines 2624-2629). -/
def pc_suspend (K : power_callees) (d : iris_hfi_device) : Int × Option iris_hfi_device :=
  ((K.__suspend d).1, some (K.__suspend d).2)

/-- The branch of `__power_collapse` taken when the core reports ready for the
power collapse (lines 2614-2622 and what follows). -/
def pc_when_ready (P : cvp_platform) (K : power_callees) (d : iris_hfi_device) :
    Int × Option iris_hfi_device :=
  if (__read_register P d P.CVP_WRAPPER_CPU_STATUS).1 &&& 1 = 0 then
    __power_collapse_skip K (__read_register P d P.CVP_WRAPPER_CPU_STATUS).2
  else pc_suspend K (__read_register P d P.CVP_WRAPPER_CPU_STATUS).2

/-- The part of `__power_collapse` from the call of `__prepare_pc` on
(lines 2590-2613 and what follows). -/
def pc_prepare (P : cvp_platform) (K : power_callees) (d : iris_hfi_device)
    (wfi_status pc_ready : Nat) : Int × Option iris_hfi_device :=
  if (K.__prepare_pc d).1 ≠ 0 then __power_collapse_skip K (K.__prepare_pc d).2
  else if (__power_collapse_poll P 150 (K.__prepare_pc d).2 0 wfi_status pc_ready).1 = 150 then
    __power_collapse_skip K
      (__power_collapse_poll P 150 (K.__prepare_pc d).2 0 wfi_status pc_ready).2.2.2
  else
    pc_suspend K (__power_collapse_poll P 150 (K.__prepare_pc d).2 0 wfi_status pc_ready).2.2.2

/-- The branch of `__power_collapse` taken when the core does not report
ready (lines 2573-2613 and what follows). -/
def pc_when_not_ready (P : cvp_platform) (K : power_callees) (d : iris_hfi_device)
    (pc_ready : Nat) : Int × Option iris_hfi_device :=
  if (__read_register P d P.CVP_WRAPPER_CPU_STATUS).1 &&& 1 = 0 then
    __power_collapse_skip K
      (__read_register P (__read_register P d P.CVP_WRAPPER_CPU_STATUS).2 P.CVP_CTRL_STATUS).2
  else if (__read_register P (__read_register P d P.CVP_WRAPPER_CPU_STATUS).2
      P.CVP_CTRL_STATUS).1 &&& 1073741824 = 0 then
    __power_collapse_skip K
      (__read_register P (__read_register P d P.CVP_WRAPPER_CPU_STATUS).2 P.CVP_CTRL_STATUS).2
  else
    pc_prepare P K
      (__read_register P (__read_register P d P.CVP_WRAPPER_CPU_STATUS).2 P.CVP_CTRL_STATUS).2
      (__read_register P d P.CVP_WRAPPER_CPU_STATUS).1 pc_ready

/-- The part of `__power_collapse` behind a `__dsp_suspend` that returned 0
(lines 2568-2629). -/
def pc_after_dsp (P : cvp_platform) (K : power_callees) (d : iris_hfi_device) :
    Int × Option iris_hfi_device :=
  if (__read_register P (K.__flush_debug_queue d) P.CVP_CTRL_STATUS).1
      &&& P.CVP_CTRL_STATUS_PC_READY = 0 then
    pc_when_not_ready P K (__read_register P (K.__flush_debug_queue d) P.CVP_CTRL_STATUS).2
      ((__read_register P (K.__flush_debug_queue d) P.CVP_CTRL_STATUS).1
        &&& P.CVP_CTRL_STATUS_PC_READY)
  else pc_when_ready P K (__read_register P (K.__flush_debug_queue d) P.CVP_CTRL_STATUS).2

/-- The invocations of the registered callback recorded in a trace. -/
def callbacks_of : List hw_event → List (Nat × msm_cvp_cb_info)
  | [] => []
  | hw_event.callback t rsp :: l => (t, rsp) :: callbacks_of l
  | _ :: l => callbacks_of l

/-- The callees of `__power_collapse` do not invoke the registered callback. -/
def raises_no_callback (K : power_callees) : Prop :=
  ∀ d, callbacks_of (K.__flush_debug_queue d).trace = callbacks_of d.trace ∧
    callbacks_of (K.__prepare_pc d).2.trace = callbacks_of d.trace ∧
    callbacks_of (K.__suspend d).2.trace = callbacks_of d.trace

/-- The return value and device of the collapse attempt that
`iris_hfi_pm_handler` makes on `dev` (lines 2503-2506). -/
def pm_handler_attempt (E : hfi_platform) (K : power_callees) (dev : iris_hfi_device) :
    Int × iris_hfi_device :=
  ((__power_collapse E.tocvp_platform K (some dev) E.dsp_suspended).1,
    dev_of (__power_collapse E.tocvp_platform K (some dev) E.dsp_suspended).2 dev)

/-- Two results of `__power_collapse` agree up to the flags of the sessions:
the return values are equal and the devices differ at most in those flags. -/
def same_up_to_flags (x y : Int × Option iris_hfi_device) : Prop :=
  x.1 = y.1 ∧ x.2.map erase_session_flags = y.2.map erase_session_flags

/-- The queue yields `k` packets: `k` successive calls of `__read_queue`
return 0 and the next one fails. -/
def queue_depth (HUGE MSGQ : Nat) : Nat → cvp_iface_q_info → Bool
  | 0, q => decide ((__read_queue HUGE MSGQ (some q) (some fun _ => 0) (some 0)).rc ≠ 0)
  | k + 1, q =>
    decide ((__read_queue HUGE MSGQ (some q) (some fun _ => 0) (some 0)).rc = 0) &&
      queue_depth HUGE MSGQ k
        ((__read_queue HUGE MSGQ (some q) (some fun _ => 0) (some 0)).qinfo.getD q)

/-- The message queue yields `k` packets: from the device and the buffer
given, `k` successive calls of `__iface_msgq_read` return 0 and the next one
fails. -/
def msgq_depth (E : hfi_platform) : Nat → iris_hfi_device → (Nat → Nat) → Bool
  | 0, device, raw => decide ((__iface_msgq_read E device (some raw)).rc ≠ 0)
  | k + 1, device, raw =>
    decide ((__iface_msgq_read E device (some raw)).rc = 0) &&
      msgq_depth E k (__iface_msgq_read E device (some raw)).device
        ((__iface_msgq_read E device (some raw)).packet.getD raw)

/-- The first `k` reads of the message queue, in order: the device and the
contents of the buffer after each call of `__iface_msgq_read`. -/
def msgq_reads (E : hfi_platform) :
    Nat → iris_hfi_device → (Nat → Nat) → List (iris_hfi_device × (Nat → Nat))
  | 0, _, _ => []
  | k + 1, device, raw =>
    ((__iface_msgq_read E device (some raw)).device,
        (__iface_msgq_read E device (some raw)).packet.getD raw)
      :: msgq_reads E k (__iface_msgq_read E device (some raw)).device
        ((__iface_msgq_read E device (some raw)).packet.getD raw)

/-- The events of a drain: the packets read are taken in order, each packet
that `__response_handler_packet` keeps gives one event, and nothing is taken
behind an event of type `HAL_SYS_ERROR` or behind the event that fills the
array.  `count` is the number of events before the first packet and `packets`
the contents of the array, whose slot `count` the decoder sees. -/
def drain_events (E : hfi_platform) :
    Nat → (Nat → msm_cvp_cb_info) → List (iris_hfi_device × (Nat → Nat)) →
      List msm_cvp_cb_info
  | _, _, [] => []
  | count, packets, read :: rest =>
    if !(__response_handler_packet E read.1 read.2 (packets count)).1 then
      drain_events E count
        (Function.update packets count
          (__response_handler_packet E read.1 read.2 (packets count)).2) rest
    else if count + 1 ≥ cvp_max_packets then
      [(__response_handler_packet E read.1 read.2 (packets count)).2]
    else if (__response_handler_packet E read.1 read.2 (packets count)).2.response_type
        = E.HAL_SYS_ERROR then
      [(__response_handler_packet E read.1 read.2 (packets count)).2]
    else
      (__response_handler_packet E read.1 read.2 (packets count)).2
        :: drain_events E (count + 1)
          (Function.update packets count
            (__response_handler_packet E read.1 read.2 (packets count)).2) rest

/-- The callback does not call back into the dispatch: it invokes no callback
itself and leaves the response array of the device alone. -/
def callback_passive (E : hfi_platform) : Prop :=
  ∀ t rsp d, callbacks_of (E.callback t rsp d).trace = callbacks_of d.trace ∧
    (E.callback t rsp d).response_pkt = d.response_pkt

/-- No callback takes the core out of the valid state. -/
def callback_keeps_core (E : hfi_platform) : Prop :=
  ∀ t rsp d, __core_in_valid_state E.tocvp_platform d = true →
    __core_in_valid_state E.tocvp_platform (E.callback t rsp d) = true

/-- The device `d` agrees with the device `a` in what the response path only
reads: identity, state, sessions, latched interrupt status and callback
pointer, and no callback was invoked in between. -/
def response_frame (a d : iris_hfi_device) : Prop :=
  d.device_id = a.device_id ∧ d.state = a.state ∧ d.sess_head = a.sess_head ∧
  d.intr_status = a.intr_status ∧ d.callback = a.callback ∧
  callbacks_of d.trace = callbacks_of a.trace

/-- A message queue array for the examples: three packets of four words, a
system event of type 8, a session event of type 5 for the wire id 96 and a
session event of type 5 for the wire id 97. -/
def sample_msgq_mem : Nat → Nat :=
  fun i => [16, 8, 0, 11, 16, 5, 96, 12, 16, 5, 97, 13].getD i 0

/-- A device for the examples of the response path: one session at address
4096 (wire id 96, client id 7), the three packets of `sample_msgq_mem`
pending in the message queue, one packet of two words pending in the debug
queue, and `intr` latched as interrupt status. -/
def sample_response_device (intr : Nat) : iris_hfi_device :=
  { sample_device [0] with
    intr_status := intr
    iface_msgq := mk_qinfo ⟨1, 1, 0, 0, 12⟩ sample_msgq_mem 64
    iface_dbgq := mk_qinfo ⟨2, 0, 0, 0, 2⟩ (fun i => if i = 0 then 8 else 1) 64 }

/-- The platform `sample_hfi 0 false 0` with a callback that de-initialises
the core, as a release of the core from inside the callback does. -/
def sample_hfi_releasing : hfi_platform :=
  { sample_hfi 0 false 0 with callback := fun _ _ d => { d with state := 1 } }

/-- The acquiring steps recorded in a trace, in order. -/
def acquisitions : List hw_event → List init_step
  | [] => []
  | hw_event.acquire step :: l => step :: acquisitions l
  | _ :: l => acquisitions l

/-- The acquiring steps of one run of `iris_hfi_core_init` in which every
step succeeds. -/
def init_acquisitions (C : core_init_callees) : List init_step :=
  [init_step.bus_vote_data, init_step.init_resources]
    ++ (if C.load_fw_required then [init_step.load_cvp_fw_impl] else [])
    ++ (if C.msm_cvp_mmrm_enabled then [init_step.mmrm_register] else [])
    ++ [init_step.interface_queues_init]

/-- The callees of `__resume` record no acquiring step. -/
def resume_records_no_step (R : resume_callees) : Prop :=
  ∀ d,
    acquisitions (R.__iris_power_on d).2.trace = acquisitions d.trace ∧
    (∀ st, acquisitions (R.__tzbsp_set_cvp_state st d).2.trace = acquisitions d.trace) ∧
    acquisitions (R.__setup_ucregion_memory_map d).trace = acquisitions d.trace ∧
    acquisitions (R.__boot_firmware d).2.trace = acquisitions d.trace ∧
    acquisitions (R.msm_cvp_trigger_ssr d).trace = acquisitions d.trace ∧
    acquisitions (R.__set_threshold_registers d).trace = acquisitions d.trace ∧
    (∀ b, acquisitions (R.cvp_pm_qos_update b d).trace = acquisitions d.trace) ∧
    acquisitions (R.__sys_set_debug d).trace = acquisitions d.trace ∧
    acquisitions (R.__enable_subcaches d).trace = acquisitions d.trace ∧
    acquisitions (R.__set_subcaches d).trace = acquisitions d.trace ∧
    acquisitions (R.__dsp_resume d).trace = acquisitions d.trace ∧
    acquisitions (R.power_off d).trace = acquisitions d.trace

/-- The functions that `iris_hfi_core_init` calls record no acquiring step
themselves: the model records the steps where it calls them. -/
def records_no_step (C : core_init_callees) : Prop :=
  ∀ d,
    acquisitions (C.__init_resources d).2.trace = acquisitions d.trace ∧
    acquisitions (C.__initialize_packetization d).2.trace = acquisitions d.trace ∧
    acquisitions (C.load_cvp_fw_impl d).2.trace = acquisitions d.trace ∧
    acquisitions (C.msm_cvp_mmrm_register d).2.trace = acquisitions d.trace ∧
    acquisitions (C.__interface_queues_init d).2.trace = acquisitions d.trace ∧
    acquisitions (C.add_va_md_nodes d).trace = acquisitions d.trace ∧
    acquisitions (C.__set_ubwc_config d).trace = acquisitions d.trace ∧
    acquisitions (C.__sys_set_idle_indicator d).trace = acquisitions d.trace ∧
    acquisitions (C.pm_qos_add_requests d).trace = acquisitions d.trace ∧
    acquisitions (C.cvp_dsp_send_hfi_queue d).trace = acquisitions d.trace

/-- Callees of `iris_hfi_core_init` for the examples: every step succeeds and
leaves the device alone, the firmware has to be loaded and there is no MMRM
client. -/
def sample_init_callees : core_init_callees :=
  { kzalloc_bus_vote_data := true
    __init_resources := fun d => (0, d)
    __initialize_packetization := fun d => (0, d)
    load_fw_required := true
    load_cvp_fw_impl := fun d => (0, d)
    __deinit_resources := fun d => d
    msm_cvp_mmrm_enabled := false
    msm_cvp_mmrm_register := fun d => (0, d)
    msm_cvp_mmrm_deregister := fun d => d
    __interface_queues_init := fun d => (0, d)
    add_va_md_nodes := fun d => d
    msm_cvp_map_ipcc_regs := (0, 4096)
    CVP_MMAP_ADDR := 52
    CVP_VERSION_INFO := 56
    sys_init := (0, sample_pkt 3 90000)
    sys_image_version := (0, sample_pkt 3 91000)
    __set_ubwc_config := fun d => d
    __sys_set_idle_indicator := fun d => d
    pm_qos_add_requests := fun d => d
    cvp_dsp_send_hfi_queue := fun d => d
    __unload_fw := fun d => d }

/-- A device for the examples that was never initialised: the state is 0 and
the power is off. -/
def sample_fresh_device : iris_hfi_device :=
  { sample_device [] with state := 0, power_enabled := false }



/-- A callee leaves `power_enabled` and `res` of the device as they are. -/
def keeps_power (f : iris_hfi_device → iris_hfi_device) : Prop :=
  ∀ d, (f d).power_enabled = d.power_enabled ∧ (f d).res = d.res

/-- The callees of `__iris_power_on`, `power_off_iris2`, `__suspend` and of the
part of `__resume` up to the boot of the firmware leave `power_enabled` and
`res` alone: in `cvp_hfi.c` the member `power_enabled` is written only at
lines 3890, 3913 and 4230, all three in `__iris_power_on` and
`power_off_iris2`. -/
def resume_keeps_power (W : iris2_callees) (R : resume_callees) : Prop :=
  keeps_power (fun d => (W.__vote_buses d).2) ∧
  keeps_power (fun d => (W.__power_on_controller d).2) ∧
  keeps_power (fun d => (W.__power_on_core d).2) ∧
  keeps_power (fun d => (W.msm_cvp_scale_clocks d).2) ∧
  keeps_power W.__set_registers ∧
  keeps_power W.interrupt_init ∧
  keeps_power (fun d => (W.__disable_subcaches d).2) ∧
  (∀ s, keeps_power (fun d => (R.__tzbsp_set_cvp_state s d).2)) ∧
  keeps_power R.__setup_ucregion_memory_map ∧
  keeps_power (fun d => (R.__boot_firmware d).2) ∧
  keeps_power R.msm_cvp_trigger_ssr

/-- Callees of the power sequences for the examples: every step succeeds and
leaves the device as it is. -/
def sample_iris2_callees : iris2_callees :=
  { __vote_buses := fun d => (0, d)
    __power_on_controller := fun d => (0, d)
    __power_on_core := fun d => (0, d)
    msm_cvp_scale_clocks := fun d => (0, d)
    __set_registers := fun d => d
    interrupt_init := fun d => d
    __power_off_core := fun d => (0, d)
    __power_off_controller := fun d => (0, d)
    __unvote_buses := fun d => (0, d)
    __disable_subcaches := fun d => (0, d)
    CVP_WRAPPER_DEBUG_BRIDGE_LPI_CONTROL := 52 }

/-- Callees of `__resume` for the examples in which the secure monitor
answers every state change with `rc`. -/
def sample_resume_callees_tz (rc : Int) : resume_callees :=
  { sample_resume_callees with __tzbsp_set_cvp_state := fun _ d => (rc, d) }

/-- An initialised device with the power off, on a platform whose
`sw_power_collapsible` is `collapsible`. -/
def sample_unpowered_device (collapsible : Bool) : iris_hfi_device :=
  { sample_device [] with
    power_enabled := false
    res := ⟨collapsible, 100, 0, false⟩ }

/-- The loop of `__response_handler` once more, with the index of the slot of
`packets` that each pass takes at line 2892 (`&packets[packet_count++]`)
recorded in order; the second component is the result of the loop. -/
def drain_slots (E : hfi_platform) : Nat → response_state → List Nat × Option response_state
  | 0, _ => ([], none)
  | fuel + 1, s =>
    let r := __iface_msgq_read E s.device (some s.raw_packet)
    let raw := r.packet.getD s.raw_packet
    if r.rc ≠ 0 then ([], some ⟨r.device, raw, s.packets, s.packet_count⟩)
    else
      let k := __response_handler_packet E r.device raw (s.packets s.packet_count)
      let packets := Function.update s.packets s.packet_count k.2
      if !k.1 then
        (s.packet_count :: (drain_slots E fuel ⟨r.device, raw, packets, s.packet_count⟩).1,
          (drain_slots E fuel ⟨r.device, raw, packets, s.packet_count⟩).2)
      else if s.packet_count + 1 ≥ cvp_max_packets then
        ([s.packet_count], some ⟨r.device, raw, packets, s.packet_count + 1⟩)
      else if k.2.response_type = E.HAL_SYS_ERROR then
        ([s.packet_count], some ⟨r.device, raw, packets, s.packet_count + 1⟩)
      else
        (s.packet_count
            :: (drain_slots E fuel ⟨r.device, raw, packets, s.packet_count + 1⟩).1,
          (drain_slots E fuel ⟨r.device, raw, packets, s.packet_count + 1⟩).2)

/-- The callees of `__resume` leave the session list of the device alone. -/
def resume_keeps_sessions (R : resume_callees) : Prop :=
  ∀ d,
    (R.__iris_power_on d).2.sess_head = d.sess_head ∧
    (∀ st, (R.__tzbsp_set_cvp_state st d).2.sess_head = d.sess_head) ∧
    (R.__setup_ucregion_memory_map d).sess_head = d.sess_head ∧
    (R.__boot_firmware d).2.sess_head = d.sess_head ∧
    (R.msm_cvp_trigger_ssr d).sess_head = d.sess_head ∧
    (R.__set_threshold_registers d).sess_head = d.sess_head ∧
    (∀ b, (R.cvp_pm_qos_update b d).sess_head = d.sess_head) ∧
    (R.__sys_set_debug d).sess_head = d.sess_head ∧
    (R.__enable_subcaches d).sess_head = d.sess_head ∧
    (R.__set_subcaches d).sess_head = d.sess_head ∧
    (R.__dsp_resume d).sess_head = d.sess_head ∧
    (R.power_off d).sess_head = d.sess_head

/-- Callees of `iris_hfi_session_init` for the examples: the builder answers
`rc` and leaves a packet of three words. -/
def sample_session_init_callees (rc : Int) : session_init_callees :=
  { session_init := fun _ => (rc, sample_pkt 3 90000)
    __sys_set_power_control := fun d => d }

/-- A platform for the examples of the device creation: every allocation
succeeds, the mapping returns the base it is given, `request_irq` returns 0
and two ranges of the same base are taken to contain and overlap each
other. -/
def sample_creation_platform : creation_platform :=
  { FIRMWARE_SIZE := 8388608
    CONTAINS := fun base _ addr => decide (base = addr)
    OVERLAPS := fun base _ addr _ => decide (base = addr)
    kzalloc_device := true
    kmalloc_response_pkt := true
    kzalloc_raw_packet := true
    kzalloc_hal := true
    create_cvp_workq := true
    create_pm_workq := true
    devm_ioremap := fun base _ => base
    request_irq := fun _ => 0 }

/-- Platform resources for the examples. -/
def sample_hal_resources : hal_resources :=
  ⟨2147483648, 180355072, 1048576, 234, 0, 0⟩

/-- The first `V` (character 86) of the string `fw` is at index `k`. -/
def first_V_at (fw : Nat → Nat) (k : Nat) : Prop :=
  fw k = 86 ∧ ∀ j, j < k → fw j ≠ 86

/-- A device for the examples of `iris_hfi_get_fw_info`. -/
def sample_added_device : added_device :=
  ⟨0, some ⟨234, 2147483648, 180355072, 1048576, 0, 0⟩, sample_hal_resources⟩

/-- An object `struct cvp_hal_fw_info` whose version reads `old` at every
index. -/
def sample_fw_info (old : Nat) : cvp_hal_fw_info :=
  ⟨fun _ => old, 0, 0, 0, 0⟩

/-! ## Auxiliary lemmas -/

/-- Below twice the capacity, `wrap` is the remainder modulo the capacity. -/
theorem wrap_eq_mod {C x : Nat} (h : x < 2 * C) : wrap C x = x % C := by
  unfold wrap
  split_ifs with hx
  · exact (Nat.mod_eq_of_lt hx).symm
  · rw [Nat.mod_eq_sub_mod (by omega), Nat.mod_eq_of_lt (by omega)]

/-- A wrapped index lies in the ring. -/
theorem wrap_lt {C x : Nat} (h : x < 2 * C) : wrap C x < C := by
  simp only [wrap]; split_ifs <;> omega

/-- Reducing twice is reducing once. -/
theorem u32_u32 (x : Nat) : u32 (u32 x) = u32 x := by simp [u32]

/-- Word `i` of the packet is found at the wrapped position `w + i`. -/
theorem ring_store_hit (C : Nat) (mem : Nat → Nat) (w : Nat) (pkt : Nat → Nat) (n i : Nat)
    (hw : w < C) (hn : n ≤ C) (hi : i < n) :
    ring_store C mem w pkt n (wrap C (w + i)) = pkt i := by
  simp only [ring_store, wrap]
  split_ifs <;> first | omega | (congr 1; omega)

/-- A position that is no wrapped `w + i` keeps its word. -/
theorem ring_store_miss (C : Nat) (mem : Nat → Nat) (w : Nat) (pkt : Nat → Nat) (n x : Nat)
    (hw : w < C) (hn : n ≤ C) (hx : ∀ i, i < n → x ≠ wrap C (w + i)) :
    ring_store C mem w pkt n x = mem x := by
  simp only [ring_store]
  split_ifs with h1 h2
  · exfalso
    apply hx (x - w) (by omega)
    simp only [wrap]; split_ifs <;> omega
  · exfalso
    apply hx (x + C - w) (by omega)
    simp only [wrap]; split_ifs <;> omega
  · rfl

/-- With equal indices the free space is the whole capacity. -/
theorem empty_space_of_eq (C r : Nat) (hC : C < 4294967296) : empty_space C r r = C := by
  simp only [empty_space, sub32]; simp; omega

/-! ### The outcomes of `__write_queue` -/

/-- The size error of `__write_queue` (lines 410-415): nothing is changed. -/
theorem write_queue_bad_size (queue : cvp_hfi_queue_header) (mem : Nat → Nat)
    (mem_size : Nat) (pkt : Nat → Nat)
    (h : shr2 (u32 (pkt 0)) = 0 ∨ shr2 (u32 (pkt 0)) > shr2 (u32 mem_size)) :
    __write_queue (some (mk_qinfo queue mem mem_size)) (some pkt)
      = ⟨-ENODATA, some (mk_qinfo queue mem mem_size), none⟩ := by
  simp [__write_queue, mk_qinfo, h]

/-- The refusal of `__write_queue` for lack of space (lines 424-430): only
`tx_req` is changed. -/
theorem write_queue_full (queue : cvp_hfi_queue_header) (mem : Nat → Nat)
    (mem_size : Nat) (pkt : Nat → Nat)
    (h0 : shr2 (u32 (pkt 0)) ≠ 0)
    (hn : shr2 (u32 (pkt 0)) ≤ shr2 (u32 mem_size))
    (hsp : empty_space (shr2 (u32 mem_size)) (u32 queue.qhdr_read_idx)
      (u32 queue.qhdr_write_idx) ≤ shr2 (u32 (pkt 0))) :
    __write_queue (some (mk_qinfo queue mem mem_size)) (some pkt)
      = ⟨-ENOTEMPTY, some (mk_qinfo { queue with qhdr_tx_req := 1 } mem mem_size), none⟩ := by
  have hnot : ¬ (shr2 (u32 (pkt 0)) = 0 ∨ shr2 (u32 (pkt 0)) > shr2 (u32 mem_size)) := by
    omega
  simp [__write_queue, mk_qinfo, hnot, hsp]

/-- The successful write at a write index below the capacity, in terms of
`ring_store` and `wrap`. -/
theorem write_queue_ok (queue : cvp_hfi_queue_header) (mem : Nat → Nat)
    (mem_size : Nat) (pkt : Nat → Nat)
    (h0 : shr2 (u32 (pkt 0)) ≠ 0)
    (hn : shr2 (u32 (pkt 0)) ≤ shr2 (u32 mem_size))
    (hsp : shr2 (u32 (pkt 0)) < empty_space (shr2 (u32 mem_size))
      (u32 queue.qhdr_read_idx) (u32 queue.qhdr_write_idx))
    (hw : u32 queue.qhdr_write_idx < shr2 (u32 mem_size)) :
    __write_queue (some (mk_qinfo queue mem mem_size)) (some pkt)
      = ⟨0,
          some (mk_qinfo
            { queue with
              qhdr_tx_req := 0
              qhdr_write_idx :=
                wrap (shr2 (u32 mem_size)) (u32 queue.qhdr_write_idx + shr2 (u32 (pkt 0))) }
            (ring_store (shr2 (u32 mem_size)) mem (u32 queue.qhdr_write_idx) pkt
              (shr2 (u32 (pkt 0))))
            mem_size),
          some (decide (u32 queue.qhdr_rx_req = 1))⟩ := by
  have hnot : ¬ (shr2 (u32 (pkt 0)) = 0 ∨ shr2 (u32 (pkt 0)) > shr2 (u32 mem_size)) := by
    omega
  have hsp' : ¬ (empty_space (shr2 (u32 mem_size)) (u32 queue.qhdr_read_idx)
      (u32 queue.qhdr_write_idx) ≤ shr2 (u32 (pkt 0))) := by omega
  have hptr : ¬ (shl2 (u32 queue.qhdr_write_idx) > u32 mem_size) := by
    simp only [shl2, shr2, u32] at *; omega
  generalize hC : shr2 (u32 mem_size) = C at *
  generalize hN : shr2 (u32 (pkt 0)) = n at *
  generalize hW : u32 queue.qhdr_write_idx = w at *
  have hCb : C < 1073741824 := by
    rw [← hC]; simp only [shr2, u32]; omega
  by_cases hlt : add32 w n < C
  · have hwn : w + n < C := by simp only [add32] at hlt; omega
    have ea : add32 w n = w + n := by simp only [add32]; omega
    have hmem : memcpy mem (shl2 w) pkt 0 (shl2 n) = ring_store C mem w pkt n := by
      funext x
      simp only [memcpy, ring_store, shl2]
      split_ifs <;> first | rfl | omega | (congr 1; omega)
    simp only [__write_queue, mk_qinfo, hnot, hsp', hptr, hlt, if_true, if_false, hC, hN, hW]
    simp only [wrap, hwn, if_true, hmem, ea]
  · have hwn : ¬ (w + n < C) := by simp only [add32] at hlt; omega
    have e1 : sub32 (add32 w n) C = w + n - C := by
      simp only [sub32, add32]; omega
    have e2 : sub32 n (w + n - C) = C - w := by
      simp only [sub32]; omega
    have hmem : memcpy (memcpy mem (shl2 w) pkt 0 (shl2 (C - w))) 0 pkt (shl2 (C - w))
        (shl2 (w + n - C)) = ring_store C mem w pkt n := by
      funext x
      simp only [memcpy, ring_store, shl2]
      split_ifs <;> first | rfl | omega | (congr 1; omega)
    simp only [__write_queue, mk_qinfo, hnot, hsp', hptr, hlt, if_true, if_false, hC, hN, hW]
    simp only [wrap, hwn, if_false, e1, e2, hmem]

/-- A write that returns 0 has passed the size check and the space check. -/
theorem write_queue_rc_zero (queue : cvp_hfi_queue_header) (mem : Nat → Nat)
    (mem_size : Nat) (pkt : Nat → Nat)
    (hrc : (__write_queue (some (mk_qinfo queue mem mem_size)) (some pkt)).rc = 0) :
    shr2 (u32 (pkt 0)) ≠ 0 ∧ shr2 (u32 (pkt 0)) ≤ shr2 (u32 mem_size) ∧
    shr2 (u32 (pkt 0)) < empty_space (shr2 (u32 mem_size))
      (u32 queue.qhdr_read_idx) (u32 queue.qhdr_write_idx) := by
  by_cases hnot : shr2 (u32 (pkt 0)) = 0 ∨ shr2 (u32 (pkt 0)) > shr2 (u32 mem_size)
  · simp [__write_queue, mk_qinfo, hnot, ENODATA] at hrc
  · by_cases hsp : empty_space (shr2 (u32 mem_size)) (u32 queue.qhdr_read_idx)
        (u32 queue.qhdr_write_idx) ≤ shr2 (u32 (pkt 0))
    · simp [__write_queue, mk_qinfo, hnot, hsp, ENOTEMPTY] at hrc
    · omega

/-! ### The outcomes of `__read_queue` -/

/-- The read of an empty queue (lines 518-537). -/
theorem read_queue_empty (HUGE MSGQ : Nat) (queue : cvp_hfi_queue_header)
    (mem : Nat → Nat) (mem_size : Nat) (out : Nat → Nat) (pb : Nat)
    (hempty : u32 queue.qhdr_read_idx = u32 queue.qhdr_write_idx) :
    __read_queue HUGE MSGQ (some (mk_qinfo queue mem mem_size)) (some out) (some pb)
      = ⟨-ENODATA,
          some (mk_qinfo
            { queue with
              qhdr_rx_req := if u32 queue.qhdr_type &&& MSGQ ≠ 0 then 1 else 0 }
            mem mem_size),
          some out, some 0⟩ := by
  simp [__read_queue, mk_qinfo, hempty]

/-- The read of a packet whose size is below one word (lines 549-554). -/
theorem read_queue_zero_size (HUGE MSGQ : Nat) (queue : cvp_hfi_queue_header)
    (mem : Nat → Nat) (mem_size : Nat) (out : Nat → Nat) (pb : Nat)
    (hne : u32 queue.qhdr_read_idx ≠ u32 queue.qhdr_write_idx)
    (hzero : shr2 (u32 (mem (shl2 (u32 queue.qhdr_read_idx) / 4))) = 0) :
    __read_queue HUGE MSGQ (some (mk_qinfo queue mem mem_size)) (some out) (some pb)
      = ⟨-ENODATA, some (mk_qinfo queue mem mem_size), some out, some pb⟩ := by
  simp only [__read_queue, mk_qinfo, hne, if_false, __read_queue_packet, hzero]
  split_ifs <;> rfl

/-- The read of a packet above the maximum size (lines 571-584). -/
theorem read_queue_drop (HUGE MSGQ : Nat) (queue : cvp_hfi_queue_header)
    (mem : Nat → Nat) (mem_size : Nat) (out : Nat → Nat) (pb : Nat)
    (hne : u32 queue.qhdr_read_idx ≠ u32 queue.qhdr_write_idx)
    (hidx : u32 queue.qhdr_read_idx < shr2 (u32 mem_size))
    (hhuge : shl2 (shr2 (u32 (mem (u32 queue.qhdr_read_idx)))) > HUGE) :
    __read_queue HUGE MSGQ (some (mk_qinfo queue mem mem_size)) (some out) (some pb)
      = ⟨-ENODATA,
          some (mk_qinfo
            { queue with
              qhdr_rx_req := if u32 queue.qhdr_type &&& MSGQ ≠ 0 then 1 else 0
              qhdr_read_idx := u32 queue.qhdr_write_idx }
            mem mem_size),
          some out, some (if u32 queue.qhdr_tx_req = 1 then 1 else 0)⟩ := by
  have hp : shl2 (u32 queue.qhdr_read_idx) / 4 = u32 queue.qhdr_read_idx := by
    simp only [shl2, shr2, u32] at *; omega
  have hptr : ¬ (shl2 (u32 queue.qhdr_read_idx) + 4 > u32 mem_size) := by
    simp only [shl2, shr2, u32] at *; omega
  have hnz : shr2 (u32 (mem (u32 queue.qhdr_read_idx))) ≠ 0 := by
    intro h; rw [h] at hhuge; simp [shl2] at hhuge
  have hh : ¬ (shl2 (shr2 (u32 (mem (u32 queue.qhdr_read_idx)))) ≤ HUGE) := by omega
  simp [__read_queue, mk_qinfo, hne, __read_queue_packet, hp, hptr, hnz, hh]

/-- The successful read at a read index below the capacity, in terms of
`ring_load` and `wrap`. -/
theorem read_queue_ok (HUGE MSGQ : Nat) (queue : cvp_hfi_queue_header)
    (mem : Nat → Nat) (mem_size : Nat) (out : Nat → Nat) (pb : Nat)
    (hne : u32 queue.qhdr_read_idx ≠ u32 queue.qhdr_write_idx)
    (hr : u32 queue.qhdr_read_idx < shr2 (u32 mem_size))
    (h0 : shr2 (u32 (mem (u32 queue.qhdr_read_idx))) ≠ 0)
    (hn : shr2 (u32 (mem (u32 queue.qhdr_read_idx))) ≤ shr2 (u32 mem_size))
    (hh : shl2 (shr2 (u32 (mem (u32 queue.qhdr_read_idx)))) ≤ HUGE) :
    __read_queue HUGE MSGQ (some (mk_qinfo queue mem mem_size)) (some out) (some pb)
      = ⟨0,
          some (mk_qinfo
            { queue with
              qhdr_rx_req :=
                if wrap (shr2 (u32 mem_size))
                    (u32 queue.qhdr_read_idx + shr2 (u32 (mem (u32 queue.qhdr_read_idx))))
                    ≠ u32 queue.qhdr_write_idx then 0
                else if u32 queue.qhdr_type &&& MSGQ ≠ 0 then 1 else 0
              qhdr_read_idx :=
                wrap (shr2 (u32 mem_size))
                  (u32 queue.qhdr_read_idx + shr2 (u32 (mem (u32 queue.qhdr_read_idx)))) }
            mem mem_size),
          some (ring_load (shr2 (u32 mem_size)) mem (u32 queue.qhdr_read_idx) out
            (shr2 (u32 (mem (u32 queue.qhdr_read_idx))))),
          some (if u32 queue.qhdr_tx_req = 1 then 1 else 0)⟩ := by
  have hp : shl2 (u32 queue.qhdr_read_idx) / 4 = u32 queue.qhdr_read_idx := by
    simp only [shl2, shr2, u32] at *; omega
  have hptr : ¬ (shl2 (u32 queue.qhdr_read_idx) + 4 > u32 mem_size) := by
    simp only [shl2, shr2, u32] at *; omega
  have hle : u32 queue.qhdr_read_idx ≤ shr2 (u32 mem_size) := by omega
  generalize hC : shr2 (u32 mem_size) = C at *
  generalize hR : u32 queue.qhdr_read_idx = r at *
  generalize hN : shr2 (u32 (mem r)) = n at *
  have hCb : C < 1073741824 := by
    rw [← hC]; simp only [shr2, u32]; omega
  by_cases hlt : add32 r n < C
  · have hrn : r + n < C := by simp only [add32] at hlt; omega
    have ea : add32 r n = r + n := by simp only [add32]; omega
    have hout : memcpy out 0 mem (shl2 r) (shl2 n) = ring_load C mem r out n := by
      funext x
      simp only [memcpy, ring_load, shl2, wrap]
      split_ifs <;> first | rfl | omega | (congr 1; omega)
    simp only [__read_queue, mk_qinfo, hne, if_false, __read_queue_packet, hC, hR, hp, hN,
      hptr, h0, hh, hle, and_self, if_true, hlt, hout, ea]
    simp only [wrap, hrn, if_true]
    split_ifs <;> rfl
  · have hrn : ¬ (r + n < C) := by simp only [add32] at hlt; omega
    have e1 : sub32 (add32 r n) C = r + n - C := by
      simp only [sub32, add32]; omega
    have e2 : sub32 n (r + n - C) = C - r := by
      simp only [sub32]; omega
    have hout : memcpy (memcpy out 0 mem (shl2 r) (shl2 (C - r))) (shl2 (C - r)) mem 0
        (shl2 (r + n - C)) = ring_load C mem r out n := by
      funext x
      simp only [memcpy, ring_load, shl2, wrap]
      split_ifs <;> first | rfl | omega | (congr 1; omega)
    simp only [__read_queue, mk_qinfo, hne, if_false, __read_queue_packet, hC, hR, hp, hN,
      hptr, h0, hh, hle, and_self, if_true, hlt, e1, e2, hout]
    simp only [wrap, hrn, if_false]
    split_ifs <;> rfl

/-! ### Packets pending in the ring -/

/-- The words of two lists of packets add up. -/
theorem total_words_append (ps qs : List (Nat → Nat)) :
    total_words (ps ++ qs) = total_words ps + total_words qs := by
  induction ps with
  | nil => simp [total_words]
  | cons p ps ih => simp [total_words, ih]; omega

/-- A layout depends on its starting position modulo the capacity only. -/
theorem layout_congr_pos (HUGE C : Nat) (mem : Nat → Nat) (ps : List (Nat → Nat)) :
    ∀ pos pos', pos % C = pos' % C → layout HUGE C mem pos ps → layout HUGE C mem pos' ps := by
  induction ps with
  | nil => intro _ _ _ _; trivial
  | cons p ps ih =>
    intro pos pos' h hl
    obtain ⟨h0, hh, hw, hrest⟩ := hl
    refine ⟨h0, hh, ?_, ?_⟩
    · intro i hi
      rw [← hw i hi, Nat.add_mod pos' i, ← h, ← Nat.add_mod]
    · refine ih _ _ ?_ hrest
      rw [Nat.add_mod pos, h, ← Nat.add_mod]

/-- A layout survives every change of the buffer outside its own words. -/
theorem layout_frame (HUGE C : Nat) (mem mem' : Nat → Nat) (ps : List (Nat → Nat)) :
    ∀ pos, (∀ a, a < total_words ps → mem' ((pos + a) % C) = mem ((pos + a) % C)) →
      layout HUGE C mem pos ps → layout HUGE C mem' pos ps := by
  induction ps with
  | nil => intro _ _ _; trivial
  | cons p ps ih =>
    intro pos hsame hl
    obtain ⟨h0, hh, hw, hrest⟩ := hl
    refine ⟨h0, hh, ?_, ?_⟩
    · intro i hi
      rw [hsame i (by simp only [total_words]; omega)]
      exact hw i hi
    · refine ih _ ?_ hrest
      intro a ha
      have := hsame (pkt_words p + a) (by simp only [total_words]; omega)
      rwa [← Nat.add_assoc] at this

/-- Two layouts, one behind the other, make the layout of the joined list. -/
theorem layout_append (HUGE C : Nat) (mem : Nat → Nat) (ps qs : List (Nat → Nat)) :
    ∀ pos, layout HUGE C mem pos ps → layout HUGE C mem (pos + total_words ps) qs →
      layout HUGE C mem pos (ps ++ qs) := by
  induction ps with
  | nil => intro pos _ h; simpa [total_words] using h
  | cons p ps ih =>
    intro pos hl hq
    obtain ⟨h0, hh, hw, hrest⟩ := hl
    refine ⟨h0, hh, hw, ih _ hrest ?_⟩
    simpa [total_words, Nat.add_assoc] using hq

/-- Two offsets below the capacity that reach the same ring position are equal. -/
theorem mod_add_inj {C r a b : Nat} (ha : a < C) (hb : b < C)
    (h : (r + a) % C = (r + b) % C) : a = b := by
  have h1 : a % C = b % C := Nat.ModEq.add_left_cancel' r h
  rwa [Nat.mod_eq_of_lt ha, Nat.mod_eq_of_lt hb] at h1

/-- The free space computed by `__write_queue` is the capacity minus the
pending words. -/
theorem holds_empty_space (HUGE : Nat) (queue : cvp_hfi_queue_header) (mem : Nat → Nat)
    (mem_size : Nat) (pend : List (Nat → Nat)) (h : holds HUGE queue mem mem_size pend) :
    empty_space (shr2 (u32 mem_size)) (u32 queue.qhdr_read_idx) (u32 queue.qhdr_write_idx)
      = shr2 (u32 mem_size) - total_words pend := by
  obtain ⟨hr, ht, hw, -⟩ := h
  have hCb : shr2 (u32 mem_size) < 1073741824 := by simp only [shr2, u32]; omega
  rw [hw, ← wrap_eq_mod (by omega)]
  simp only [empty_space, sub32, wrap]
  split_ifs <;> omega

/-- A write that returns 0 appends its packet to the pending ones. -/
theorem holds_write (HUGE : Nat) (queue : cvp_hfi_queue_header) (mem : Nat → Nat)
    (mem_size : Nat) (pend : List (Nat → Nat)) (pkt : Nat → Nat)
    (h : holds HUGE queue mem mem_size pend)
    (hsmall : shl2 (shr2 (u32 (pkt 0))) ≤ HUGE)
    (hrc : (__write_queue (some (mk_qinfo queue mem mem_size)) (some pkt)).rc = 0) :
    ∃ queue' mem',
      (__write_queue (some (mk_qinfo queue mem mem_size)) (some pkt)).qinfo
        = some (mk_qinfo queue' mem' mem_size) ∧
      holds HUGE queue' mem' mem_size (pend ++ [pkt]) := by
  obtain ⟨h0, hn, hsp⟩ := write_queue_rc_zero queue mem mem_size pkt hrc
  have hes := holds_empty_space HUGE queue mem mem_size pend h
  obtain ⟨hr, ht, hw, hl⟩ := h
  have hCb : shr2 (u32 mem_size) < 1073741824 := by simp only [shr2, u32]; omega
  have hwC : u32 queue.qhdr_write_idx < shr2 (u32 mem_size) := by
    rw [hw]; exact Nat.mod_lt _ (by omega)
  rw [write_queue_ok queue mem mem_size pkt h0 hn hsp hwC]
  refine ⟨_, _, rfl, ?_⟩
  rw [hes] at hsp
  generalize hC : shr2 (u32 mem_size) = C at *
  generalize hN : shr2 (u32 (pkt 0)) = n at *
  generalize hW : u32 queue.qhdr_write_idx = w at *
  generalize hR : u32 queue.qhdr_read_idx = r at *
  have hN' : pkt_words pkt = n := hN
  have hwrap : wrap C (w + n) < C := by simp only [wrap]; split_ifs <;> omega
  refine ⟨?_, ?_, ?_, ?_⟩
  · simpa [hC, hR] using hr
  · simp only [hC, total_words_append, total_words, hN']; omega
  · simp only [hC, hR, total_words_append, total_words, hN', Nat.add_zero]
    have : u32 (wrap C (w + n)) = wrap C (w + n) := by simp only [u32]; omega
    rw [this, wrap_eq_mod (by omega), hw, Nat.mod_add_mod, Nat.add_assoc]
  · simp only [hC, hR]
    apply layout_append
    · apply layout_frame HUGE C mem _ pend r _ hl
      intro a ha
      apply ring_store_miss C mem w pkt n _ hwC hn
      intro i hi heq
      rw [wrap_eq_mod (by omega), hw, Nat.mod_add_mod, Nat.add_assoc] at heq
      have := mod_add_inj (by omega) (by omega) heq
      omega
    · refine ⟨by rw [hN']; exact h0, by rw [hN']; exact hsmall, ?_, trivial⟩
      intro i hi
      rw [hN'] at hi
      rw [← Nat.mod_add_mod, ← hw, ← wrap_eq_mod (by omega)]
      exact ring_store_hit C mem w pkt n i hwC hn hi

/-- A read of a queue without pending packets reports the empty queue. -/
theorem holds_read_nil (HUGE MSGQ : Nat) (queue : cvp_hfi_queue_header) (mem : Nat → Nat)
    (mem_size : Nat) (out : Nat → Nat) (pb : Nat)
    (h : holds HUGE queue mem mem_size []) :
    (__read_queue HUGE MSGQ (some (mk_qinfo queue mem mem_size)) (some out) (some pb)).rc
        = -ENODATA ∧
    ∃ queue',
      (__read_queue HUGE MSGQ (some (mk_qinfo queue mem mem_size)) (some out) (some pb)).qinfo
        = some (mk_qinfo queue' mem mem_size) ∧
      holds HUGE queue' mem mem_size [] := by
  obtain ⟨hr, ht, hw, hl⟩ := h
  have hempty : u32 queue.qhdr_read_idx = u32 queue.qhdr_write_idx := by
    rw [hw]; simp only [total_words, Nat.add_zero]; exact (Nat.mod_eq_of_lt hr).symm
  rw [read_queue_empty HUGE MSGQ queue mem mem_size out pb hempty]
  exact ⟨rfl, _, rfl, hr, ht, hw, hl⟩

/-- A read of a queue with pending packets delivers the oldest of them. -/
theorem holds_read_cons (HUGE MSGQ : Nat) (queue : cvp_hfi_queue_header) (mem : Nat → Nat)
    (mem_size : Nat) (out : Nat → Nat) (pb : Nat) (p : Nat → Nat) (ps : List (Nat → Nat))
    (h : holds HUGE queue mem mem_size (p :: ps)) :
    (__read_queue HUGE MSGQ (some (mk_qinfo queue mem mem_size)) (some out) (some pb)).rc = 0 ∧
    (∃ out',
      (__read_queue HUGE MSGQ (some (mk_qinfo queue mem mem_size)) (some out)
        (some pb)).packet = some out' ∧
      ∀ i, i < shr2 (u32 (p 0)) → out' i = p i) ∧
    ∃ queue',
      (__read_queue HUGE MSGQ (some (mk_qinfo queue mem mem_size)) (some out) (some pb)).qinfo
        = some (mk_qinfo queue' mem mem_size) ∧
      holds HUGE queue' mem mem_size ps := by
  obtain ⟨hr, ht, hw, h0, hh, hwords, hrest⟩ := h
  have hCb : shr2 (u32 mem_size) < 1073741824 := by simp only [shr2, u32]; omega
  simp only [total_words] at ht hw
  have hsize : mem (u32 queue.qhdr_read_idx) = p 0 := by
    have := hwords 0 (Nat.pos_of_ne_zero h0)
    rwa [Nat.add_zero, Nat.mod_eq_of_lt hr] at this
  have hne : u32 queue.qhdr_read_idx ≠ u32 queue.qhdr_write_idx := by
    intro heq
    rw [hw] at heq
    have h1 : (u32 queue.qhdr_read_idx + 0) % shr2 (u32 mem_size)
        = (u32 queue.qhdr_read_idx + (pkt_words p + total_words ps)) % shr2 (u32 mem_size) := by
      rw [Nat.add_zero, Nat.mod_eq_of_lt hr]; exact heq
    have := mod_add_inj (by omega) ht h1
    omega
  rw [read_queue_ok HUGE MSGQ queue mem mem_size out pb hne hr
    (by rw [hsize]; exact h0) (by rw [hsize]; unfold pkt_words at ht; omega)
    (by rw [hsize]; exact hh)]
  rw [hsize]
  unfold pkt_words at ht hw h0 hwords hrest
  generalize hC : shr2 (u32 mem_size) = C at *
  generalize hN : shr2 (u32 (p 0)) = n at *
  generalize hR : u32 queue.qhdr_read_idx = r at *
  refine ⟨rfl, ⟨_, rfl, ?_⟩, _, rfl, ?_⟩
  · intro i hi
    simp only [ring_load, hi, if_true]
    rw [wrap_eq_mod (by omega)]
    exact hwords i hi
  · have hwrap : wrap C (r + n) < C := by simp only [wrap]; split_ifs <;> omega
    have hu : u32 (wrap C (r + n)) = wrap C (r + n) := by simp only [u32]; omega
    refine ⟨?_, ?_, ?_, ?_⟩
    · simpa [hC, hu] using hwrap
    · simp only [hC]; omega
    · simp only [hC, hu]
      rw [wrap_eq_mod (by omega), Nat.mod_add_mod, hw, Nat.add_assoc]
    · simp only [hC, hu]
      refine layout_congr_pos HUGE C mem ps (r + n) _ ?_ hrest
      rw [wrap_eq_mod (by omega), Nat.mod_mod]

/-- The round trip from any queue state that holds the packets `pend`: the reads
that return 0 deliver `pend` followed by the written packets, in order. -/
theorem roundtrip_from_holds (HUGE MSGQ mem_size : Nat) :
    ∀ (ops : List queue_op) (queue : cvp_hfi_queue_header) (mem : Nat → Nat)
      (pend : List (Nat → Nat)),
      holds HUGE queue mem mem_size pend →
      all_writes_ok (run_queue HUGE MSGQ (some (mk_qinfo queue mem mem_size)) ops) = true →
      (∀ pkt, queue_op.write pkt ∈ ops → shl2 (shr2 (u32 (pkt 0))) ≤ HUGE) →
      ∀ (k : Nat) (out : Nat → Nat),
        (delivered (run_queue HUGE MSGQ (some (mk_qinfo queue mem mem_size)) ops))[k]?
          = some out →
        ∃ pkt : Nat → Nat,
          (pend ++ written (run_queue HUGE MSGQ (some (mk_qinfo queue mem mem_size)) ops))[k]?
            = some pkt ∧
          ∀ i, i < shr2 (u32 (pkt 0)) → out i = pkt i := by
  intro ops
  induction ops with
  | nil =>
    intro queue mem pend _ _ _ k out hk
    simp [run_queue, delivered] at hk
  | cons op ops ih =>
    intro queue mem pend hinv hok hsmall k out hk
    cases op with
    | write pkt =>
      simp only [run_queue, all_writes_ok, Bool.and_eq_true, decide_eq_true_eq] at hok
      obtain ⟨queue', mem', hq, hinv'⟩ :=
        holds_write HUGE queue mem mem_size pend pkt hinv
          (hsmall pkt (List.mem_cons_self _ _)) hok.1
      simp only [run_queue, delivered, written] at hk ⊢
      rw [hq] at hk hok ⊢
      have := ih queue' mem' (pend ++ [pkt]) hinv' hok.2
        (fun q hqm => hsmall q (List.mem_cons_of_mem _ hqm)) k out hk
      simpa [List.append_assoc] using this
    | read o pb =>
      cases pend with
      | nil =>
        obtain ⟨hrc, queue', hq, hinv'⟩ := holds_read_nil HUGE MSGQ queue mem mem_size o pb hinv
        simp only [run_queue, all_writes_ok] at hok
        simp only [run_queue, written] at hk ⊢
        rw [hq] at hk hok ⊢
        rw [hrc] at hk
        have hk' : (delivered (run_queue HUGE MSGQ (some (mk_qinfo queue' mem mem_size))
            ops))[k]? = some out := by
          cases hp : (__read_queue HUGE MSGQ (some (mk_qinfo queue mem mem_size)) (some o)
              (some pb)).packet with
          | none => rw [hp] at hk; simpa [delivered] using hk
          | some o' => rw [hp] at hk; simpa [delivered, ENODATA] using hk
        exact ih queue' mem [] hinv' hok
          (fun q hqm => hsmall q (List.mem_cons_of_mem _ hqm)) k out hk'
      | cons p ps =>
        obtain ⟨hrc, ⟨out', hout, hwords⟩, queue', hq, hinv'⟩ :=
          holds_read_cons HUGE MSGQ queue mem mem_size o pb p ps hinv
        simp only [run_queue, all_writes_ok] at hok
        simp only [run_queue, written] at hk ⊢
        rw [hq] at hk hok ⊢
        rw [hrc, hout] at hk
        simp only [delivered, if_true] at hk
        cases k with
        | zero =>
          simp only [List.getElem?_cons_zero, Option.some.injEq] at hk
          subst hk
          exact ⟨p, by simp, hwords⟩
        | succ k =>
          simp only [List.getElem?_cons_succ] at hk
          have := ih queue' mem ps hinv' hok
            (fun q hqm => hsmall q (List.mem_cons_of_mem _ hqm)) k out hk
          simpa using this

/-- An empty queue with indices below the capacity holds no packet. -/
theorem holds_of_empty (HUGE : Nat) (queue : cvp_hfi_queue_header) (mem : Nat → Nat)
    (mem_size : Nat)
    (hempty : u32 queue.qhdr_read_idx = u32 queue.qhdr_write_idx)
    (hidx : u32 queue.qhdr_write_idx < shr2 (u32 mem_size)) :
    holds HUGE queue mem mem_size [] := by
  refine ⟨by omega, by simp only [total_words]; omega, ?_, trivial⟩
  simp only [total_words, Nat.add_zero]
  rw [hempty, Nat.mod_eq_of_lt hidx]

/-! ### Power collapse -/

/-- The scan of `__dsp_suspend` without `force` stops at a session that is not
paused. -/
theorem dsp_suspend_scan_busy (P : cvp_platform) (sessions : List cvp_hal_session)
    (h : ∃ s, s ∈ sessions ∧ u32 s.flags &&& P.SESSION_PAUSE = 0) :
    __dsp_suspend_scan P false sessions = true := by
  induction sessions with
  | nil => obtain ⟨s, hs, _⟩ := h; simp at hs
  | cons t rest ih =>
    obtain ⟨s, hs, hflag⟩ := h
    simp only [__dsp_suspend_scan, Bool.false_eq_true, if_false]
    by_cases ht : u32 t.flags &&& P.SESSION_PAUSE = 0
    · simp [ht]
    · simp only [ht, if_false]
      rcases List.mem_cons.mp hs with rfl | hmem
      · exact absurd hflag ht
      · exact ih ⟨s, hmem, hflag⟩

/-! ## The claims -/

/-- Claim C1, as stated, fails: with a maximum packet size of 12288 bytes and
a queue of 65536 bytes, a packet of 12292 bytes is written with success, the
read that follows drops it, and after a second successful write of an 8-byte
packet the first successful read returns that second packet. -/
theorem queue_roundtrip_counterexample :
    all_writes_ok (run_queue 12288 1 (some (mk_qinfo ⟨1, 0, 0, 0, 0⟩ (fun _ => 0) 65536))
      [queue_op.write (sample_pkt 3073 10), queue_op.read (fun _ => 0) 0,
       queue_op.write (sample_pkt 2 20), queue_op.read (fun _ => 0) 0]) = true ∧
    (written (run_queue 12288 1 (some (mk_qinfo ⟨1, 0, 0, 0, 0⟩ (fun _ => 0) 65536))
      [queue_op.write (sample_pkt 3073 10), queue_op.read (fun _ => 0) 0,
       queue_op.write (sample_pkt 2 20), queue_op.read (fun _ => 0) 0])).map
      (fun p => (p 0, p 1)) = [(12292, 11), (8, 21)] ∧
    (delivered (run_queue 12288 1 (some (mk_qinfo ⟨1, 0, 0, 0, 0⟩ (fun _ => 0) 65536))
      [queue_op.write (sample_pkt 3073 10), queue_op.read (fun _ => 0) 0,
       queue_op.write (sample_pkt 2 20), queue_op.read (fun _ => 0) 0])).map
      (fun p => (p 0, p 1)) = [(8, 21)] := by
  decide

/-- Claim C1, amended: starting from an empty queue with both indices below
the capacity, for every sequence of `__write_queue` and `__read_queue` calls in
which every write returns 0 and every written packet has a size (rounded down
to whole words) of at most `CVP_IFACEQ_VAR_HUGE_PKT_SIZE` bytes, the `k`-th
read that returns 0 delivers the `k`-th written packet: all `size >> 2` words
of it, in particular when the packet spans the end of the buffer. -/
theorem queue_roundtrip (CVP_IFACEQ_VAR_HUGE_PKT_SIZE HFI_Q_ID_CTRL_TO_HOST_MSG_Q : Nat)
    (queue : cvp_hfi_queue_header) (mem : Nat → Nat) (mem_size : Nat) (ops : List queue_op)
    (hempty : u32 queue.qhdr_read_idx = u32 queue.qhdr_write_idx)
    (hidx : u32 queue.qhdr_write_idx < shr2 (u32 mem_size))
    (hok : all_writes_ok (run_queue CVP_IFACEQ_VAR_HUGE_PKT_SIZE HFI_Q_ID_CTRL_TO_HOST_MSG_Q
      (some (mk_qinfo queue mem mem_size)) ops) = true)
    (hsmall : ∀ pkt, queue_op.write pkt ∈ ops →
      shl2 (shr2 (u32 (pkt 0))) ≤ CVP_IFACEQ_VAR_HUGE_PKT_SIZE) :
    ∀ (k : Nat) (out : Nat → Nat),
      (delivered (run_queue CVP_IFACEQ_VAR_HUGE_PKT_SIZE HFI_Q_ID_CTRL_TO_HOST_MSG_Q
        (some (mk_qinfo queue mem mem_size)) ops))[k]? = some out →
      ∃ pkt : Nat → Nat,
        (written (run_queue CVP_IFACEQ_VAR_HUGE_PKT_SIZE HFI_Q_ID_CTRL_TO_HOST_MSG_Q
          (some (mk_qinfo queue mem mem_size)) ops))[k]? = some pkt ∧
        ∀ i, i < shr2 (u32 (pkt 0)) → out i = pkt i := by
  intro k out hk
  have := roundtrip_from_holds CVP_IFACEQ_VAR_HUGE_PKT_SIZE HFI_Q_ID_CTRL_TO_HOST_MSG_Q mem_size
    ops queue mem [] (holds_of_empty _ queue mem mem_size hempty hidx) hok hsmall k out hk
  simpa using this

/-- Instance of the amended claim C1: a queue of 8 words with both indices
at 6, a 3-word packet (which spans the buffer end) and a 2-word packet
written, then two reads; the second read that returns 0 delivers the second
written packet. -/
theorem queue_roundtrip_witness :
    ∃ out pkt : Nat → Nat,
      (delivered (run_queue 12288 1 (some (mk_qinfo ⟨1, 0, 0, 6, 6⟩ (fun _ => 0) 32))
        [queue_op.write (sample_pkt 3 10), queue_op.write (sample_pkt 2 20),
         queue_op.read (fun _ => 0) 0, queue_op.read (fun _ => 0) 0]))[1]? = some out ∧
      (written (run_queue 12288 1 (some (mk_qinfo ⟨1, 0, 0, 6, 6⟩ (fun _ => 0) 32))
        [queue_op.write (sample_pkt 3 10), queue_op.write (sample_pkt 2 20),
         queue_op.read (fun _ => 0) 0, queue_op.read (fun _ => 0) 0]))[1]? = some pkt ∧
      ∀ i, i < shr2 (u32 (pkt 0)) → out i = pkt i := by
  obtain ⟨out, hout⟩ := Option.isSome_iff_exists.mp
    (show ((delivered (run_queue 12288 1 (some (mk_qinfo ⟨1, 0, 0, 6, 6⟩ (fun _ => 0) 32))
      [queue_op.write (sample_pkt 3 10), queue_op.write (sample_pkt 2 20),
       queue_op.read (fun _ => 0) 0, queue_op.read (fun _ => 0) 0]))[1]?).isSome = true
      by decide)
  obtain ⟨pkt, hpkt, hwords⟩ :=
    queue_roundtrip 12288 1 ⟨1, 0, 0, 6, 6⟩ (fun _ => 0) 32
      [queue_op.write (sample_pkt 3 10), queue_op.write (sample_pkt 2 20),
       queue_op.read (fun _ => 0) 0, queue_op.read (fun _ => 0) 0]
      (by decide) (by decide) (by decide)
      (by
        intro pkt hpkt
        simp only [List.mem_cons, queue_op.write.injEq, List.mem_singleton, reduceCtorEq,
          or_false, List.not_mem_nil] at hpkt
        rcases hpkt with rfl | rfl <;> decide)
      1 out hout
  exact ⟨out, pkt, hout, hpkt, hwords⟩

/-- Claim C2, as stated, fails: a queue of 16 bytes (4 words) and a packet
whose size word is 17 pass the size check, since `17 >> 2 = 4`; the write is
refused for lack of space with `-ENOTEMPTY` and sets `tx_req`. -/
theorem write_oversize_counterexample :
    u32 17 > u32 16 ∧
    (__write_queue (some (mk_qinfo ⟨0, 0, 0, 0, 0⟩ (fun _ => 0) 16))
      (some (fun _ => 17))).rc = -ENOTEMPTY ∧
    q_hdr_of (__write_queue (some (mk_qinfo ⟨0, 0, 0, 0, 0⟩ (fun _ => 0) 16))
      (some (fun _ => 17))).qinfo = some ⟨0, 0, 1, 0, 0⟩ := by
  decide

/-- Claim C2, amended: for every allocated queue and every packet whose size
in whole words (`size >> 2`) is larger than the queue capacity in words
(`mem_size >> 2`), `__write_queue` returns `-ENODATA` and leaves the header
(both indices, `tx_req`, `rx_req`) and every buffer word as they were. -/
theorem write_oversize (queue : cvp_hfi_queue_header) (mem : Nat → Nat) (mem_size : Nat)
    (pkt : Nat → Nat) (hbig : shr2 (u32 (pkt 0)) > shr2 (u32 mem_size)) :
    __write_queue (some (mk_qinfo queue mem mem_size)) (some pkt)
      = ⟨-ENODATA, some (mk_qinfo queue mem mem_size), none⟩ :=
  write_queue_bad_size queue mem mem_size pkt (Or.inr hbig)

/-- Instance of the amended claim C2: a 5-word packet and a 4-word queue. -/
theorem write_oversize_witness :
    __write_queue (some (mk_qinfo ⟨0, 1, 0, 2, 3⟩ (fun i => i) 16)) (some (sample_pkt 5 0))
      = ⟨-ENODATA, some (mk_qinfo ⟨0, 1, 0, 2, 3⟩ (fun i => i) 16), none⟩ :=
  write_oversize ⟨0, 1, 0, 2, 3⟩ (fun i => i) 16 (sample_pkt 5 0) (by decide)

/-- Claim C3: for every `__write_queue` call on an allocated queue that passes
the size check, `tx_req` is 1 afterwards exactly when the free space does not
exceed the packet size, which is exactly when the call returns `-ENOTEMPTY`;
such a refused write changes nothing but `tx_req`, and every write that
returns 0 leaves `tx_req` at 0. -/
theorem write_queue_tx_req (queue : cvp_hfi_queue_header) (mem : Nat → Nat)
    (mem_size : Nat) (pkt : Nat → Nat)
    (hsize : shr2 (u32 (pkt 0)) ≠ 0 ∧ shr2 (u32 (pkt 0)) ≤ shr2 (u32 mem_size)) :
    ∃ queue' mem',
      (__write_queue (some (mk_qinfo queue mem mem_size)) (some pkt)).qinfo
        = some (mk_qinfo queue' mem' mem_size) ∧
      (queue'.qhdr_tx_req = 1 ↔
        empty_space (shr2 (u32 mem_size)) (u32 queue.qhdr_read_idx)
          (u32 queue.qhdr_write_idx) ≤ shr2 (u32 (pkt 0))) ∧
      (queue'.qhdr_tx_req = 1 ↔
        (__write_queue (some (mk_qinfo queue mem mem_size)) (some pkt)).rc = -ENOTEMPTY) ∧
      ((__write_queue (some (mk_qinfo queue mem mem_size)) (some pkt)).rc = -ENOTEMPTY →
        queue' = { queue with qhdr_tx_req := 1 } ∧ mem' = mem) ∧
      ((__write_queue (some (mk_qinfo queue mem mem_size)) (some pkt)).rc = 0 →
        queue'.qhdr_tx_req = 0) := by
  obtain ⟨h0, hle⟩ := hsize
  have hnot : ¬ (shr2 (u32 (pkt 0)) = 0 ∨ shr2 (u32 (pkt 0)) > shr2 (u32 mem_size)) := by
    omega
  by_cases hsp : empty_space (shr2 (u32 mem_size)) (u32 queue.qhdr_read_idx)
      (u32 queue.qhdr_write_idx) ≤ shr2 (u32 (pkt 0))
  · refine ⟨{ queue with qhdr_tx_req := 1 }, mem, ?_⟩
    simp [__write_queue, mk_qinfo, hnot, hsp, ENOTEMPTY]
  · by_cases hptr : shl2 (u32 queue.qhdr_write_idx) > u32 mem_size
    · refine ⟨{ queue with qhdr_tx_req := 0 }, mem, ?_⟩
      simp [__write_queue, mk_qinfo, hnot, hsp, hptr, ENODATA, ENOTEMPTY]
    · by_cases hw : add32 (u32 queue.qhdr_write_idx) (shr2 (u32 (pkt 0)))
          < shr2 (u32 mem_size)
      · simp only [__write_queue, mk_qinfo, hnot, hsp, hptr, hw, if_true, if_false]
        refine ⟨_, _, rfl, ?_⟩
        simp [ENOTEMPTY]
      · simp only [__write_queue, mk_qinfo, hnot, hsp, hptr, hw, if_true, if_false]
        refine ⟨_, _, rfl, ?_⟩
        simp [ENOTEMPTY]

/-- Instance of claim C3: a 4-word queue holding 3 words refuses a 2-word
packet. -/
theorem write_queue_tx_req_witness :
    ∃ queue' mem',
      (__write_queue (some (mk_qinfo ⟨0, 0, 0, 0, 3⟩ (fun _ => 0) 16))
        (some (sample_pkt 2 0))).qinfo = some (mk_qinfo queue' mem' 16) ∧
      (queue'.qhdr_tx_req = 1 ↔
        empty_space (shr2 (u32 16)) (u32 0) (u32 3) ≤ shr2 (u32 (sample_pkt 2 0 0))) ∧
      (queue'.qhdr_tx_req = 1 ↔
        (__write_queue (some (mk_qinfo ⟨0, 0, 0, 0, 3⟩ (fun _ => 0) 16))
          (some (sample_pkt 2 0))).rc = -ENOTEMPTY) ∧
      ((__write_queue (some (mk_qinfo ⟨0, 0, 0, 0, 3⟩ (fun _ => 0) 16))
          (some (sample_pkt 2 0))).rc = -ENOTEMPTY →
        queue' = ⟨0, 0, 1, 0, 3⟩ ∧ mem' = fun _ => 0) ∧
      ((__write_queue (some (mk_qinfo ⟨0, 0, 0, 0, 3⟩ (fun _ => 0) 16))
          (some (sample_pkt 2 0))).rc = 0 →
        queue'.qhdr_tx_req = 0) :=
  write_queue_tx_req ⟨0, 0, 0, 0, 3⟩ (fun _ => 0) 16 (sample_pkt 2 0) (by decide)

/-- Claim C4: for every allocated queue whose read index equals its write
index, `__read_queue` returns `-ENODATA` and changes nothing but `rx_req`
(in particular not the read index), and a second call on the result leaves
exactly the state, output buffer and return code of the first. -/
theorem read_queue_empty_idempotent
    (CVP_IFACEQ_VAR_HUGE_PKT_SIZE HFI_Q_ID_CTRL_TO_HOST_MSG_Q : Nat)
    (queue : cvp_hfi_queue_header) (mem : Nat → Nat) (mem_size : Nat)
    (out : Nat → Nat) (pb : Nat)
    (hempty : u32 queue.qhdr_read_idx = u32 queue.qhdr_write_idx) :
    __read_queue CVP_IFACEQ_VAR_HUGE_PKT_SIZE HFI_Q_ID_CTRL_TO_HOST_MSG_Q
        (some (mk_qinfo queue mem mem_size)) (some out) (some pb)
      = ⟨-ENODATA,
          some (mk_qinfo
            { queue with
              qhdr_rx_req :=
                if u32 queue.qhdr_type &&& HFI_Q_ID_CTRL_TO_HOST_MSG_Q ≠ 0 then 1 else 0 }
            mem mem_size),
          some out, some 0⟩ ∧
    __read_queue CVP_IFACEQ_VAR_HUGE_PKT_SIZE HFI_Q_ID_CTRL_TO_HOST_MSG_Q
        (__read_queue CVP_IFACEQ_VAR_HUGE_PKT_SIZE HFI_Q_ID_CTRL_TO_HOST_MSG_Q
          (some (mk_qinfo queue mem mem_size)) (some out) (some pb)).qinfo
        (__read_queue CVP_IFACEQ_VAR_HUGE_PKT_SIZE HFI_Q_ID_CTRL_TO_HOST_MSG_Q
          (some (mk_qinfo queue mem mem_size)) (some out) (some pb)).packet
        (__read_queue CVP_IFACEQ_VAR_HUGE_PKT_SIZE HFI_Q_ID_CTRL_TO_HOST_MSG_Q
          (some (mk_qinfo queue mem mem_size)) (some out) (some pb)).pb_tx_req_is_set
      = __read_queue CVP_IFACEQ_VAR_HUGE_PKT_SIZE HFI_Q_ID_CTRL_TO_HOST_MSG_Q
          (some (mk_qinfo queue mem mem_size)) (some out) (some pb) := by
  have h1 := read_queue_empty CVP_IFACEQ_VAR_HUGE_PKT_SIZE HFI_Q_ID_CTRL_TO_HOST_MSG_Q
    queue mem mem_size out pb hempty
  refine ⟨h1, ?_⟩
  rw [h1]
  exact read_queue_empty _ _ _ mem mem_size out 0 hempty

/-- Instance of claim C4: the message queue with both indices at 5. -/
theorem read_queue_empty_idempotent_witness :
    __read_queue 12288 1 (some (mk_qinfo ⟨1, 0, 1, 5, 5⟩ (fun i => i) 64))
        (some (fun _ => 9)) (some 7)
      = ⟨-ENODATA,
          some (mk_qinfo
            { (⟨1, 0, 1, 5, 5⟩ : cvp_hfi_queue_header) with
              qhdr_rx_req := if u32 1 &&& 1 ≠ 0 then 1 else 0 }
            (fun i => i) 64),
          some (fun _ => 9), some 0⟩ ∧
    __read_queue 12288 1
        (__read_queue 12288 1 (some (mk_qinfo ⟨1, 0, 1, 5, 5⟩ (fun i => i) 64))
          (some (fun _ => 9)) (some 7)).qinfo
        (__read_queue 12288 1 (some (mk_qinfo ⟨1, 0, 1, 5, 5⟩ (fun i => i) 64))
          (some (fun _ => 9)) (some 7)).packet
        (__read_queue 12288 1 (some (mk_qinfo ⟨1, 0, 1, 5, 5⟩ (fun i => i) 64))
          (some (fun _ => 9)) (some 7)).pb_tx_req_is_set
      = __read_queue 12288 1 (some (mk_qinfo ⟨1, 0, 1, 5, 5⟩ (fun i => i) 64))
          (some (fun _ => 9)) (some 7) :=
  read_queue_empty_idempotent 12288 1 ⟨1, 0, 1, 5, 5⟩ (fun i => i) 64 (fun _ => 9) 7
    (by decide)

/-- Claim C5, as stated, fails: on a queue with read index 0, write index 1
and a size word of 0 at the read index, `__read_queue` returns `-ENODATA` and
leaves the read index at 0, different from the write index. -/
theorem read_zero_size_counterexample :
    u32 (0 : Nat) ≠ u32 1 ∧
    (__read_queue 12288 1 (some (mk_qinfo ⟨1, 0, 0, 0, 1⟩ (fun _ => 0) 16))
      (some (fun _ => 0)) (some 0)).rc = -ENODATA ∧
    q_hdr_of (__read_queue 12288 1 (some (mk_qinfo ⟨1, 0, 0, 0, 1⟩ (fun _ => 0) 16))
      (some (fun _ => 0)) (some 0)).qinfo = some ⟨1, 0, 0, 0, 1⟩ := by
  decide

/-- Claim C5, amended: for every allocated non-empty queue whose size word at
the read index is 0, `__read_queue` does not drop the packet: it returns
`-ENODATA` and leaves the read index, the rest of the header, the buffer and
the output as they were, so that the queue is still non-empty. -/
theorem read_zero_size (CVP_IFACEQ_VAR_HUGE_PKT_SIZE HFI_Q_ID_CTRL_TO_HOST_MSG_Q : Nat)
    (queue : cvp_hfi_queue_header) (mem : Nat → Nat) (mem_size : Nat)
    (out : Nat → Nat) (pb : Nat)
    (hne : u32 queue.qhdr_read_idx ≠ u32 queue.qhdr_write_idx)
    (hzero : u32 (mem (shl2 (u32 queue.qhdr_read_idx) / 4)) = 0) :
    __read_queue CVP_IFACEQ_VAR_HUGE_PKT_SIZE HFI_Q_ID_CTRL_TO_HOST_MSG_Q
        (some (mk_qinfo queue mem mem_size)) (some out) (some pb)
      = ⟨-ENODATA, some (mk_qinfo queue mem mem_size), some out, some pb⟩ :=
  read_queue_zero_size _ _ queue mem mem_size out pb hne (by rw [hzero]; rfl)

/-- Instance of the amended claim C5: read index 2, write index 3, a zero
size word at index 2. -/
theorem read_zero_size_witness :
    __read_queue 12288 1 (some (mk_qinfo ⟨1, 0, 0, 2, 3⟩ (fun _ => 0) 16))
        (some (fun _ => 9)) (some 7)
      = ⟨-ENODATA, some (mk_qinfo ⟨1, 0, 0, 2, 3⟩ (fun _ => 0) 16), some (fun _ => 9),
          some 7⟩ :=
  read_zero_size 12288 1 ⟨1, 0, 0, 2, 3⟩ (fun _ => 0) 16 (fun _ => 9) 7 (by decide)
    (by decide)

/-- Claim C6, as stated, fails: with a maximum packet size of 12288 bytes, a
packet at the read index whose size word is 12289 is accepted, since
`(12289 >> 2) << 2 = 12288`: the read returns 0, copies 3072 words to the
output and advances the read index by 3072. -/
theorem read_huge_counterexample :
    (12289 : Nat) > 12288 ∧
    (__read_queue 12288 1
      (some (mk_qinfo ⟨1, 0, 0, 0, 3072⟩ (fun i => if i = 0 then 12289 else 7) 65536))
      (some (fun _ => 0)) (some 0)).rc = 0 ∧
    q_hdr_of (__read_queue 12288 1
      (some (mk_qinfo ⟨1, 0, 0, 0, 3072⟩ (fun i => if i = 0 then 12289 else 7) 65536))
      (some (fun _ => 0)) (some 0)).qinfo = some ⟨1, 1, 0, 3072, 3072⟩ ∧
    ((__read_queue 12288 1
      (some (mk_qinfo ⟨1, 0, 0, 0, 3072⟩ (fun i => if i = 0 then 12289 else 7) 65536))
      (some (fun _ => 0)) (some 0)).packet.map fun p => (p 0, p 1, p 3071, p 3072))
      = some (12289, 7, 7, 0) := by
  decide

/-- Claim C6, amended: for every allocated non-empty queue with a read index
below the capacity whose size word at the read index, rounded down to whole
words (`(size >> 2) << 2`), exceeds `CVP_IFACEQ_VAR_HUGE_PKT_SIZE`,
`__read_queue` copies nothing to the output, returns `-ENODATA` and sets the
read index to the write index loaded at the start, leaving the write index
and the buffer unchanged. -/
theorem read_huge (CVP_IFACEQ_VAR_HUGE_PKT_SIZE HFI_Q_ID_CTRL_TO_HOST_MSG_Q : Nat)
    (queue : cvp_hfi_queue_header) (mem : Nat → Nat) (mem_size : Nat)
    (out : Nat → Nat) (pb : Nat)
    (hne : u32 queue.qhdr_read_idx ≠ u32 queue.qhdr_write_idx)
    (hidx : u32 queue.qhdr_read_idx < shr2 (u32 mem_size))
    (hhuge : shl2 (shr2 (u32 (mem (u32 queue.qhdr_read_idx))))
      > CVP_IFACEQ_VAR_HUGE_PKT_SIZE) :
    __read_queue CVP_IFACEQ_VAR_HUGE_PKT_SIZE HFI_Q_ID_CTRL_TO_HOST_MSG_Q
        (some (mk_qinfo queue mem mem_size)) (some out) (some pb)
      = ⟨-ENODATA,
          some (mk_qinfo
            { queue with
              qhdr_rx_req :=
                if u32 queue.qhdr_type &&& HFI_Q_ID_CTRL_TO_HOST_MSG_Q ≠ 0 then 1 else 0
              qhdr_read_idx := u32 queue.qhdr_write_idx }
            mem mem_size),
          some out, some (if u32 queue.qhdr_tx_req = 1 then 1 else 0)⟩ :=
  read_queue_drop _ _ queue mem mem_size out pb hne hidx hhuge

/-- Instance of the amended claim C6: a size word of 12292 bytes at read
index 0 of a queue of 16384 words with write index 3073. -/
theorem read_huge_witness :
    __read_queue 12288 1
        (some (mk_qinfo ⟨1, 0, 1, 0, 3073⟩ (sample_pkt 3073 0) 65536))
        (some (fun _ => 9)) (some 7)
      = ⟨-ENODATA,
          some (mk_qinfo
            { (⟨1, 0, 1, 0, 3073⟩ : cvp_hfi_queue_header) with
              qhdr_rx_req := if u32 1 &&& 1 ≠ 0 then 1 else 0
              qhdr_read_idx := u32 3073 }
            (sample_pkt 3073 0) 65536),
          some (fun _ => 9), some (if u32 1 = 1 then 1 else 0)⟩ :=
  read_huge 12288 1 ⟨1, 0, 1, 0, 3073⟩ (sample_pkt 3073 0) 65536 (fun _ => 9) 7
    (by decide) (by decide) (by decide)

/-- Claim C7: from every allocated queue with read index equal to write index
at a position below the capacity, whatever the flags and the buffer contents,
writing a packet whose size is a positive multiple of 4 bytes, at most
`CVP_IFACEQ_VAR_HUGE_PKT_SIZE` and fewer words than the capacity returns 0,
and the `__read_queue` that follows returns 0, delivers exactly the words of
that packet (also when it spans the buffer end), touches nothing else of the
output and leaves the read index equal to the write index. -/
theorem write_then_read_after_resync
    (CVP_IFACEQ_VAR_HUGE_PKT_SIZE HFI_Q_ID_CTRL_TO_HOST_MSG_Q : Nat)
    (queue : cvp_hfi_queue_header) (mem : Nat → Nat) (mem_size : Nat)
    (pkt out : Nat → Nat) (pb : Nat)
    (hsync : u32 queue.qhdr_read_idx = u32 queue.qhdr_write_idx)
    (hidx : u32 queue.qhdr_write_idx < shr2 (u32 mem_size))
    (hpos : 0 < u32 (pkt 0)) (hmul : u32 (pkt 0) % 4 = 0)
    (hhuge : u32 (pkt 0) ≤ CVP_IFACEQ_VAR_HUGE_PKT_SIZE)
    (hcap : shr2 (u32 (pkt 0)) < shr2 (u32 mem_size)) :
    (__write_queue (some (mk_qinfo queue mem mem_size)) (some pkt)).rc = 0 ∧
    (__read_queue CVP_IFACEQ_VAR_HUGE_PKT_SIZE HFI_Q_ID_CTRL_TO_HOST_MSG_Q
      (__write_queue (some (mk_qinfo queue mem mem_size)) (some pkt)).qinfo
      (some out) (some pb)).rc = 0 ∧
    (∃ out',
      (__read_queue CVP_IFACEQ_VAR_HUGE_PKT_SIZE HFI_Q_ID_CTRL_TO_HOST_MSG_Q
        (__write_queue (some (mk_qinfo queue mem mem_size)) (some pkt)).qinfo
        (some out) (some pb)).packet = some out' ∧
      (∀ i, i < shr2 (u32 (pkt 0)) → out' i = pkt i) ∧
      (∀ i, shr2 (u32 (pkt 0)) ≤ i → out' i = out i)) ∧
    (∃ queue' mem',
      (__read_queue CVP_IFACEQ_VAR_HUGE_PKT_SIZE HFI_Q_ID_CTRL_TO_HOST_MSG_Q
        (__write_queue (some (mk_qinfo queue mem mem_size)) (some pkt)).qinfo
        (some out) (some pb)).qinfo = some (mk_qinfo queue' mem' mem_size) ∧
      queue'.qhdr_read_idx = queue'.qhdr_write_idx ∧
      queue'.qhdr_write_idx < shr2 (u32 mem_size)) := by
  have hCb : shr2 (u32 mem_size) < 1073741824 := by simp only [shr2, u32]; omega
  have h0 : shr2 (u32 (pkt 0)) ≠ 0 := by simp only [shr2] at *; omega
  have hsp : shr2 (u32 (pkt 0)) < empty_space (shr2 (u32 mem_size))
      (u32 queue.qhdr_read_idx) (u32 queue.qhdr_write_idx) := by
    rw [hsync, empty_space_of_eq _ _ (by omega)]; exact hcap
  rw [write_queue_ok queue mem mem_size pkt h0 (by omega) hsp hidx]
  generalize hC : shr2 (u32 mem_size) = C at *
  generalize hN : shr2 (u32 (pkt 0)) = n at *
  generalize hW : u32 queue.qhdr_write_idx = w at *
  have hw' : wrap C (w + n) < C := by simp only [wrap]; split_ifs <;> omega
  have hwne : w ≠ wrap C (w + n) := by simp only [wrap]; split_ifs <;> omega
  have hu : u32 (wrap C (w + n)) = wrap C (w + n) := by simp only [u32]; omega
  have hfirst : ring_store C mem w pkt n w = pkt 0 := by
    have := ring_store_hit C mem w pkt n 0 hidx (by omega) (by omega)
    simpa [wrap, hidx] using this
  have hshl : shl2 n = u32 (pkt 0) := by
    rw [← hN]; simp only [shl2, shr2, u32] at *; omega
  rw [read_queue_ok _ _ _ _ _ _ _ (by simp only [hsync, hW, hu, ne_eq]; exact hwne)
    (by simp only [hsync, hC, hW]; exact hidx)
    (by simp only [hsync, hW, hfirst, hN]; exact h0)
    (by simp only [hsync, hW, hfirst, hN, hC]; omega)
    (by simp only [hsync, hW, hfirst, hN, hshl]; exact hhuge)]
  simp only [hsync, hW, hfirst, hN, hC, hu, true_and]
  refine ⟨⟨_, rfl, ?_, ?_⟩, ⟨_, _, rfl, rfl, hw'⟩⟩
  · intro i hi
    simp only [ring_load, hi, if_true]
    exact ring_store_hit C mem w pkt n i hidx (by omega) hi
  · intro i hi
    simp only [ring_load]
    rw [if_neg (by omega)]

/-- Instance of claim C7: after a resynchronisation at index 6 of a queue of
8 words, a 4-word packet that spans the buffer end. -/
theorem write_then_read_after_resync_witness :
    (__write_queue (some (mk_qinfo ⟨1, 1, 1, 6, 6⟩ (fun _ => 5) 32))
      (some (sample_pkt 4 10))).rc = 0 ∧
    (__read_queue 12288 1
      (__write_queue (some (mk_qinfo ⟨1, 1, 1, 6, 6⟩ (fun _ => 5) 32))
        (some (sample_pkt 4 10))).qinfo
      (some (fun _ => 9)) (some 7)).rc = 0 ∧
    (∃ out',
      (__read_queue 12288 1
        (__write_queue (some (mk_qinfo ⟨1, 1, 1, 6, 6⟩ (fun _ => 5) 32))
          (some (sample_pkt 4 10))).qinfo
        (some (fun _ => 9)) (some 7)).packet = some out' ∧
      (∀ i, i < shr2 (u32 (sample_pkt 4 10 0)) → out' i = sample_pkt 4 10 i) ∧
      (∀ i, shr2 (u32 (sample_pkt 4 10 0)) ≤ i → out' i = (fun _ => 9) i)) ∧
    (∃ queue' mem',
      (__read_queue 12288 1
        (__write_queue (some (mk_qinfo ⟨1, 1, 1, 6, 6⟩ (fun _ => 5) 32))
          (some (sample_pkt 4 10))).qinfo
        (some (fun _ => 9)) (some 7)).qinfo = some (mk_qinfo queue' mem' 32) ∧
      queue'.qhdr_read_idx = queue'.qhdr_write_idx ∧
      queue'.qhdr_write_idx < shr2 (u32 32)) :=
  write_then_read_after_resync 12288 1 ⟨1, 1, 1, 6, 6⟩ (fun _ => 5) 32 (sample_pkt 4 10)
    (fun _ => 9) 7 (by decide) (by decide) (by decide) (by decide) (by decide) (by decide)

/-- Claim C8: for every `__write_queue` that returns 0 for a packet of `n`
words at a write index `w` below the capacity `C` of an allocated queue, packet
word `i` is stored at buffer offset `(w + i) mod C` for every `i < n`, no
other buffer word changes, the new write index is `(w + n) mod C` and the
read index is untouched.  Its instance below is the scenario `C = 256`,
`w = 250`, `n = 40`. -/
theorem write_queue_wraparound (queue : cvp_hfi_queue_header) (mem : Nat → Nat)
    (mem_size : Nat) (pkt : Nat → Nat)
    (hw : u32 queue.qhdr_write_idx < shr2 (u32 mem_size))
    (hrc : (__write_queue (some (mk_qinfo queue mem mem_size)) (some pkt)).rc = 0) :
    ∃ queue' mem',
      (__write_queue (some (mk_qinfo queue mem mem_size)) (some pkt)).qinfo
        = some (mk_qinfo queue' mem' mem_size) ∧
      (∀ i, i < shr2 (u32 (pkt 0)) →
        mem' ((u32 queue.qhdr_write_idx + i) % shr2 (u32 mem_size)) = pkt i) ∧
      (∀ x, (∀ i, i < shr2 (u32 (pkt 0)) →
          x ≠ (u32 queue.qhdr_write_idx + i) % shr2 (u32 mem_size)) → mem' x = mem x) ∧
      queue'.qhdr_write_idx
        = (u32 queue.qhdr_write_idx + shr2 (u32 (pkt 0))) % shr2 (u32 mem_size) ∧
      queue'.qhdr_read_idx = queue.qhdr_read_idx := by
  obtain ⟨h0, hn, hsp⟩ := write_queue_rc_zero queue mem mem_size pkt hrc
  rw [write_queue_ok queue mem mem_size pkt h0 hn hsp hw]
  refine ⟨_, _, rfl, ?_, ?_, ?_, rfl⟩
  · intro i hi
    rw [← wrap_eq_mod (by omega)]
    exact ring_store_hit _ _ _ _ _ _ hw hn hi
  · intro x hx
    apply ring_store_miss _ _ _ _ _ _ hw hn
    intro i hi
    rw [wrap_eq_mod (by omega)]
    exact hx i hi
  · exact wrap_eq_mod (by omega)

/-- The scenario of claim C8: capacity 256 words, a 40-word packet written at
write index 250 is stored as a head of 6 words at offsets 250..255 and a tail
of 34 words at offsets 0..33, the words at offsets 34..249 keep their value,
and the write index becomes 34. -/
theorem write_queue_wraparound_witness :
    (__write_queue (some (mk_qinfo ⟨0, 0, 0, 250, 250⟩ (fun _ => 0) 1024))
      (some (sample_pkt 40 10))).rc = 0 ∧
    ∃ queue' mem',
      (__write_queue (some (mk_qinfo ⟨0, 0, 0, 250, 250⟩ (fun _ => 0) 1024))
        (some (sample_pkt 40 10))).qinfo = some (mk_qinfo queue' mem' 1024) ∧
      (∀ i, i < 6 → mem' (250 + i) = sample_pkt 40 10 i) ∧
      (∀ i, i < 34 → mem' i = sample_pkt 40 10 (6 + i)) ∧
      (∀ x, 34 ≤ x → x < 250 → mem' x = 0) ∧
      queue'.qhdr_write_idx = 34 := by
  obtain ⟨queue', mem', hq, hhit, hmiss, hidx, -⟩ :=
    write_queue_wraparound ⟨0, 0, 0, 250, 250⟩ (fun _ => 0) 1024 (sample_pkt 40 10)
      (by decide) (by decide)
  have e1 : u32 250 = 250 := by decide
  have e2 : shr2 (u32 1024) = 256 := by decide
  have e3 : shr2 (u32 (sample_pkt 40 10 0)) = 40 := by decide
  simp only [e1, e2, e3] at hhit hmiss hidx
  refine ⟨by decide, queue', mem', hq, ?_, ?_, ?_, hidx⟩
  · intro i hi
    have := hhit i (by omega)
    rwa [Nat.mod_eq_of_lt (by omega)] at this
  · intro i hi
    have := hhit (6 + i) (by omega)
    have e : (250 + (6 + i)) % 256 = i := by omega
    rwa [e] at this
  · intro x h1 h2
    apply hmiss
    intro i hi
    omega

/-- Claim C9: if the read index and the write index of an allocated queue are
both below its capacity in words and `CVP_IFACEQ_VAR_HUGE_PKT_SIZE` does not
exceed the queue size in bytes, then after a `__write_queue` of any packet and
after a `__read_queue`, whatever the outcome, both indices are still below
the capacity. -/
theorem queue_index_invariant
    (CVP_IFACEQ_VAR_HUGE_PKT_SIZE HFI_Q_ID_CTRL_TO_HOST_MSG_Q : Nat)
    (queue : cvp_hfi_queue_header) (mem : Nat → Nat) (mem_size : Nat)
    (pkt out : Nat → Nat) (pb : Nat)
    (hr : u32 queue.qhdr_read_idx < shr2 (u32 mem_size))
    (hw : u32 queue.qhdr_write_idx < shr2 (u32 mem_size))
    (hhuge : CVP_IFACEQ_VAR_HUGE_PKT_SIZE ≤ u32 mem_size) :
    (∃ queue' mem',
      (__write_queue (some (mk_qinfo queue mem mem_size)) (some pkt)).qinfo
        = some (mk_qinfo queue' mem' mem_size) ∧
      u32 queue'.qhdr_read_idx < shr2 (u32 mem_size) ∧
      u32 queue'.qhdr_write_idx < shr2 (u32 mem_size)) ∧
    (∃ queue' mem',
      (__read_queue CVP_IFACEQ_VAR_HUGE_PKT_SIZE HFI_Q_ID_CTRL_TO_HOST_MSG_Q
        (some (mk_qinfo queue mem mem_size)) (some out) (some pb)).qinfo
        = some (mk_qinfo queue' mem' mem_size) ∧
      u32 queue'.qhdr_read_idx < shr2 (u32 mem_size) ∧
      u32 queue'.qhdr_write_idx < shr2 (u32 mem_size)) := by
  have hCb : shr2 (u32 mem_size) < 1073741824 := by simp only [shr2, u32]; omega
  constructor
  · by_cases hbad : shr2 (u32 (pkt 0)) = 0 ∨ shr2 (u32 (pkt 0)) > shr2 (u32 mem_size)
    · rw [write_queue_bad_size queue mem mem_size pkt hbad]
      exact ⟨_, _, rfl, hr, hw⟩
    · by_cases hsp : empty_space (shr2 (u32 mem_size)) (u32 queue.qhdr_read_idx)
          (u32 queue.qhdr_write_idx) ≤ shr2 (u32 (pkt 0))
      · rw [write_queue_full queue mem mem_size pkt (by omega) (by omega) hsp]
        exact ⟨_, _, rfl, hr, hw⟩
      · rw [write_queue_ok queue mem mem_size pkt (by omega) (by omega) (by omega) hw]
        refine ⟨_, _, rfl, hr, ?_⟩
        have := @wrap_lt (shr2 (u32 mem_size))
          (u32 queue.qhdr_write_idx + shr2 (u32 (pkt 0))) (by omega)
        simp only [u32] at this ⊢
        omega
  · by_cases hempty : u32 queue.qhdr_read_idx = u32 queue.qhdr_write_idx
    · rw [read_queue_empty _ _ queue mem mem_size out pb hempty]
      exact ⟨_, _, rfl, hr, hw⟩
    · have hp : shl2 (u32 queue.qhdr_read_idx) / 4 = u32 queue.qhdr_read_idx := by
        simp only [shl2, shr2, u32] at *; omega
      by_cases hzero : shr2 (u32 (mem (u32 queue.qhdr_read_idx))) = 0
      · rw [read_queue_zero_size _ _ queue mem mem_size out pb hempty (by rw [hp]; exact hzero)]
        exact ⟨_, _, rfl, hr, hw⟩
      · by_cases hbig : shl2 (shr2 (u32 (mem (u32 queue.qhdr_read_idx))))
            ≤ CVP_IFACEQ_VAR_HUGE_PKT_SIZE
        · have hn : shr2 (u32 (mem (u32 queue.qhdr_read_idx))) ≤ shr2 (u32 mem_size) := by
            simp only [shl2, shr2, u32] at *; omega
          rw [read_queue_ok _ _ queue mem mem_size out pb hempty hr hzero hn hbig]
          refine ⟨_, _, rfl, ?_, hw⟩
          have := @wrap_lt (shr2 (u32 mem_size))
            (u32 queue.qhdr_read_idx + shr2 (u32 (mem (u32 queue.qhdr_read_idx))))
            (by omega)
          simp only [u32] at this ⊢
          omega
        · rw [read_queue_drop _ _ queue mem mem_size out pb hempty hr (by omega)]
          refine ⟨_, _, rfl, ?_, hw⟩
          simp only [u32_u32]; exact hw

/-- Instance of claim C9: a queue of 8 words with read index 2 and write
index 7, a 3-word packet written (the write wraps) or a read attempted. -/
theorem queue_index_invariant_witness :
    (∃ queue' mem',
      (__write_queue (some (mk_qinfo ⟨1, 0, 0, 2, 7⟩ (sample_pkt 2 0) 32))
        (some (sample_pkt 3 10))).qinfo = some (mk_qinfo queue' mem' 32) ∧
      u32 queue'.qhdr_read_idx < shr2 (u32 32) ∧
      u32 queue'.qhdr_write_idx < shr2 (u32 32)) ∧
    (∃ queue' mem',
      (__read_queue 16 1 (some (mk_qinfo ⟨1, 0, 0, 2, 7⟩ (sample_pkt 2 0) 32))
        (some (fun _ => 9)) (some 7)).qinfo = some (mk_qinfo queue' mem' 32) ∧
      u32 queue'.qhdr_read_idx < shr2 (u32 32) ∧
      u32 queue'.qhdr_write_idx < shr2 (u32 32)) :=
  queue_index_invariant 16 1 ⟨1, 0, 0, 2, 7⟩ (sample_pkt 2 0) 32 (sample_pkt 3 10)
    (fun _ => 9) 7 (by decide) (by decide) (by decide)

/-- Claim C10, as stated, fails: with `msm_cvp_dsp_disable` set,
`__dsp_suspend` returns 0 before it looks at the sessions; the power collapse
of a powered, initialised device with one session that is not paused then
goes on.  With registers that report not ready it returns `-EAGAIN`, and with
registers that report ready it reaches the suspend, which here returns 0 and
powers the core off. -/
theorem power_collapse_busy_counterexample :
    (sample_device [0]).power_enabled = true ∧
    (sample_device [0]).state ≠ (sample_platform true 0).IRIS_STATE_DEINIT ∧
    ((sample_device [0]).sess_head.map fun s =>
      u32 s.flags &&& (sample_platform true 0).SESSION_PAUSE) = [0] ∧
    (__power_collapse (sample_platform true 0) sample_callees
      (some (sample_device [0])) false).1 = -EAGAIN ∧
    (__power_collapse (sample_platform true 4294967295) sample_callees
      (some (sample_device [0])) false).1 = 0 ∧
    ((__power_collapse (sample_platform true 4294967295) sample_callees
      (some (sample_device [0])) false).2.map fun d => d.power_enabled) = some false := by
  decide

/-- Claim C10, amended: `__power_collapse(device, force = false)`, called with
power enabled, the core in a valid state and `msm_cvp_dsp_disable` clear,
returns `-EBUSY` and leaves the device as it was, power enabled, whenever at
least one session of the session list does not have the `SESSION_PAUSE`
flag; this holds whatever the later steps of the function would do. -/
theorem power_collapse_busy (P : cvp_platform) (K : power_callees) (device : iris_hfi_device)
    (hpower : device.power_enabled = true)
    (hstate : device.state ≠ P.IRIS_STATE_DEINIT)
    (hdsp : P.msm_cvp_dsp_disable = false)
    (hsess : ∃ s, s ∈ device.sess_head ∧ u32 s.flags &&& P.SESSION_PAUSE = 0) :
    __power_collapse P K (some device) false = (-EBUSY, some device) ∧
    device.power_enabled = true := by
  have hscan := dsp_suspend_scan_busy P device.sess_head hsess
  refine ⟨?_, hpower⟩
  simp [__power_collapse, __core_in_valid_state, __dsp_suspend, hpower, hstate, hdsp, hscan]

/-- Instance of the amended claim C10: three sessions, the second of them not
paused. -/
theorem power_collapse_busy_witness :
    __power_collapse (sample_platform false 4294967295) sample_callees
        (some (sample_device [2, 0, 3])) false
      = (-EBUSY, some (sample_device [2, 0, 3])) ∧
    (sample_device [2, 0, 3]).power_enabled = true :=
  power_collapse_busy (sample_platform false 4294967295) sample_callees
    (sample_device [2, 0, 3]) (by decide) (by decide) (by decide)
    ⟨⟨4096, 0, 7, some 0⟩, by decide, by decide⟩

/-! ### Sessions, resume and the command path -/

theorem is_session_valid_scan_unlink_self (s : Nat) (l : List cvp_hal_session)
    (hnodup : (l.map fun t => t.addr).Nodup) :
    __is_session_valid_scan s (__session_clean_unlink s l) = false := by
  induction l with
  | nil => rfl
  | cons t rest ih =>
    simp only [List.map_cons, List.nodup_cons] at hnodup
    simp only [__session_clean_unlink]
    by_cases h : s = t.addr
    · simp only [h, if_true]
      have hnot : ∀ l' : List cvp_hal_session, t.addr ∉ l'.map (fun t => t.addr) →
          __is_session_valid_scan t.addr l' = false := by
        intro l'
        induction l' with
        | nil => intro _; rfl
        | cons u rest' ih' =>
          intro hmem
          simp only [List.map_cons, List.mem_cons, not_or] at hmem
          simp only [__is_session_valid_scan, hmem.1, if_false]
          exact ih' hmem.2
      exact hnot rest hnodup.1
    · simp only [h, if_false, __is_session_valid_scan]
      exact ih hnodup.2

theorem is_session_valid_scan_unlink_other (s t : Nat) (l : List cvp_hal_session)
    (h : t ≠ s) :
    __is_session_valid_scan t (__session_clean_unlink s l) = __is_session_valid_scan t l := by
  induction l with
  | nil => rfl
  | cons u rest ih =>
    simp only [__session_clean_unlink]
    by_cases hs : s = u.addr
    · have : t ≠ u.addr := by rw [← hs]; exact h
      simp [hs, __is_session_valid_scan, this]
    · simp only [hs, if_false, __is_session_valid_scan, ih]

/-- Claim C13. Dangling-handle rejection: for a session list without repeated
nodes and a session `s` whose device pointer is set, after `__session_clean`
the check `__is_session_valid` of the address of `s` returns false and the
check of every other address returns what it returned before; moreover
`iris_hfi_validate_session` rejects the cleaned object with `-EINVAL` and a
stale copy of the session with `-ECONNRESET`. -/
theorem session_clean_invalidates (dev : iris_hfi_device) (s : cvp_hal_session)
    (hdev : s.device ≠ none)
    (hnodup : (dev.sess_head.map fun t => t.addr).Nodup) :
    __is_session_valid (some (__session_clean dev (some s)).1) (some s.addr) = false ∧
    (∀ t, t ≠ s.addr →
      __is_session_valid (some (__session_clean dev (some s)).1) (some t)
        = __is_session_valid (some dev) (some t)) ∧
    iris_hfi_validate_session (__session_clean dev (some s)).1
      (__session_clean dev (some s)).2 = -EINVAL ∧
    iris_hfi_validate_session (__session_clean dev (some s)).1 (some s) = -ECONNRESET := by
  have h1 := is_session_valid_scan_unlink_self s.addr dev.sess_head hnodup
  refine ⟨?_, ?_, ?_, ?_⟩
  · simp [__session_clean, hdev, __is_session_valid, h1]
  · intro t ht
    simp [__session_clean, hdev, __is_session_valid,
      is_session_valid_scan_unlink_other s.addr t dev.sess_head ht]
  · simp [__session_clean, hdev, iris_hfi_validate_session]
  · simp [__session_clean, hdev, iris_hfi_validate_session, __is_session_valid, h1]

theorem resume_powered (E : hfi_platform) (R : resume_callees) (dev : iris_hfi_device)
    (hp : dev.power_enabled = true) :
    __resume E R (some dev)
      = (0, some { dev with
          skip_pc_count :=
            if dev.last_packet_type ≠ E.HFI_CMD_SYS_PC_PREP then 0 else dev.skip_pc_count }) := by
  cases dev
  simp only at hp
  subst hp
  simp only [__resume, __resume_exit, if_true]
  split_ifs <;> rfl

theorem write_queue_rx_req (queue : cvp_hfi_queue_header) (mem : Nat → Nat)
    (mem_size : Nat) (pkt : Nat → Nat) :
    ((__write_queue (some (mk_qinfo queue mem mem_size)) (some pkt)).rc = 0 →
      (__write_queue (some (mk_qinfo queue mem mem_size)) (some pkt)).rx_req_is_set
        = some (decide (u32 queue.qhdr_rx_req = 1))) ∧
    ((__write_queue (some (mk_qinfo queue mem mem_size)) (some pkt)).rc ≠ 0 →
      (__write_queue (some (mk_qinfo queue mem mem_size)) (some pkt)).rx_req_is_set = none) ∧
    (∃ queue' mem',
      (__write_queue (some (mk_qinfo queue mem mem_size)) (some pkt)).qinfo
        = some (mk_qinfo queue' mem' mem_size)) := by
  by_cases hbad : shr2 (u32 (pkt 0)) = 0 ∨ shr2 (u32 (pkt 0)) > shr2 (u32 mem_size)
  · rw [write_queue_bad_size queue mem mem_size pkt hbad]
    simp [ENODATA]
    exact ⟨_, _, rfl⟩
  · by_cases hsp : empty_space (shr2 (u32 mem_size)) (u32 queue.qhdr_read_idx)
        (u32 queue.qhdr_write_idx) ≤ shr2 (u32 (pkt 0))
    · rw [write_queue_full queue mem mem_size pkt (by omega) (by omega) hsp]
      simp [ENOTEMPTY]
      exact ⟨_, _, rfl⟩
    · by_cases hptr : shl2 (u32 queue.qhdr_write_idx) > u32 mem_size
      · simp only [__write_queue, mk_qinfo, hbad, hsp, hptr, if_true, if_false]
        simp [ENODATA]
      · by_cases hw : add32 (u32 queue.qhdr_write_idx) (shr2 (u32 (pkt 0)))
            < shr2 (u32 mem_size)
        · simp only [__write_queue, mk_qinfo, hbad, hsp, hptr, hw, if_true, if_false]
          simp
        · simp only [__write_queue, mk_qinfo, hbad, hsp, hptr, hw, if_true, if_false]
          simp

/-- Claim C18. Doorbell of a command write.  For an initialised device with
an allocated command queue whose `__resume` succeeds and leaves it powered:
`__write_queue` reports `rx_req_is_set` as true exactly when the write
succeeded and the flag `qhdr_rx_req` of the queue header is 1, and
`__iface_cmdq_write` appends the write of 1 to `CVP_CPU_CS_H2ASOFTINT` to the
register trace exactly in that case, behind the rescheduling of the
power-collapse work; and whenever `__iface_cmdq_write_relaxed` fails,
`__iface_cmdq_write` returns its code and device without a register write. -/
theorem cmdq_write_doorbell (E : hfi_platform) (R : resume_callees)
    (dev d2 : iris_hfi_device) (pkt : Nat → Nat)
    (queue : cvp_hfi_queue_header) (mem : Nat → Nat) (mem_size : Nat)
    (hstate : dev.state ≠ E.IRIS_STATE_DEINIT)
    (halloc : dev.iface_cmdq.q_array.align_virtual_addr.isNone = false)
    (hres : __resume E R (some { dev with last_packet_type := E.packet_type pkt })
      = (0, some d2))
    (hpow : d2.power_enabled = true)
    (hq : d2.iface_cmdq = mk_qinfo queue mem mem_size) :
    ((__write_queue (some (mk_qinfo queue mem mem_size)) (some pkt)).rx_req_is_set = some true ↔
      (__write_queue (some (mk_qinfo queue mem mem_size)) (some pkt)).rc = 0 ∧
        u32 queue.qhdr_rx_req = 1) ∧
    (∃ d3,
      __iface_cmdq_write E R (some dev) (some pkt)
        = (if (__write_queue (some (mk_qinfo queue mem mem_size)) (some pkt)).rc = 0 then 0
            else -E2BIG, some d3) ∧
      d3.iface_cmdq = (__write_queue (some (mk_qinfo queue mem mem_size)) (some pkt)).qinfo.getD
        (mk_qinfo queue mem mem_size) ∧
      d3.trace = d2.trace
        ++ (if (__write_queue (some (mk_qinfo queue mem mem_size)) (some pkt)).rc = 0
              ∧ d2.res.sw_power_collapsible = true then
            [hw_event.cancel_delayed_work,
              hw_event.queue_delayed_work d2.res.msm_cvp_pwr_collapse_delay]
          else [])
        ++ (if (__write_queue (some (mk_qinfo queue mem mem_size)) (some pkt)).rc = 0
              ∧ u32 queue.qhdr_rx_req = 1 then
            [hw_event.reg_write E.CVP_CPU_CS_H2ASOFTINT 1]
          else [])) ∧
    (∀ (device : Option iris_hfi_device) (pkt2 : Option (Nat → Nat)),
      (__iface_cmdq_write_relaxed E R device pkt2).rc ≠ 0 →
      __iface_cmdq_write E R device pkt2
        = ((__iface_cmdq_write_relaxed E R device pkt2).rc,
            (__iface_cmdq_write_relaxed E R device pkt2).device)) := by
  obtain ⟨hok, hfail, -⟩ := write_queue_rx_req queue mem mem_size pkt
  have hvalid : __core_in_valid_state E.tocvp_platform dev = true := by
    simp [__core_in_valid_state, hstate]
  refine ⟨?_, ?_, ?_⟩
  · by_cases hrc : (__write_queue (some (mk_qinfo queue mem mem_size)) (some pkt)).rc = 0
    · rw [hok hrc]; simp [hrc]
    · rw [hfail hrc]; simp [hrc]
  · by_cases hrc : (__write_queue (some (mk_qinfo queue mem mem_size)) (some pkt)).rc = 0
    · simp only [__iface_cmdq_write, __iface_cmdq_write_relaxed, hvalid, halloc, hres, dev_of,
        Option.getD_some, hq, hrc, hok hrc, Bool.not_true, Bool.false_eq_true, if_false,
        if_true, ne_eq, not_true_eq_false, true_and]
      by_cases hrx : u32 queue.qhdr_rx_req = 1
      · by_cases hsw : d2.res.sw_power_collapsible = true
        · simp [hrx, hsw, __write_register, hpow]
        · simp [hrx, hsw, __write_register, hpow]
      · by_cases hsw : d2.res.sw_power_collapsible = true
        · simp [hrx, hsw]
        · simp [hrx, hsw]
    · have hne : ((-E2BIG : Int) = 0) = False := by simp [E2BIG]
      simp only [__iface_cmdq_write, __iface_cmdq_write_relaxed, hvalid, halloc, hres, dev_of,
        Option.getD_some, hq, hrc, hfail hrc, Bool.not_true, Bool.false_eq_true, if_false,
        if_true, ne_eq, not_true_eq_false, false_and, Option.getD_none, hne]
      simp
  · intro device pkt2 hrc
    simp only [__iface_cmdq_write, hrc, false_and, if_false]

/-- Claim C12, as stated, fails: `__resume` of a powered device returns 0 but
does not leave the device unchanged, it clears `skip_pc_count` (here from 3
to 0) because the last packet was not the prepare-PC command. -/
theorem resume_noop_counterexample :
    ({ sample_device [] with skip_pc_count := 3 } : iris_hfi_device).power_enabled = true ∧
    (__resume (sample_hfi 0 false 0) sample_resume_callees
      (some { sample_device [] with skip_pc_count := 3 })).1 = 0 ∧
    ((__resume (sample_hfi 0 false 0) sample_resume_callees
      (some { sample_device [] with skip_pc_count := 3 })).2.map fun d => d.skip_pc_count)
      = some 0 := by
  decide

/-- Claim C12, amended: `__resume` of a device whose `power_enabled` is set
returns 0, calls none of the power-on callees and writes no register (the
trace is unchanged); the device is unchanged except that `skip_pc_count` is
cleared unless the last packet was `HFI_CMD_SYS_PC_PREP`. -/
theorem resume_when_powered (E : hfi_platform) (R : resume_callees) (dev : iris_hfi_device)
    (hp : dev.power_enabled = true) :
    __resume E R (some dev)
      = (0, some { dev with
          skip_pc_count :=
            if dev.last_packet_type ≠ E.HFI_CMD_SYS_PC_PREP then 0 else dev.skip_pc_count }) ∧
    ((__resume E R (some dev)).2.map fun d => d.trace) = some dev.trace :=
  ⟨resume_powered E R dev hp, by rw [resume_powered E R dev hp]; rfl⟩

/-- Instance of the amended claim C12: the last packet was the prepare-PC
command, so the count 3 is kept. -/
theorem resume_when_powered_witness :
    __resume (sample_hfi 0 false 0) sample_resume_callees
        (some { sample_device [] with skip_pc_count := 3, last_packet_type := 65544 })
      = (0, some { ({ sample_device [] with skip_pc_count := 3, last_packet_type := 65544 } :
            iris_hfi_device) with
          skip_pc_count :=
            if (65544 : Nat) ≠ (sample_hfi 0 false 0).HFI_CMD_SYS_PC_PREP then 0 else 3 }) ∧
    ((__resume (sample_hfi 0 false 0) sample_resume_callees
        (some { sample_device [] with skip_pc_count := 3, last_packet_type := 65544 })).2.map
      fun d => d.trace) = some [] :=
  resume_when_powered (sample_hfi 0 false 0) sample_resume_callees
    { sample_device [] with skip_pc_count := 3, last_packet_type := 65544 } rfl

/-- Claim C19, as stated, fails: with `msm_cvp_fw_coverage` set,
`iris_hfi_session_end` on a session that is not in the list returns
`-ECONNRESET` but has written the coverage command to the command queue
before (the write index goes from 0 to 3). -/
theorem invalid_session_counterexample :
    __is_session_valid (some (sample_device [])) (some 5000) = false ∧
    (iris_hfi_session_end (sample_hfi 1 false 0) sample_resume_callees (sample_device [])
      (some ⟨5000, 0, 7, some 0⟩)).1 = -ECONNRESET ∧
    q_hdr_of (some (sample_device []).iface_cmdq) = some ⟨0, 1, 0, 0, 0⟩ ∧
    q_hdr_of (some (iris_hfi_session_end (sample_hfi 1 false 0) sample_resume_callees
      (sample_device []) (some ⟨5000, 0, 7, some 0⟩)).2.iface_cmdq) = some ⟨0, 1, 0, 0, 3⟩ ∧
    (q_mem_of (some (iris_hfi_session_end (sample_hfi 1 false 0) sample_resume_callees
      (sample_device []) (some ⟨5000, 0, 7, some 0⟩)).2.iface_cmdq)).map
        (fun m => [m 0, m 1, m 2]) = some [12, 70001, 70002] := by
  decide

/-- Claim C19, amended: for a session with its device pointer set that is not
in the session list of the device, `iris_hfi_session_send`,
`iris_hfi_session_release_buffers`, `iris_hfi_session_abort` and
`iris_hfi_session_flush` return `-ECONNRESET` and leave the device, command
queue included, unchanged; `iris_hfi_session_set_buffers` does so too for a
non-zero address and size and returns `-EINVAL` otherwise;
`iris_hfi_session_end` does so when `msm_cvp_fw_coverage` is 0, and otherwise
returns `-ECONNRESET` with the device that the coverage command left. -/
theorem invalid_session_rejected (E : hfi_platform) (R : resume_callees)
    (dev : iris_hfi_device) (s : cvp_hal_session) (in_pkt : Nat → Nat) (iova size : Nat)
    (hdev : s.device ≠ none)
    (hinv : __is_session_valid (some dev) (some s.addr) = false) :
    iris_hfi_session_send E R dev (some s) in_pkt = (-ECONNRESET, dev) ∧
    iris_hfi_session_release_buffers E R dev (some s) = (-ECONNRESET, dev) ∧
    iris_hfi_session_abort E R dev (some s) = (-ECONNRESET, dev) ∧
    iris_hfi_session_flush E R dev (some s) = (-ECONNRESET, dev) ∧
    iris_hfi_session_set_buffers E R dev (some s) iova size
      = (if u32 iova = 0 ∨ u32 size = 0 then -EINVAL else -ECONNRESET, dev) ∧
    (E.msm_cvp_fw_coverage = 0 → iris_hfi_session_end E R dev (some s) = (-ECONNRESET, dev)) ∧
    (E.msm_cvp_fw_coverage ≠ 0 →
      __is_session_valid
        (some (__sys_set_coverage E R dev E.msm_cvp_fw_coverage).2) (some s.addr) = false →
      iris_hfi_session_end E R dev (some s)
        = (-ECONNRESET, (__sys_set_coverage E R dev E.msm_cvp_fw_coverage).2)) := by
  obtain ⟨d, hd⟩ := Option.ne_none_iff_exists'.mp hdev
  refine ⟨?_, ?_, ?_, ?_, ?_, ?_, ?_⟩
  · simp [iris_hfi_session_send, hd, hinv]
  · simp [iris_hfi_session_release_buffers, hd, hinv]
  · simp [iris_hfi_session_abort, __send_session_cmd, hd, hinv]
  · simp [iris_hfi_session_flush, __send_session_cmd, hd, hinv]
  · by_cases h : u32 iova = 0 ∨ u32 size = 0
    · simp [iris_hfi_session_set_buffers, hd, h]
    · have h' := h
      simp only [not_or] at h'
      simp [iris_hfi_session_set_buffers, hd, h, h'.1, h'.2, hinv]
  · intro hcov
    simp [iris_hfi_session_end, __send_session_cmd, hd, hinv, hcov]
  · intro hcov hinv2
    simp [iris_hfi_session_end, __send_session_cmd, hd, hinv2, hcov]

/-- Instance of the amended claim C19: a session at address 5000 and a list
holding only the session at address 4098. -/
theorem invalid_session_rejected_witness :
    iris_hfi_session_send (sample_hfi 0 false 0) sample_resume_callees (sample_device [2])
        (some ⟨5000, 0, 7, some 0⟩) (sample_pkt 3 0) = (-ECONNRESET, sample_device [2]) ∧
    iris_hfi_session_release_buffers (sample_hfi 0 false 0) sample_resume_callees
        (sample_device [2]) (some ⟨5000, 0, 7, some 0⟩) = (-ECONNRESET, sample_device [2]) ∧
    iris_hfi_session_abort (sample_hfi 0 false 0) sample_resume_callees (sample_device [2])
        (some ⟨5000, 0, 7, some 0⟩) = (-ECONNRESET, sample_device [2]) ∧
    iris_hfi_session_flush (sample_hfi 0 false 0) sample_resume_callees (sample_device [2])
        (some ⟨5000, 0, 7, some 0⟩) = (-ECONNRESET, sample_device [2]) ∧
    iris_hfi_session_set_buffers (sample_hfi 0 false 0) sample_resume_callees
        (sample_device [2]) (some ⟨5000, 0, 7, some 0⟩) 4096 64
      = (if u32 4096 = 0 ∨ u32 64 = 0 then -EINVAL else -ECONNRESET, sample_device [2]) ∧
    ((sample_hfi 0 false 0).msm_cvp_fw_coverage = 0 →
      iris_hfi_session_end (sample_hfi 0 false 0) sample_resume_callees (sample_device [2])
        (some ⟨5000, 0, 7, some 0⟩) = (-ECONNRESET, sample_device [2])) ∧
    ((sample_hfi 0 false 0).msm_cvp_fw_coverage ≠ 0 →
      __is_session_valid
        (some (__sys_set_coverage (sample_hfi 0 false 0) sample_resume_callees
          (sample_device [2]) (sample_hfi 0 false 0).msm_cvp_fw_coverage).2) (some 5000)
        = false →
      iris_hfi_session_end (sample_hfi 0 false 0) sample_resume_callees (sample_device [2])
          (some ⟨5000, 0, 7, some 0⟩)
        = (-ECONNRESET,
            (__sys_set_coverage (sample_hfi 0 false 0) sample_resume_callees
              (sample_device [2]) (sample_hfi 0 false 0).msm_cvp_fw_coverage).2)) :=
  invalid_session_rejected (sample_hfi 0 false 0) sample_resume_callees (sample_device [2])
    ⟨5000, 0, 7, some 0⟩ (sample_pkt 3 0) 4096 64 (by decide) (by decide)

/-! ### Power collapse and the deferred collapse -/

/-- The function `__power_collapse` in terms of its parts. -/
theorem power_collapse_eq (P : cvp_platform) (K : power_callees) (dev : iris_hfi_device)
    (force : Bool) :
    __power_collapse P K (some dev) force
      = if (!dev.power_enabled) = true then (0, some dev)
        else if (!__core_in_valid_state P dev) = true then (-EINVAL, some dev)
        else if __dsp_suspend P dev force 0 = -EBUSY then (__dsp_suspend P dev force 0, some dev)
        else if __dsp_suspend P dev force 0 ≠ 0 then __power_collapse_skip K dev
        else pc_after_dsp P K dev := by
  rfl

theorem power_collapse_poll_preserves (P : cvp_platform) (I : iris_hfi_device → Prop)
    (hr : ∀ d reg, I d → I (__read_register P d reg).2) (fuel : Nat) :
    ∀ (d : iris_hfi_device) (c w p : Nat), I d →
      I (__power_collapse_poll P fuel d c w p).2.2.2 := by
  induction fuel with
  | zero => intro d c w p h; exact h
  | succ n ih =>
    intro d c w p h
    simp only [__power_collapse_poll]
    split_ifs
    · exact hr _ _ (hr _ _ h)
    · exact ih _ _ _ _ (hr _ _ (hr _ _ h))

theorem pc_after_dsp_preserves (P : cvp_platform) (K : power_callees)
    (I : iris_hfi_device → Prop)
    (hf : ∀ d, I d → I (K.__flush_debug_queue d))
    (hp : ∀ d, I d → I (K.__prepare_pc d).2)
    (hs : ∀ d, I d → I (K.__suspend d).2)
    (hr : ∀ d reg, I d → I (__read_register P d reg).2)
    (dev : iris_hfi_device) (h0 : I dev) :
    ∀ d, (pc_after_dsp P K dev).2 = some d → I d := by
  have hskip : ∀ a, I a → ∀ d, (__power_collapse_skip K a).2 = some d → I d := by
    intro a ha d hd
    simp only [__power_collapse_skip, Option.some.injEq] at hd
    subst hd; exact hf _ ha
  have hsus : ∀ a, I a → ∀ d, (pc_suspend K a).2 = some d → I d := by
    intro a ha d hd
    simp only [pc_suspend, Option.some.injEq] at hd
    subst hd; exact hs _ ha
  have hprep : ∀ a w p, I a → ∀ d, (pc_prepare P K a w p).2 = some d → I d := by
    intro a w p ha d hd
    unfold pc_prepare at hd
    split_ifs at hd
    · exact hskip _ (hp _ ha) d hd
    · exact hskip _ (power_collapse_poll_preserves P I hr _ _ _ _ _ (hp _ ha)) d hd
    · exact hsus _ (power_collapse_poll_preserves P I hr _ _ _ _ _ (hp _ ha)) d hd
  intro d hd
  unfold pc_after_dsp at hd
  split_ifs at hd
  · unfold pc_when_not_ready at hd
    split_ifs at hd
    · exact hskip _ (hr _ _ (hr _ _ (hr _ _ (hf _ h0)))) d hd
    · exact hskip _ (hr _ _ (hr _ _ (hr _ _ (hf _ h0)))) d hd
    · exact hprep _ _ _ (hr _ _ (hr _ _ (hr _ _ (hf _ h0)))) d hd
  · unfold pc_when_ready at hd
    split_ifs at hd
    · exact hskip _ (hr _ _ (hr _ _ (hf _ h0))) d hd
    · exact hsus _ (hr _ _ (hr _ _ (hf _ h0))) d hd

theorem power_collapse_preserves (P : cvp_platform) (K : power_callees)
    (I : iris_hfi_device → Prop)
    (hf : ∀ d, I d → I (K.__flush_debug_queue d))
    (hp : ∀ d, I d → I (K.__prepare_pc d).2)
    (hs : ∀ d, I d → I (K.__suspend d).2)
    (hr : ∀ d reg, I d → I (__read_register P d reg).2)
    (dev : iris_hfi_device) (force : Bool) (h0 : I dev) :
    ∀ d, (__power_collapse P K (some dev) force).2 = some d → I d := by
  intro d hd
  rw [power_collapse_eq] at hd
  split_ifs at hd
  · simp only [Option.some.injEq] at hd; subst hd; exact h0
  · simp only [Option.some.injEq] at hd; subst hd; exact h0
  · simp only [Option.some.injEq] at hd; subst hd; exact h0
  · simp only [__power_collapse_skip, Option.some.injEq] at hd; subst hd; exact hf _ h0
  · exact pc_after_dsp_preserves P K I hf hp hs hr dev h0 d hd

theorem pc_after_dsp_some (P : cvp_platform) (K : power_callees) (dev : iris_hfi_device) :
    ∃ d, (pc_after_dsp P K dev).2 = some d := by
  have hprep : ∀ a w p, ∃ d, (pc_prepare P K a w p).2 = some d := by
    intro a w p
    unfold pc_prepare
    split_ifs
    · exact ⟨_, rfl⟩
    · exact ⟨_, rfl⟩
    · exact ⟨_, rfl⟩
  unfold pc_after_dsp
  split_ifs
  · unfold pc_when_not_ready
    split_ifs
    · exact ⟨_, rfl⟩
    · exact ⟨_, rfl⟩
    · exact hprep _ _ _
  · unfold pc_when_ready
    split_ifs
    · exact ⟨_, rfl⟩
    · exact ⟨_, rfl⟩

theorem power_collapse_some (P : cvp_platform) (K : power_callees) (dev : iris_hfi_device)
    (force : Bool) :
    ∃ d, (__power_collapse P K (some dev) force).2 = some d := by
  rw [power_collapse_eq]
  split_ifs
  · exact ⟨_, rfl⟩
  · exact ⟨_, rfl⟩
  · exact ⟨_, rfl⟩
  · exact ⟨_, rfl⟩
  · exact pc_after_dsp_some P K dev

theorem read_register_skip_count (P : cvp_platform) (d : iris_hfi_device) (reg : Nat) :
    (__read_register P d reg).2.skip_pc_count = d.skip_pc_count := by
  simp only [__read_register]; split_ifs <;> rfl

theorem power_collapse_skip_count (P : cvp_platform) (K : power_callees)
    (hK : keeps_skip_count K) (dev : iris_hfi_device) (force : Bool) :
    (dev_of (__power_collapse P K (some dev) force).2 dev).skip_pc_count
      ≤ dev.skip_pc_count := by
  obtain ⟨d, hd⟩ := power_collapse_some P K dev force
  rw [hd]
  exact power_collapse_preserves P K (fun d => d.skip_pc_count ≤ dev.skip_pc_count)
    (fun d h => Nat.le_trans (hK d).1 h) (fun d h => Nat.le_trans (hK d).2.1 h)
    (fun d h => Nat.le_trans (hK d).2.2 h)
    (fun d reg h => by simp only [read_register_skip_count]; exact h)
    dev force (Nat.le_refl _) d hd

theorem callbacks_of_append (a b : List hw_event) :
    callbacks_of (a ++ b) = callbacks_of a ++ callbacks_of b := by
  induction a with
  | nil => rfl
  | cons x l ih => cases x <;> simp [callbacks_of, ih]

theorem read_register_callbacks (P : cvp_platform) (d : iris_hfi_device) (reg : Nat) :
    callbacks_of (__read_register P d reg).2.trace = callbacks_of d.trace := by
  simp only [__read_register]
  split_ifs
  · simp only [callbacks_of_append, callbacks_of, List.append_nil]
  · rfl

theorem power_collapse_callbacks (P : cvp_platform) (K : power_callees)
    (hK : raises_no_callback K) (dev : iris_hfi_device) (force : Bool) :
    callbacks_of (dev_of (__power_collapse P K (some dev) force).2 dev).trace
      = callbacks_of dev.trace := by
  obtain ⟨d, hd⟩ := power_collapse_some P K dev force
  rw [hd]
  exact power_collapse_preserves P K (fun d => callbacks_of d.trace = callbacks_of dev.trace)
    (fun d h => (hK d).1.trans h) (fun d h => (hK d).2.1.trans h)
    (fun d h => (hK d).2.2.trans h)
    (fun d reg h => (read_register_callbacks P d reg).trans h)
    dev force rfl d hd

theorem pm_handler_eq (E : hfi_platform) (K : power_callees) (dev : iris_hfi_device)
    (hlt : dev.skip_pc_count < E.CVP_MAX_PC_SKIP_COUNT) :
    iris_hfi_pm_handler E K (some dev)
      = some (
        if (pm_handler_attempt E K dev).1 = 0 then
          { (pm_handler_attempt E K dev).2 with
            skip_pc_count := 0
            trace := (pm_handler_attempt E K dev).2.trace ++ [hw_event.cancel_delayed_work] }
        else if (pm_handler_attempt E K dev).1 = -EBUSY then
          { (pm_handler_attempt E K dev).2 with
            skip_pc_count := 0
            trace := (pm_handler_attempt E K dev).2.trace ++
              [hw_event.queue_delayed_work
                (pm_handler_attempt E K dev).2.res.msm_cvp_pwr_collapse_delay] }
        else if (pm_handler_attempt E K dev).1 = -EAGAIN then
          { (pm_handler_attempt E K dev).2 with
            skip_pc_count := (pm_handler_attempt E K dev).2.skip_pc_count + 1
            trace := (pm_handler_attempt E K dev).2.trace ++
              [hw_event.queue_delayed_work
                (pm_handler_attempt E K dev).2.res.msm_cvp_pwr_collapse_delay] }
        else (pm_handler_attempt E K dev).2) := by
  have h : ¬ dev.skip_pc_count ≥ E.CVP_MAX_PC_SKIP_COUNT := by omega
  unfold iris_hfi_pm_handler pm_handler_attempt
  simp only [h, if_false]
  cases E.dsp_suspended
  · simp only [Bool.false_eq_true, if_false]
    split_ifs <;> rfl
  · simp only [if_true]
    split_ifs <;> rfl

theorem pm_handler_skip_count (E : hfi_platform) (K : power_callees)
    (hK : keeps_skip_count K)
    (hcb : ∀ t rsp d, (E.callback t rsp d).skip_pc_count ≤ d.skip_pc_count)
    (dev : iris_hfi_device) (h0 : dev.skip_pc_count ≤ E.CVP_MAX_PC_SKIP_COUNT) :
    (dev_of (iris_hfi_pm_handler E K (some dev)) dev).skip_pc_count
      ≤ E.CVP_MAX_PC_SKIP_COUNT := by
  by_cases hlt : dev.skip_pc_count < E.CVP_MAX_PC_SKIP_COUNT
  · rw [pm_handler_eq E K dev hlt]
    have h := power_collapse_skip_count E.tocvp_platform K hK dev E.dsp_suspended
    have h2 : (pm_handler_attempt E K dev).2.skip_pc_count ≤ dev.skip_pc_count := h
    simp only [dev_of, Option.getD_some]
    split_ifs
    · exact Nat.zero_le _
    · exact Nat.zero_le _
    · show (pm_handler_attempt E K dev).2.skip_pc_count + 1 ≤ _
      omega
    · omega
  · have h : dev.skip_pc_count ≥ E.CVP_MAX_PC_SKIP_COUNT := by omega
    simp only [iris_hfi_pm_handler, h, if_true, dev_of, Option.getD_some,
      __process_fatal_error]
    exact Nat.le_trans (hcb _ _ _) (Nat.zero_le _)

theorem pm_handler_runs_skip_count (E : hfi_platform) (K : power_callees)
    (hK : keeps_skip_count K)
    (hcb : ∀ t rsp d, (E.callback t rsp d).skip_pc_count ≤ d.skip_pc_count)
    (n : Nat) :
    ∀ dev : iris_hfi_device, dev.skip_pc_count ≤ E.CVP_MAX_PC_SKIP_COUNT →
      (pm_handler_runs E K n dev).skip_pc_count ≤ E.CVP_MAX_PC_SKIP_COUNT := by
  induction n with
  | zero => intro dev h; exact h
  | succ n ih =>
    intro dev h
    exact ih _ (pm_handler_skip_count E K hK hcb dev h)

/-- Claim C20. Retry budget of the deferred power collapse, for callees of
`__power_collapse` that neither raise `skip_pc_count` nor invoke the callback
and a callback that does not raise `skip_pc_count`: from a count within the
budget the count stays within `CVP_MAX_PC_SKIP_COUNT` over any number of runs
of `iris_hfi_pm_handler`; a run entered with the count at the budget clears
the count and invokes the callback once, with `HAL_SYS_ERROR` and the device
id, whatever the collapse callees are (no attempt is made); a run entered
below the budget invokes no callback, queues the delayed work again on
`-EBUSY` (count cleared) and on `-EAGAIN` (count of the attempt plus one), and
leaves the count no higher than before on every other result. -/
theorem pm_handler_retry_budget (E : hfi_platform) (K : power_callees)
    (hK : keeps_skip_count K) (hKc : raises_no_callback K)
    (hcb : ∀ t rsp d, (E.callback t rsp d).skip_pc_count ≤ d.skip_pc_count)
    (dev : iris_hfi_device) (h0 : dev.skip_pc_count ≤ E.CVP_MAX_PC_SKIP_COUNT) :
    (∀ n, (pm_handler_runs E K n dev).skip_pc_count ≤ E.CVP_MAX_PC_SKIP_COUNT) ∧
    (dev.skip_pc_count = E.CVP_MAX_PC_SKIP_COUNT →
      ∀ K2 : power_callees,
        iris_hfi_pm_handler E K2 (some dev)
          = some (E.callback E.HAL_SYS_ERROR ⟨E.HAL_SYS_ERROR, dev.device_id, 0, 0⟩
              { dev with
                skip_pc_count := 0
                trace := dev.trace ++
                  [hw_event.callback E.HAL_SYS_ERROR
                    ⟨E.HAL_SYS_ERROR, dev.device_id, 0, 0⟩] })) ∧
    (dev.skip_pc_count < E.CVP_MAX_PC_SKIP_COUNT →
      ∃ d, iris_hfi_pm_handler E K (some dev) = some d ∧
        callbacks_of d.trace = callbacks_of dev.trace ∧
        ((pm_handler_attempt E K dev).1 = -EBUSY →
          d.skip_pc_count = 0 ∧
          d.trace = (pm_handler_attempt E K dev).2.trace ++
            [hw_event.queue_delayed_work
              (pm_handler_attempt E K dev).2.res.msm_cvp_pwr_collapse_delay]) ∧
        ((pm_handler_attempt E K dev).1 = -EAGAIN →
          d.skip_pc_count = (pm_handler_attempt E K dev).2.skip_pc_count + 1 ∧
          d.trace = (pm_handler_attempt E K dev).2.trace ++
            [hw_event.queue_delayed_work
              (pm_handler_attempt E K dev).2.res.msm_cvp_pwr_collapse_delay]) ∧
        ((pm_handler_attempt E K dev).1 ≠ -EAGAIN →
          d.skip_pc_count ≤ dev.skip_pc_count)) := by
  refine ⟨fun n => pm_handler_runs_skip_count E K hK hcb n dev h0, ?_, ?_⟩
  · intro heq K2
    have h : dev.skip_pc_count ≥ E.CVP_MAX_PC_SKIP_COUNT := by omega
    simp only [iris_hfi_pm_handler, h, if_true, __process_fatal_error]
  · intro hlt
    have hs : (pm_handler_attempt E K dev).2.skip_pc_count ≤ dev.skip_pc_count :=
      power_collapse_skip_count E.tocvp_platform K hK dev E.dsp_suspended
    have hc : callbacks_of (pm_handler_attempt E K dev).2.trace = callbacks_of dev.trace :=
      power_collapse_callbacks E.tocvp_platform K hKc dev E.dsp_suspended
    refine ⟨_, pm_handler_eq E K dev hlt, ?_, ?_, ?_, ?_⟩
    · split_ifs
      · simp only [callbacks_of_append, callbacks_of, List.append_nil, hc]
      · simp only [callbacks_of_append, callbacks_of, List.append_nil, hc]
      · simp only [callbacks_of_append, callbacks_of, List.append_nil, hc]
      · exact hc
    · intro hb
      have hne : (pm_handler_attempt E K dev).1 ≠ 0 := by rw [hb]; decide
      rw [if_neg hne, if_pos hb]
      exact ⟨rfl, rfl⟩
    · intro ha
      have hne : (pm_handler_attempt E K dev).1 ≠ 0 := by rw [ha]; decide
      have hnb : (pm_handler_attempt E K dev).1 ≠ -EBUSY := by rw [ha]; decide
      rw [if_neg hne, if_neg hnb, if_pos ha]
      exact ⟨rfl, rfl⟩
    · intro hna
      split_ifs
      · exact Nat.zero_le _
      · exact Nat.zero_le _
      · exact hs

theorem dsp_suspend_scan_force (P : cvp_platform) (l : List cvp_hal_session) :
    __dsp_suspend_scan P true l = false := by
  induction l with
  | nil => rfl
  | cons s l ih => simp only [__dsp_suspend_scan, if_true, ih]

theorem read_register_flag_blind (P : cvp_platform) (a b : iris_hfi_device) (reg : Nat)
    (h : erase_session_flags a = erase_session_flags b) :
    (__read_register P a reg).1 = (__read_register P b reg).1 ∧
    erase_session_flags (__read_register P a reg).2
      = erase_session_flags (__read_register P b reg).2 := by
  cases a; cases b
  simp only [erase_session_flags, iris_hfi_device.mk.injEq] at h
  obtain ⟨h1, h2, h3, h4, h5, h6, h7, h8, h9, h10, h11, h12, h13, h14, h15, h16⟩ := h
  subst h1 h2 h3 h5 h6 h7 h8 h9 h10 h11 h12 h13 h14 h15 h16
  simp only [__read_register]
  split_ifs
  · exact ⟨rfl, by simp only [erase_session_flags, h4]⟩
  · exact ⟨rfl, by simp only [erase_session_flags, h4]⟩

theorem power_collapse_poll_flag_blind (P : cvp_platform) (fuel : Nat) :
    ∀ (a b : iris_hfi_device) (c w p : Nat),
      erase_session_flags a = erase_session_flags b →
      (__power_collapse_poll P fuel a c w p).1 = (__power_collapse_poll P fuel b c w p).1 ∧
      erase_session_flags (__power_collapse_poll P fuel a c w p).2.2.2
        = erase_session_flags (__power_collapse_poll P fuel b c w p).2.2.2 := by
  induction fuel with
  | zero => intro a b c w p h; exact ⟨rfl, h⟩
  | succ n ih =>
    intro a b c w p h
    obtain ⟨hv1, hd1⟩ := read_register_flag_blind P a b P.CVP_WRAPPER_CPU_STATUS h
    obtain ⟨hv2, hd2⟩ := read_register_flag_blind P _ _ P.CVP_CTRL_STATUS hd1
    simp only [__power_collapse_poll]
    rw [hv1, hv2]
    split_ifs
    · exact ⟨rfl, hd2⟩
    · exact ih _ _ _ _ _ hd2

theorem power_collapse_skip_flag_blind (K : power_callees) (hK : flag_blind K)
    (a b : iris_hfi_device) (h : erase_session_flags a = erase_session_flags b) :
    same_up_to_flags (__power_collapse_skip K a) (__power_collapse_skip K b) :=
  ⟨rfl, congrArg some (hK a b h).1⟩

theorem pc_suspend_flag_blind (K : power_callees) (hK : flag_blind K)
    (a b : iris_hfi_device) (h : erase_session_flags a = erase_session_flags b) :
    same_up_to_flags (pc_suspend K a) (pc_suspend K b) :=
  ⟨(hK a b h).2.2.2.1, congrArg some (hK a b h).2.2.2.2⟩

theorem pc_prepare_flag_blind (P : cvp_platform) (K : power_callees) (hK : flag_blind K)
    (a b : iris_hfi_device) (w p : Nat) (h : erase_session_flags a = erase_session_flags b) :
    same_up_to_flags (pc_prepare P K a w p) (pc_prepare P K b w p) := by
  have hv := (hK a b h).2.1
  have hd := (hK a b h).2.2.1
  obtain ⟨hpv, hpd⟩ := power_collapse_poll_flag_blind P 150 _ _ 0 w p hd
  unfold pc_prepare
  rw [hv, hpv]
  split_ifs
  · exact power_collapse_skip_flag_blind K hK _ _ hd
  · exact power_collapse_skip_flag_blind K hK _ _ hpd
  · exact pc_suspend_flag_blind K hK _ _ hpd

theorem pc_after_dsp_flag_blind (P : cvp_platform) (K : power_callees) (hK : flag_blind K)
    (a b : iris_hfi_device) (h : erase_session_flags a = erase_session_flags b) :
    same_up_to_flags (pc_after_dsp P K a) (pc_after_dsp P K b) := by
  have hf := (hK a b h).1
  obtain ⟨hv1, hd1⟩ := read_register_flag_blind P _ _ P.CVP_CTRL_STATUS hf
  obtain ⟨hv2, hd2⟩ := read_register_flag_blind P _ _ P.CVP_WRAPPER_CPU_STATUS hd1
  obtain ⟨hv3, hd3⟩ := read_register_flag_blind P _ _ P.CVP_CTRL_STATUS hd2
  unfold pc_after_dsp
  rw [hv1]
  split_ifs
  · unfold pc_when_not_ready
    rw [hv2, hv3]
    split_ifs
    · exact power_collapse_skip_flag_blind K hK _ _ hd3
    · exact power_collapse_skip_flag_blind K hK _ _ hd3
    · exact pc_prepare_flag_blind P K hK _ _ _ _ hd3
  · unfold pc_when_ready
    rw [hv2]
    split_ifs
    · exact power_collapse_skip_flag_blind K hK _ _ hd2
    · exact pc_suspend_flag_blind K hK _ _ hd2

theorem power_collapse_force_same (P : cvp_platform) (K : power_callees) (hK : flag_blind K)
    (a b : iris_hfi_device) (h : erase_session_flags a = erase_session_flags b) :
    same_up_to_flags (__power_collapse P K (some a) true) (__power_collapse P K (some b) true) := by
  have hpow : a.power_enabled = b.power_enabled := by
    have h2 := congrArg iris_hfi_device.power_enabled h
    exact h2
  have hst : a.state = b.state := by
    have h2 := congrArg iris_hfi_device.state h
    exact h2
  have hdsp : __dsp_suspend P a true 0 = __dsp_suspend P b true 0 := by
    simp only [__dsp_suspend, dsp_suspend_scan_force]
  rw [power_collapse_eq, power_collapse_eq]
  simp only [__core_in_valid_state, hpow, hst, hdsp]
  split_ifs
  · exact ⟨rfl, congrArg some h⟩
  · exact ⟨rfl, congrArg some h⟩
  · exact ⟨rfl, congrArg some h⟩
  · exact power_collapse_skip_flag_blind K hK _ _ h
  · exact pc_after_dsp_flag_blind P K hK _ _ h

/-- Claim C11. The forced power collapse does not look at the pause state of
the sessions.  For callees that do not look at the session flags and two
devices that differ only in the flags of their sessions, with the same
register and DSP responses, `__power_collapse(device, true)` returns the same
value on both and leaves devices that again differ only in those flags, so
with the same `power_enabled`.  And when the DSP accepts the suspend, the
control status register read reports `CVP_CTRL_STATUS_PC_READY`, the wrapper
status reports WFI and `__suspend` returns 0, the forced collapse of a
powered, initialised device returns 0, whatever the flags of its sessions
are. -/
theorem power_collapse_force_independent (P : cvp_platform) (K : power_callees)
    (hK : flag_blind K) (d1 d2 : iris_hfi_device)
    (h : erase_session_flags d1 = erase_session_flags d2) :
    (__power_collapse P K (some d1) true).1 = (__power_collapse P K (some d2) true).1 ∧
    (__power_collapse P K (some d1) true).2.map erase_session_flags
      = (__power_collapse P K (some d2) true).2.map erase_session_flags ∧
    (dev_of (__power_collapse P K (some d1) true).2 d1).power_enabled
      = (dev_of (__power_collapse P K (some d2) true).2 d2).power_enabled ∧
    (d1.power_enabled = true → d1.state ≠ P.IRIS_STATE_DEINIT →
      (P.msm_cvp_dsp_disable = true ∨ P.cvp_dsp_suspend 0 = 0) →
      (__read_register P (K.__flush_debug_queue d1) P.CVP_CTRL_STATUS).1
        &&& P.CVP_CTRL_STATUS_PC_READY ≠ 0 →
      (__read_register P (__read_register P (K.__flush_debug_queue d1) P.CVP_CTRL_STATUS).2
        P.CVP_WRAPPER_CPU_STATUS).1 &&& 1 ≠ 0 →
      (K.__suspend (__read_register P
        (__read_register P (K.__flush_debug_queue d1) P.CVP_CTRL_STATUS).2
        P.CVP_WRAPPER_CPU_STATUS).2).1 = 0 →
      (__power_collapse P K (some d1) true).1 = 0) := by
  have hs := power_collapse_force_same P K hK d1 d2 h
  refine ⟨hs.1, hs.2, ?_, ?_⟩
  · obtain ⟨x, hx⟩ := power_collapse_some P K d1 true
    obtain ⟨y, hy⟩ := power_collapse_some P K d2 true
    have h2 := hs.2
    rw [hx, hy] at h2
    rw [hx, hy]
    simp only [Option.map_some', Option.some.injEq] at h2
    have h3 := congrArg iris_hfi_device.power_enabled h2
    exact h3
  · intro hp hst hdsp hready hwfi hsus
    have hd : __dsp_suspend P d1 true 0 = 0 := by
      simp only [__dsp_suspend, dsp_suspend_scan_force]
      rcases hdsp with hd | hd
      · simp only [hd, if_true]
      · simp only [hd, ne_eq, not_true_eq_false, if_false, Bool.false_eq_true, ite_self]
    have hv : __core_in_valid_state P d1 = true := by
      simp only [__core_in_valid_state, decide_eq_true_eq]; exact hst
    rw [power_collapse_eq]
    simp only [hp, hv, hd, Bool.not_true, Bool.false_eq_true, if_false, ne_eq,
      not_true_eq_false]
    have hne : (0 : Int) ≠ -EBUSY := by decide
    rw [if_neg hne]
    unfold pc_after_dsp
    rw [if_neg hready]
    unfold pc_when_ready
    rw [if_neg hwfi]
    exact hsus

/-- Instance of claim C13: of the sessions at addresses 4096 and 4098 the
first is cleaned. -/
theorem session_clean_invalidates_witness :
    __is_session_valid
      (some (__session_clean (sample_device [0, 2]) (some ⟨4096, 0, 7, some 0⟩)).1)
      (some 4096) = false ∧
    __is_session_valid
      (some (__session_clean (sample_device [0, 2]) (some ⟨4096, 0, 7, some 0⟩)).1)
      (some 4098) = __is_session_valid (some (sample_device [0, 2])) (some 4098) ∧
    iris_hfi_validate_session
      (__session_clean (sample_device [0, 2]) (some ⟨4096, 0, 7, some 0⟩)).1
      (some ⟨4096, 0, 7, some 0⟩) = -ECONNRESET :=
  ⟨(session_clean_invalidates (sample_device [0, 2]) ⟨4096, 0, 7, some 0⟩
      (by decide) (by decide)).1,
    (session_clean_invalidates (sample_device [0, 2]) ⟨4096, 0, 7, some 0⟩
      (by decide) (by decide)).2.1 4098 (by decide),
    (session_clean_invalidates (sample_device [0, 2]) ⟨4096, 0, 7, some 0⟩
      (by decide) (by decide)).2.2.2⟩

/-- Instance of claim C18: a powered device whose command queue has
`qhdr_rx_req` set, and a packet of 3 words. -/
theorem cmdq_write_doorbell_witness :
    ((__write_queue (some (mk_qinfo ⟨0, 1, 0, 0, 0⟩ (fun _ => 0) 64))
        (some (sample_pkt 3 10))).rx_req_is_set = some true ↔
      (__write_queue (some (mk_qinfo ⟨0, 1, 0, 0, 0⟩ (fun _ => 0) 64))
        (some (sample_pkt 3 10))).rc = 0 ∧ u32 1 = 1) :=
  (cmdq_write_doorbell (sample_hfi 0 false 0) sample_resume_callees (sample_device []) _
    (sample_pkt 3 10) ⟨0, 1, 0, 0, 0⟩ (fun _ => 0) 64 (by decide) (by decide)
    (resume_powered (sample_hfi 0 false 0) sample_resume_callees _ rfl) rfl rfl).1

theorem sample_callees_flag_blind : flag_blind sample_callees := by
  intro a b h
  refine ⟨h, rfl, h, rfl, ?_⟩
  cases a; cases b
  simp only [erase_session_flags, iris_hfi_device.mk.injEq] at h
  obtain ⟨h1, h2, h3, h4, h5, h6, h7, h8, h9, h10, h11, h12, h13, h14, h15, h16⟩ := h
  subst h1 h2 h3 h5 h6 h7 h8 h9 h10 h11 h12 h13 h14 h15 h16
  simp only [sample_callees, erase_session_flags, h4]

/-- Instance of claim C11: one session, paused in the first device and not
paused in the second, and registers that report ready. -/
theorem power_collapse_force_independent_witness :
    (__power_collapse (sample_platform false 4294967295) sample_callees
        (some (sample_device [0])) true).1
      = (__power_collapse (sample_platform false 4294967295) sample_callees
        (some { sample_device [0] with sess_head := [⟨4096, 2, 7, some 0⟩] }) true).1 ∧
    (__power_collapse (sample_platform false 4294967295) sample_callees
        (some (sample_device [0])) true).1 = 0 :=
  ⟨(power_collapse_force_independent (sample_platform false 4294967295) sample_callees
      sample_callees_flag_blind (sample_device [0])
      { sample_device [0] with sess_head := [⟨4096, 2, 7, some 0⟩] } rfl).1,
    (power_collapse_force_independent (sample_platform false 4294967295) sample_callees
      sample_callees_flag_blind (sample_device [0])
      { sample_device [0] with sess_head := [⟨4096, 2, 7, some 0⟩] } rfl).2.2.2
      (by decide) (by decide) (by decide) (by decide) (by decide) (by decide)⟩

/-- Instance of claim C20: twelve runs from a count of 0 with registers that
never report ready. -/
theorem pm_handler_retry_budget_witness :
    (pm_handler_runs (sample_hfi 0 false 0) sample_callees 12 (sample_device [2])).skip_pc_count
      ≤ (sample_hfi 0 false 0).CVP_MAX_PC_SKIP_COUNT :=
  (pm_handler_retry_budget (sample_hfi 0 false 0) sample_callees
    (fun _ => ⟨Nat.le_refl _, Nat.le_refl _, Nat.le_refl _⟩)
    (fun _ => ⟨rfl, rfl, rfl⟩) (fun _ _ _ => Nat.le_refl _)
    (sample_device [2]) (by decide)).1 12

/-! ### The response path -/

theorem read_queue_packet_indep (HUGE : Nat) (qi : cvp_iface_q_info)
    (queue : cvp_hfi_queue_header) (mem : Nat → Nat) (o1 o2 : Nat → Nat)
    (pb1 pb2 rr r w : Nat) :
    (__read_queue_packet HUGE qi queue mem o1 pb1 rr r w).rc
      = (__read_queue_packet HUGE qi queue mem o2 pb2 rr r w).rc ∧
    (__read_queue_packet HUGE qi queue mem o1 pb1 rr r w).qinfo
      = (__read_queue_packet HUGE qi queue mem o2 pb2 rr r w).qinfo := by
  by_cases h1 : shl2 r + 4 > u32 qi.q_array.mem_size
  · simp only [__read_queue_packet, h1, if_true, and_self]
  · by_cases h2 : shr2 (u32 (mem (shl2 r / 4))) = 0
    · simp only [__read_queue_packet, h1, h2, if_true, if_false, and_self]
    · by_cases h3 : shl2 (shr2 (u32 (mem (shl2 r / 4)))) ≤ HUGE
          ∧ r ≤ shr2 (u32 qi.q_array.mem_size)
      · by_cases h4 : add32 r (shr2 (u32 (mem (shl2 r / 4)))) < shr2 (u32 qi.q_array.mem_size)
        · simp only [__read_queue_packet, h1, h2, h3, h4, if_true, if_false, and_self]
        · simp only [__read_queue_packet, h1, h2, h3, h4, if_true, if_false, and_self]
      · simp only [__read_queue_packet, h1, h2, h3, if_true, if_false, and_self]

theorem read_queue_indep (HUGE MSGQ : Nat) (q : cvp_iface_q_info) (o1 o2 : Nat → Nat)
    (pb1 pb2 : Nat) :
    (__read_queue HUGE MSGQ (some q) (some o1) (some pb1)).rc
      = (__read_queue HUGE MSGQ (some q) (some o2) (some pb2)).rc ∧
    (__read_queue HUGE MSGQ (some q) (some o1) (some pb1)).qinfo
      = (__read_queue HUGE MSGQ (some q) (some o2) (some pb2)).qinfo := by
  simp only [__read_queue]
  cases q.q_array.align_virtual_addr with
  | none => exact ⟨rfl, rfl⟩
  | some mem =>
    cases q.q_hdr with
    | none => exact ⟨rfl, rfl⟩
    | some queue =>
      simp only []
      by_cases h1 : u32 queue.qhdr_read_idx = u32 queue.qhdr_write_idx
      · simp only [h1, if_true, ne_eq, not_true_eq_false, if_false, and_self]
      · simp only [h1, if_false]
        exact read_queue_packet_indep HUGE q queue mem o1 o2 pb1 pb2 _ _ _

theorem device_eta (d : iris_hfi_device) :
    { d with iface_dbgq := d.iface_dbgq, trace := d.trace ++ [] } = d := by
  cases d; simp only [List.append_nil]

theorem read_queue_none_rc (HUGE MSGQ : Nat) (q : cvp_iface_q_info) (o : Nat → Nat) (pb : Nat)
    (h : q.q_array.align_virtual_addr.isNone = true) :
    (__read_queue HUGE MSGQ (some q) (some o) (some pb)).rc ≠ 0 := by
  simp only [Option.isNone_iff_eq_none] at h
  simp only [__read_queue, h]
  decide

theorem write_register_shape (d : iris_hfi_device) (reg value : Nat) :
    ∃ t, callbacks_of t = [] ∧ __write_register d reg value = { d with trace := d.trace ++ t } := by
  simp only [__write_register]
  split_ifs
  · exact ⟨[hw_event.fatal_hw_error], rfl, rfl⟩
  · exact ⟨[hw_event.reg_write reg value], rfl, rfl⟩

theorem iface_dbgq_read_shape (E : hfi_platform) (d : iris_hfi_device) (raw : Nat → Nat) :
    ∃ q t, callbacks_of t = [] ∧
      (__iface_dbgq_read E d (some raw)).device
        = { d with iface_dbgq := q, trace := d.trace ++ t } := by
  simp only [__iface_dbgq_read]
  split_ifs
  · exact ⟨_, [], rfl, (device_eta d).symm⟩
  · obtain ⟨t, ht, h⟩ := write_register_shape
      { d with iface_dbgq := ((__read_queue E.CVP_IFACEQ_VAR_HUGE_PKT_SIZE
          E.HFI_Q_ID_CTRL_TO_HOST_MSG_Q (some d.iface_dbgq) (some raw) (some 0)).qinfo.getD
            d.iface_dbgq) } E.CVP_CPU_CS_H2ASOFTINT 1
    exact ⟨_, t, ht, h⟩
  · exact ⟨(__read_queue E.CVP_IFACEQ_VAR_HUGE_PKT_SIZE
      E.HFI_Q_ID_CTRL_TO_HOST_MSG_Q (some d.iface_dbgq) (some raw) (some 0)).qinfo.getD
        d.iface_dbgq, [], rfl, by simp only [List.append_nil]⟩
  · exact ⟨(__read_queue E.CVP_IFACEQ_VAR_HUGE_PKT_SIZE
      E.HFI_Q_ID_CTRL_TO_HOST_MSG_Q (some d.iface_dbgq) (some raw) (some 0)).qinfo.getD
        d.iface_dbgq, [], rfl, by simp only [List.append_nil]⟩

theorem iface_dbgq_read_depth_zero (E : hfi_platform) (d : iris_hfi_device) (raw : Nat → Nat)
    (h : queue_depth E.CVP_IFACEQ_VAR_HUGE_PKT_SIZE E.HFI_Q_ID_CTRL_TO_HOST_MSG_Q 0
      d.iface_dbgq = true) :
    (__iface_dbgq_read E d (some raw)).rc ≠ 0 := by
  simp only [queue_depth, decide_eq_true_eq] at h
  rw [(read_queue_indep _ _ d.iface_dbgq (fun _ => 0) raw 0 0).1] at h
  have hne : (-ENODATA : Int) ≠ 0 := by decide
  by_cases halloc : d.iface_dbgq.q_array.align_virtual_addr.isNone = true
  · simp only [__iface_dbgq_read, halloc, if_true]
    exact hne
  · simp only [__iface_dbgq_read, halloc, h, if_false, Bool.false_eq_true]
    exact hne

theorem iface_dbgq_read_depth_succ (E : hfi_platform) (d : iris_hfi_device) (raw : Nat → Nat)
    (k : Nat)
    (h : queue_depth E.CVP_IFACEQ_VAR_HUGE_PKT_SIZE E.HFI_Q_ID_CTRL_TO_HOST_MSG_Q (k + 1)
      d.iface_dbgq = true) :
    (__iface_dbgq_read E d (some raw)).rc = 0 ∧
    queue_depth E.CVP_IFACEQ_VAR_HUGE_PKT_SIZE E.HFI_Q_ID_CTRL_TO_HOST_MSG_Q k
      (__iface_dbgq_read E d (some raw)).device.iface_dbgq = true := by
  simp only [queue_depth, Bool.and_eq_true, decide_eq_true_eq] at h
  rw [(read_queue_indep _ _ d.iface_dbgq (fun _ => 0) raw 0 0).1,
    (read_queue_indep _ _ d.iface_dbgq (fun _ => 0) raw 0 0).2] at h
  obtain ⟨h1, h2⟩ := h
  have halloc : d.iface_dbgq.q_array.align_virtual_addr.isNone = false := by
    cases hn : d.iface_dbgq.q_array.align_virtual_addr.isNone with
    | false => rfl
    | true => exact absurd h1 (read_queue_none_rc _ _ _ _ _ hn)
  simp only [__iface_dbgq_read, halloc, h1, if_true, Bool.false_eq_true, if_false]
  split_ifs
  · obtain ⟨t, -, ht⟩ := write_register_shape
      { d with iface_dbgq := ((__read_queue E.CVP_IFACEQ_VAR_HUGE_PKT_SIZE
          E.HFI_Q_ID_CTRL_TO_HOST_MSG_Q (some d.iface_dbgq) (some raw) (some 0)).qinfo.getD
            d.iface_dbgq) } E.CVP_CPU_CS_H2ASOFTINT 1
    rw [ht]
    exact ⟨rfl, h2⟩
  · exact ⟨rfl, h2⟩

theorem flush_debug_queue_spec (E : hfi_platform) (I : iris_hfi_device → Prop)
    (hI : ∀ d q t, callbacks_of t = [] → I d →
      I { d with iface_dbgq := q, trace := d.trace ++ t }) :
    ∀ (k : Nat) (d : iris_hfi_device) (raw : Nat → Nat),
      queue_depth E.CVP_IFACEQ_VAR_HUGE_PKT_SIZE E.HFI_Q_ID_CTRL_TO_HOST_MSG_Q k
        d.iface_dbgq = true →
      I d → ∀ fuel, k < fuel →
      ∃ f, __flush_debug_queue E fuel d raw = some f ∧ I f.1 := by
  intro k
  induction k with
  | zero =>
    intro d raw hk hd fuel hf
    obtain ⟨n, rfl⟩ : ∃ n, fuel = n + 1 := ⟨fuel - 1, by omega⟩
    have hrc := iface_dbgq_read_depth_zero E d raw hk
    obtain ⟨q, t, ht, hshape⟩ := iface_dbgq_read_shape E d raw
    simp only [__flush_debug_queue, hrc, ne_eq, not_false_eq_true, if_true]
    refine ⟨_, rfl, ?_⟩
    simp only [hshape]
    exact hI d q t ht hd
  | succ k ih =>
    intro d raw hk hd fuel hf
    obtain ⟨n, rfl⟩ : ∃ n, fuel = n + 1 := ⟨fuel - 1, by omega⟩
    obtain ⟨hrc, hk2⟩ := iface_dbgq_read_depth_succ E d raw k hk
    obtain ⟨q, t, ht, hshape⟩ := iface_dbgq_read_shape E d raw
    simp only [__flush_debug_queue, hrc, ne_eq, not_true_eq_false, if_false]
    refine ih _ _ hk2 ?_ n (by omega)
    rw [hshape]
    exact hI d q t ht hd

theorem device_eta_msgq (d : iris_hfi_device) :
    { d with iface_msgq := d.iface_msgq, trace := d.trace ++ [] } = d := by
  cases d; simp only [List.append_nil]

theorem iface_msgq_read_shape (E : hfi_platform) (d : iris_hfi_device) (raw : Nat → Nat) :
    ∃ q t, callbacks_of t = [] ∧
      (__iface_msgq_read E d (some raw)).device
        = { d with iface_msgq := q, trace := d.trace ++ t } := by
  simp only [__iface_msgq_read]
  split_ifs
  · exact ⟨_, [], rfl, (device_eta_msgq d).symm⟩
  · exact ⟨_, [], rfl, (device_eta_msgq d).symm⟩
  · obtain ⟨t, ht, h⟩ := write_register_shape
      { d with iface_msgq := ((__read_queue E.CVP_IFACEQ_VAR_HUGE_PKT_SIZE
          E.HFI_Q_ID_CTRL_TO_HOST_MSG_Q (some d.iface_msgq) (some raw) (some 0)).qinfo.getD
            d.iface_msgq) } E.CVP_CPU_CS_H2ASOFTINT 1
    exact ⟨_, t, ht, h⟩
  · exact ⟨(__read_queue E.CVP_IFACEQ_VAR_HUGE_PKT_SIZE
      E.HFI_Q_ID_CTRL_TO_HOST_MSG_Q (some d.iface_msgq) (some raw) (some 0)).qinfo.getD
        d.iface_msgq, [], rfl, by simp only [List.append_nil]⟩
  · exact ⟨(__read_queue E.CVP_IFACEQ_VAR_HUGE_PKT_SIZE
      E.HFI_Q_ID_CTRL_TO_HOST_MSG_Q (some d.iface_msgq) (some raw) (some 0)).qinfo.getD
        d.iface_msgq, [], rfl, by simp only [List.append_nil]⟩

theorem range_map_update {α : Type} (p : Nat → α) (n : Nat) (x : α) :
    (List.range n).map (Function.update p n x) = (List.range n).map p := by
  apply List.map_congr_left
  intro a ha
  have : a ≠ n := by
    have := List.mem_range.mp ha
    omega
  exact Function.update_noteq this x p

theorem range_succ_map_update {α : Type} (p : Nat → α) (n : Nat) (x : α) :
    (List.range (n + 1)).map (Function.update p n x) = (List.range n).map p ++ [x] := by
  rw [List.range_succ, List.map_append, range_map_update]
  simp only [List.map_cons, Function.update_same, List.map_nil]

theorem response_handler_drain_spec (E : hfi_platform) (I : iris_hfi_device → Prop)
    (hI : ∀ d q t, callbacks_of t = [] → I d →
      I { d with iface_msgq := q, trace := d.trace ++ t }) :
    ∀ (k : Nat) (s : response_state),
      msgq_depth E k s.device s.raw_packet = true → I s.device →
      ∀ fuel, k < fuel →
      ∃ s2, __response_handler_drain E fuel s = some s2 ∧ I s2.device ∧
        (List.range s2.packet_count).map s2.packets
          = (List.range s.packet_count).map s.packets
            ++ drain_events E s.packet_count s.packets
              (msgq_reads E k s.device s.raw_packet) := by
  intro k
  induction k with
  | zero =>
    intro s hk hd fuel hf
    obtain ⟨n, rfl⟩ : ∃ n, fuel = n + 1 := ⟨fuel - 1, by omega⟩
    simp only [msgq_depth, decide_eq_true_eq] at hk
    obtain ⟨q, t, ht, hshape⟩ := iface_msgq_read_shape E s.device s.raw_packet
    simp only [__response_handler_drain, hk, ne_eq, not_false_eq_true, if_true]
    refine ⟨_, rfl, ?_, ?_⟩
    · simp only [hshape]
      exact hI _ q t ht hd
    · simp only [msgq_reads, drain_events, List.append_nil]
  | succ k ih =>
    intro s hk hd fuel hf
    obtain ⟨n, rfl⟩ : ∃ n, fuel = n + 1 := ⟨fuel - 1, by omega⟩
    simp only [msgq_depth, Bool.and_eq_true, decide_eq_true_eq] at hk
    obtain ⟨hrc, hk2⟩ := hk
    obtain ⟨q, t, ht, hshape⟩ := iface_msgq_read_shape E s.device s.raw_packet
    have hd2 : I (__iface_msgq_read E s.device (some s.raw_packet)).device := by
      rw [hshape]; exact hI _ q t ht hd
    simp only [__response_handler_drain, hrc, ne_eq, not_true_eq_false, if_false]
    simp only [msgq_reads, drain_events]
    generalize __iface_msgq_read E s.device (some s.raw_packet) = r at *
    generalize __response_handler_packet E r.device (r.packet.getD s.raw_packet)
      (s.packets s.packet_count) = kk at *
    split_ifs with h1 h2 h3
    · obtain ⟨s2, hs2, hI2, hb⟩ := ih ⟨r.device, r.packet.getD s.raw_packet,
        Function.update s.packets s.packet_count kk.2, s.packet_count⟩ hk2 hd2 n (by omega)
      refine ⟨s2, hs2, hI2, ?_⟩
      rw [hb]
      simp only [range_map_update]
    · refine ⟨_, rfl, hd2, ?_⟩
      simp only [range_succ_map_update]
    · refine ⟨_, rfl, hd2, ?_⟩
      simp only [range_succ_map_update]
    · obtain ⟨s2, hs2, hI2, hb⟩ := ih ⟨r.device, r.packet.getD s.raw_packet,
        Function.update s.packets s.packet_count kk.2, s.packet_count + 1⟩ hk2 hd2 n (by omega)
      refine ⟨s2, hs2, hI2, ?_⟩
      rw [hb]
      simp only [range_succ_map_update, List.append_assoc, List.singleton_append]

theorem get_session_scan_mem (E : hfi_platform) (id : Nat) (l : List cvp_hal_session)
    (s : cvp_hal_session) (h : __get_session_scan E id l = some s) :
    s ∈ l ∧ id = u32 (E.hash32_ptr s.addr) := by
  induction l with
  | nil => simp only [__get_session_scan] at h; exact absurd h (by simp)
  | cons t rest ih =>
    simp only [__get_session_scan] at h
    split_ifs at h with h1
    · simp only [Option.some.injEq] at h
      subst h
      exact ⟨List.mem_cons_self _ _, h1⟩
    · exact ⟨List.mem_cons_of_mem _ (ih h).1, (ih h).2⟩

theorem process_system_msg_type (E : hfi_platform) (info : msm_cvp_cb_info)
    (d : iris_hfi_device) (raw : Nat → Nat) :
    (process_system_msg E info d raw).response_type = info.response_type ∧
    (process_system_msg E info d raw).session_id = info.session_id := by
  simp only [process_system_msg]
  split_ifs <;> exact ⟨rfl, rfl⟩

theorem response_handler_packet_session (E : hfi_platform) (d : iris_hfi_device)
    (raw : Nat → Nat) (info : msm_cvp_cb_info)
    (hkept : (__response_handler_packet E d raw info).1 = true)
    (hkind : get_session_id E (__response_handler_packet E d raw info).2 ≠ none) :
    ∃ s, s ∈ d.sess_head ∧
      (__response_handler_packet E d raw info).2.session_id = s.session_id ∧
      u32 (E.cvp_hfi_process_msg_packet d.device_id raw info).2.session_id
        = u32 (E.hash32_ptr s.addr) := by
  by_cases h1 : (E.cvp_hfi_process_msg_packet d.device_id raw info).1 = 0
  swap
  · simp only [__response_handler_packet, ne_eq, h1, not_false_eq_true, if_true] at hkept
    exact absurd hkept (by simp)
  by_cases h2 : (E.cvp_hfi_process_msg_packet d.device_id raw info).2.response_type
      = E.HAL_NO_RESP
  · simp only [__response_handler_packet, ne_eq, h1, not_true_eq_false, h2, if_true,
      if_false] at hkept
    exact absurd hkept (by simp)
  simp only [__response_handler_packet, ne_eq, h1, not_true_eq_false, h2, if_false]
    at hkept hkind ⊢
  cases hg : get_session_id E
      (process_system_msg E (E.cvp_hfi_process_msg_packet d.device_id raw info).2 d raw) with
  | none =>
    simp only [hg] at hkind
    exact absurd trivial hkind
  | some id =>
    simp only [hg] at hkept hkind ⊢
    cases hs : __get_session E d (u32 id) with
    | none =>
      simp only [hs] at hkept
      exact absurd hkept (by simp)
    | some s =>
      simp only [hs]
      have hmem := get_session_scan_mem E _ _ s hs
      refine ⟨s, hmem.1, rfl, ?_⟩
      have hid : id = (E.cvp_hfi_process_msg_packet d.device_id raw info).2.session_id := by
        have hp := process_system_msg_type E
          (E.cvp_hfi_process_msg_packet d.device_id raw info).2 d raw
        simp only [get_session_id] at hg
        split_ifs at hg
        · simp only [Option.some.injEq] at hg
          rw [← hg, hp.2]
        · simp only [Option.some.injEq] at hg
          rw [← hg, hp.2]
      rw [← hid]
      exact hmem.2

theorem msgq_reads_preserve (E : hfi_platform) (I : iris_hfi_device → Prop)
    (hI : ∀ d q t, callbacks_of t = [] → I d →
      I { d with iface_msgq := q, trace := d.trace ++ t }) :
    ∀ (k : Nat) (d : iris_hfi_device) (raw : Nat → Nat), I d →
      ∀ read, read ∈ msgq_reads E k d raw → I read.1 := by
  intro k
  induction k with
  | zero => intro d raw _ read hr; simp only [msgq_reads, List.not_mem_nil] at hr
  | succ k ih =>
    intro d raw hd read hr
    obtain ⟨q, t, ht, hshape⟩ := iface_msgq_read_shape E d raw
    have hd2 : I (__iface_msgq_read E d (some raw)).device := by
      rw [hshape]; exact hI _ q t ht hd
    simp only [msgq_reads, List.mem_cons] at hr
    rcases hr with hr | hr
    · rw [hr]; exact hd2
    · exact ih _ _ hd2 read hr

theorem drain_events_session (E : hfi_platform) (l : List cvp_hal_session) :
    ∀ (reads : List (iris_hfi_device × (Nat → Nat))) (count : Nat)
      (packets : Nat → msm_cvp_cb_info),
      (∀ read, read ∈ reads → read.1.sess_head = l) →
      ∀ ev, ev ∈ drain_events E count packets reads → get_session_id E ev ≠ none →
        ∃ s, s ∈ l ∧ ev.session_id = s.session_id := by
  intro reads
  induction reads with
  | nil => intro count packets _ ev hev; simp only [drain_events, List.not_mem_nil] at hev
  | cons read rest ih =>
    intro count packets hl ev hev hkind
    have hl2 : ∀ r, r ∈ rest → r.1.sess_head = l := fun r hr => hl r (List.mem_cons_of_mem _ hr)
    have hfirst : (__response_handler_packet E read.1 read.2 (packets count)).1 = true →
        ev = (__response_handler_packet E read.1 read.2 (packets count)).2 →
        ∃ s, s ∈ l ∧ ev.session_id = s.session_id := by
      intro hk he
      subst he
      obtain ⟨s, hs, hid, -⟩ := response_handler_packet_session E read.1 read.2 _ hk hkind
      rw [hl read (List.mem_cons_self _ _)] at hs
      exact ⟨s, hs, hid⟩
    simp only [drain_events] at hev
    split_ifs at hev with h1 h2 h3
    · exact ih _ _ hl2 ev hev hkind
    · simp only [List.mem_singleton] at hev
      exact hfirst (by simpa using h1) hev
    · simp only [List.mem_singleton] at hev
      exact hfirst (by simpa using h1) hev
    · simp only [List.mem_cons] at hev
      rcases hev with hev | hev
      · exact hfirst (by simpa using h1) hev
      · exact ih _ _ hl2 ev hev hkind

theorem drain_events_sys_error (E : hfi_platform) :
    ∀ (reads : List (iris_hfi_device × (Nat → Nat))) (count : Nat)
      (packets : Nat → msm_cvp_cb_info),
      ∀ ev, ev ∈ (drain_events E count packets reads).dropLast →
        ev.response_type ≠ E.HAL_SYS_ERROR := by
  intro reads
  induction reads with
  | nil =>
    intro count packets ev hev
    simp only [drain_events, List.dropLast_nil, List.not_mem_nil] at hev
  | cons read rest ih =>
    intro count packets ev hev
    simp only [drain_events] at hev
    split_ifs at hev with h1 h2 h3
    · exact ih _ _ ev hev
    · simp only [List.dropLast_single, List.not_mem_nil] at hev
    · simp only [List.dropLast_single, List.not_mem_nil] at hev
    · cases hrest : drain_events E (count + 1)
          (Function.update packets count
            (__response_handler_packet E read.1 read.2 (packets count)).2) rest with
      | nil =>
        rw [hrest] at hev
        simp only [List.dropLast_single, List.not_mem_nil] at hev
      | cons x xs =>
        rw [hrest, List.dropLast_cons₂, List.mem_cons] at hev
        rcases hev with hev | hev
        · rw [hev]; exact h3
        · have := ih (count + 1) _ ev (by rw [hrest]; exact hev)
          exact this

theorem response_frame_refl (a : iris_hfi_device) : response_frame a a :=
  ⟨rfl, rfl, rfl, rfl, rfl, rfl⟩

theorem response_frame_trace (a d : iris_hfi_device) (t : List hw_event)
    (ht : callbacks_of t = []) (h : response_frame a d) :
    response_frame a { d with trace := d.trace ++ t } := by
  obtain ⟨h1, h2, h3, h4, h5, h6⟩ := h
  refine ⟨h1, h2, h3, h4, h5, ?_⟩
  simp only [callbacks_of_append, ht, List.append_nil, h6]

theorem response_handler_exit_spec (E : hfi_platform) (a : iris_hfi_device)
    (s : response_state) (kd fuel : Nat)
    (hd : queue_depth E.CVP_IFACEQ_VAR_HUGE_PKT_SIZE E.HFI_Q_ID_CTRL_TO_HOST_MSG_Q kd
      s.device.iface_dbgq = true)
    (hf : kd < fuel) (hfr : response_frame a s.device) :
    ∃ d2, __response_handler_exit E fuel s = some (s.packet_count, d2) ∧
      d2.response_pkt = some s.packets ∧ response_frame a d2 ∧
      d2.iface_msgq = s.device.iface_msgq := by
  obtain ⟨f, hfl, hI⟩ := flush_debug_queue_spec E
    (fun d => response_frame a d ∧ d.iface_msgq = s.device.iface_msgq)
    (fun d q t ht h => ⟨response_frame_trace a { d with iface_dbgq := q } t ht h.1, h.2⟩)
    kd s.device s.raw_packet hd ⟨hfr, rfl⟩ fuel hf
  simp only [__response_handler_exit, hfl]
  exact ⟨_, rfl, rfl, hI.1, hI.2⟩

theorem response_handler_fatal_spec (E : hfi_platform) (device : iris_hfi_device)
    (raw : Nat → Nat) (packets : Nat → msm_cvp_cb_info) (kd fuel : Nat)
    (hstate : device.state = E.IRIS_STATE_INIT)
    (hraw : device.raw_packet = some raw) (hpk : device.response_pkt = some packets)
    (hfatal : u32 device.intr_status &&& E.CVP_FATAL_INTR_BMSK ≠ 0)
    (hd : queue_depth E.CVP_IFACEQ_VAR_HUGE_PKT_SIZE E.HFI_Q_ID_CTRL_TO_HOST_MSG_Q kd
      device.iface_dbgq = true)
    (hf : kd < fuel) :
    ∃ d2, __response_handler E fuel device = some (1, d2) ∧
      d2.response_pkt = some (Function.update packets 0
        ⟨E.HAL_SYS_WATCHDOG_TIMEOUT, device.device_id, 0, 0⟩) ∧
      response_frame device d2 ∧ d2.iface_msgq = device.iface_msgq := by
  have h := response_handler_exit_spec E device
    ⟨device, raw, Function.update packets 0
      ⟨E.HAL_SYS_WATCHDOG_TIMEOUT, device.device_id, 0, 0⟩, 1⟩ kd fuel hd hf
    (response_frame_refl device)
  simp only [__response_handler, hstate, ne_eq, not_true_eq_false, if_false, hraw, hpk]
  rw [if_pos hfatal]
  exact h

theorem response_handler_drain_case (E : hfi_platform) (device : iris_hfi_device)
    (raw : Nat → Nat) (packets : Nat → msm_cvp_cb_info) (km kd fuel : Nat)
    (hstate : device.state = E.IRIS_STATE_INIT)
    (hraw : device.raw_packet = some raw) (hpk : device.response_pkt = some packets)
    (hnf : u32 device.intr_status &&& E.CVP_FATAL_INTR_BMSK = 0)
    (hm : msgq_depth E km device raw = true)
    (hd : queue_depth E.CVP_IFACEQ_VAR_HUGE_PKT_SIZE E.HFI_Q_ID_CTRL_TO_HOST_MSG_Q kd
      device.iface_dbgq = true)
    (hfm : km < fuel) (hfd : kd < fuel) :
    ∃ d2 packets2,
      __response_handler E fuel device
        = some ((drain_events E 0 packets (msgq_reads E km device raw)).length, d2) ∧
      d2.response_pkt = some packets2 ∧
      (List.range (drain_events E 0 packets (msgq_reads E km device raw)).length).map packets2
        = drain_events E 0 packets (msgq_reads E km device raw) ∧
      response_frame device d2 := by
  obtain ⟨s2, hs2, ⟨hfr, hdbg⟩, hb⟩ := response_handler_drain_spec E
    (fun d => response_frame device d ∧ d.iface_dbgq = device.iface_dbgq)
    (fun d q t ht h => ⟨response_frame_trace device { d with iface_msgq := q } t ht h.1, h.2⟩)
    km ⟨device, raw, packets, 0⟩ hm ⟨response_frame_refl device, rfl⟩ fuel hfm
  simp only [List.range_zero, List.map_nil, List.nil_append] at hb
  have hlen : s2.packet_count
      = (drain_events E 0 packets (msgq_reads E km device raw)).length := by
    have := congrArg List.length hb
    simpa using this
  simp only [__response_handler, hstate, ne_eq, not_true_eq_false, if_false, hraw, hpk, hnf,
    hs2]
  split_ifs with hsw
  · obtain ⟨d2, h1, h2, h3, -⟩ := response_handler_exit_spec E device
      { s2 with device := { s2.device with
          trace := s2.device.trace ++ [hw_event.cancel_delayed_work,
            hw_event.queue_delayed_work s2.device.res.msm_cvp_pwr_collapse_delay] } }
      kd fuel (by rw [← hdbg] at hd; exact hd) hfd
      (response_frame_trace device s2.device _ rfl hfr)
    rw [h1]
    refine ⟨d2, s2.packets, by rw [hlen], h2, ?_, h3⟩
    rw [← hlen]; exact hb
  · obtain ⟨d2, h1, h2, h3, -⟩ := response_handler_exit_spec E device s2
      kd fuel (by rw [← hdbg] at hd; exact hd) hfd hfr
    rw [h1]
    refine ⟨d2, s2.packets, by rw [hlen], h2, ?_, h3⟩
    rw [← hlen]; exact hb

theorem work_callbacks_succ (E : hfi_platform) (packets : Nat → msm_cvp_cb_info)
    (n i : Nat) (d : iris_hfi_device) (hpk : d.response_pkt = some packets)
    (hv : __core_in_valid_state E.tocvp_platform d = true) :
    iris_hfi_core_work_callbacks E (n + 1) i d
      = iris_hfi_core_work_callbacks E n (i + 1)
          (E.callback (packets i).response_type (packets i)
            { d with trace := d.trace ++
              [hw_event.callback (packets i).response_type (packets i)] }) := by
  rw [iris_hfi_core_work_callbacks]
  split
  · rename_i heq
    rw [hpk] at heq
    exact absurd heq (by simp)
  · rename_i p heq
    rw [hpk] at heq
    simp only [Option.some.injEq] at heq
    subst heq
    rw [if_neg (by simp only [hv, Bool.not_true, Bool.false_eq_true, not_false_eq_true])]

theorem work_callbacks_stop (E : hfi_platform) (n i : Nat) (d : iris_hfi_device)
    (hv : ¬ __core_in_valid_state E.tocvp_platform d = true) :
    iris_hfi_core_work_callbacks E n i d = d := by
  cases n with
  | zero => rfl
  | succ n =>
    rw [iris_hfi_core_work_callbacks]
    split
    · rfl
    · simp only [Bool.not_eq_true] at hv
      rw [if_pos (by simp only [hv, Bool.not_false])]

theorem work_callbacks_spec (E : hfi_platform) (hp : callback_passive E)
    (packets : Nat → msm_cvp_cb_info) :
    ∀ (n i : Nat) (d : iris_hfi_device), d.response_pkt = some packets →
      ∃ m, m ≤ n ∧
        callbacks_of (iris_hfi_core_work_callbacks E n i d).trace
          = callbacks_of d.trace
            ++ (List.range' i m).map (fun j => ((packets j).response_type, packets j)) ∧
        (callback_keeps_core E → __core_in_valid_state E.tocvp_platform d = true → m = n) := by
  intro n
  induction n with
  | zero =>
    intro i d _
    exact ⟨0, Nat.le_refl _, by simp [iris_hfi_core_work_callbacks], fun _ _ => rfl⟩
  | succ n ih =>
    intro i d hpk
    by_cases hv : __core_in_valid_state E.tocvp_platform d = true
    · have hpk2 : (E.callback (packets i).response_type (packets i)
          { d with trace := d.trace ++
            [hw_event.callback (packets i).response_type (packets i)] }).response_pkt
          = some packets := by
        rw [(hp _ _ _).2]; exact hpk
      obtain ⟨m, hm, htr, hall⟩ := ih (i + 1) _ hpk2
      refine ⟨m + 1, by omega, ?_, ?_⟩
      · rw [work_callbacks_succ E packets n i d hpk hv, htr, (hp _ _ _).1]
        simp only [callbacks_of_append, callbacks_of, List.range'_succ, List.map_cons,
          List.append_assoc, List.singleton_append]
      · intro hk _
        have hv2 : __core_in_valid_state E.tocvp_platform
            (E.callback (packets i).response_type (packets i)
              { d with trace := d.trace ++
                [hw_event.callback (packets i).response_type (packets i)] }) = true :=
          hk _ _ _ hv
        rw [hall hk hv2]
    · refine ⟨0, Nat.zero_le _, ?_, fun _ h => absurd h hv⟩
      rw [work_callbacks_stop E (n + 1) i d hv]
      simp only [List.range'_zero, List.map_nil, List.append_nil]

/-- Claim C16. Fatal-interrupt path: for an initialised device with its two
buffers allocated whose latched interrupt status has a bit of
`CVP_FATAL_INTR_BMSK` set, and a debug queue that runs empty after `kd`
packets, `__response_handler` returns 1 with `HAL_SYS_WATCHDOG_TIMEOUT` and
the device id in the first slot of the response array, and leaves the message
queue (header and contents) as it was, whatever the message queue holds. -/
theorem response_handler_fatal (E : hfi_platform) (device : iris_hfi_device)
    (raw : Nat → Nat) (packets : Nat → msm_cvp_cb_info) (kd fuel : Nat)
    (hstate : device.state = E.IRIS_STATE_INIT)
    (hraw : device.raw_packet = some raw) (hpk : device.response_pkt = some packets)
    (hfatal : u32 device.intr_status &&& E.CVP_FATAL_INTR_BMSK ≠ 0)
    (hd : queue_depth E.CVP_IFACEQ_VAR_HUGE_PKT_SIZE E.HFI_Q_ID_CTRL_TO_HOST_MSG_Q kd
      device.iface_dbgq = true)
    (hf : kd < fuel) :
    ∃ d2, __response_handler E fuel device = some (1, d2) ∧
      (d2.response_pkt.map fun p => p 0)
        = some ⟨E.HAL_SYS_WATCHDOG_TIMEOUT, device.device_id, 0, 0⟩ ∧
      d2.iface_msgq = device.iface_msgq := by
  obtain ⟨d2, h1, h2, -, h4⟩ :=
    response_handler_fatal_spec E device raw packets kd fuel hstate hraw hpk hfatal hd hf
  refine ⟨d2, h1, ?_, h4⟩
  rw [h2]
  simp only [Option.map_some', Function.update_same]

/-- Instance of claim C16: the watchdog bit is latched while three packets
are pending in the message queue and one in the debug queue. -/
theorem response_handler_fatal_witness :
    ∃ d2, __response_handler (sample_hfi 0 false 0) 2 (sample_response_device 8)
        = some (1, d2) ∧
      (d2.response_pkt.map fun p => p 0)
        = some ⟨(sample_hfi 0 false 0).HAL_SYS_WATCHDOG_TIMEOUT,
            (sample_response_device 8).device_id, 0, 0⟩ ∧
      d2.iface_msgq = (sample_response_device 8).iface_msgq :=
  response_handler_fatal (sample_hfi 0 false 0) (sample_response_device 8) (fun _ => 0)
    (fun _ => ⟨0, 0, 0, 0⟩) 1 2 rfl rfl rfl (by decide) (by decide) (by decide)

/-- Claim C17. No response for a torn-down session.  A packet is not kept
when the decoder fails, when the decoded type is `HAL_NO_RESP`, or when the
type has a session id and `__get_session` finds no session for it; a packet
that is not kept adds nothing to the events of a drain.  And for an
initialised device with its buffers allocated, whose message queue runs empty
after `km` packets and whose debug queue after `kd`, `__response_handler`
returns a batch in which every event whose type has a session id carries the
`session_id` of a session that is in the list of the device. -/
theorem response_session_resolved (E : hfi_platform) (device : iris_hfi_device)
    (raw : Nat → Nat) (packets : Nat → msm_cvp_cb_info) (km kd fuel : Nat)
    (hstate : device.state = E.IRIS_STATE_INIT)
    (hraw : device.raw_packet = some raw) (hpk : device.response_pkt = some packets)
    (hwd : get_session_id E ⟨E.HAL_SYS_WATCHDOG_TIMEOUT, device.device_id, 0, 0⟩ = none)
    (hm : msgq_depth E km device raw = true)
    (hd : queue_depth E.CVP_IFACEQ_VAR_HUGE_PKT_SIZE E.HFI_Q_ID_CTRL_TO_HOST_MSG_Q kd
      device.iface_dbgq = true)
    (hfm : km < fuel) (hfd : kd < fuel) :
    (∀ (d : iris_hfi_device) (r : Nat → Nat) (info : msm_cvp_cb_info),
      ((E.cvp_hfi_process_msg_packet d.device_id r info).1 ≠ 0 →
        (__response_handler_packet E d r info).1 = false) ∧
      ((E.cvp_hfi_process_msg_packet d.device_id r info).2.response_type = E.HAL_NO_RESP →
        (__response_handler_packet E d r info).1 = false) ∧
      (∀ id, get_session_id E
          (process_system_msg E (E.cvp_hfi_process_msg_packet d.device_id r info).2 d r)
            = some id →
        __get_session E d (u32 id) = none →
        (__response_handler_packet E d r info).1 = false)) ∧
    (∀ (count : Nat) (slots : Nat → msm_cvp_cb_info) (read : iris_hfi_device × (Nat → Nat))
        (rest : List (iris_hfi_device × (Nat → Nat))),
      (__response_handler_packet E read.1 read.2 (slots count)).1 = false →
      drain_events E count slots (read :: rest)
        = drain_events E count
            (Function.update slots count
              (__response_handler_packet E read.1 read.2 (slots count)).2) rest) ∧
    ∃ n d2 packets2,
      __response_handler E fuel device = some (n, d2) ∧
      d2.response_pkt = some packets2 ∧
      ∀ i, i < n → get_session_id E (packets2 i) ≠ none →
        ∃ s, s ∈ device.sess_head ∧ (packets2 i).session_id = s.session_id := by
  refine ⟨?_, ?_, ?_⟩
  · intro d r info
    refine ⟨?_, ?_, ?_⟩
    · intro h
      simp only [__response_handler_packet, h, ne_eq, not_false_eq_true, if_true]
    · intro h
      simp only [__response_handler_packet, h, if_true, ite_self]
    · intro id hid hnone
      simp only [__response_handler_packet, hid, hnone]
      split_ifs <;> rfl
  · intro count slots read rest h
    simp only [drain_events, h, Bool.not_false, if_true]
  · by_cases hfatal : u32 device.intr_status &&& E.CVP_FATAL_INTR_BMSK = 0
    · obtain ⟨d2, packets2, h1, h2, h3, -⟩ :=
        response_handler_drain_case E device raw packets km kd fuel hstate hraw hpk hfatal
          hm hd hfm hfd
      refine ⟨_, d2, packets2, h1, h2, ?_⟩
      intro i hi hkind
      have hmem : packets2 i ∈ drain_events E 0 packets (msgq_reads E km device raw) := by
        rw [← h3]
        exact List.mem_map.mpr ⟨i, List.mem_range.mpr hi, rfl⟩
      exact drain_events_session E device.sess_head _ 0 packets
        (msgq_reads_preserve E (fun d => d.sess_head = device.sess_head)
          (fun _ _ _ _ h => h) km device raw rfl) _ hmem hkind
    · obtain ⟨d2, h1, h2, -, -⟩ :=
        response_handler_fatal_spec E device raw packets kd fuel hstate hraw hpk hfatal hd hfd
      refine ⟨1, d2, _, h1, h2, ?_⟩
      intro i hi hkind
      have hi0 : i = 0 := by omega
      subst hi0
      rw [Function.update_same] at hkind
      exact absurd hwd hkind

/-- Instance of claim C17: of the three packets pending the third names a
session that is not in the list. -/
theorem response_session_resolved_witness :
    ∃ n d2 packets2,
      __response_handler (sample_hfi 0 false 0) 4 (sample_response_device 0) = some (n, d2) ∧
      d2.response_pkt = some packets2 ∧
      ∀ i, i < n → get_session_id (sample_hfi 0 false 0) (packets2 i) ≠ none →
        ∃ s, s ∈ (sample_response_device 0).sess_head ∧
          (packets2 i).session_id = s.session_id :=
  (response_session_resolved (sample_hfi 0 false 0) (sample_response_device 0) (fun _ => 0)
    (fun _ => ⟨0, 0, 0, 0⟩) 3 1 4 rfl rfl rfl (by decide) (by decide) (by decide)
    (by decide) (by decide)).2.2

/-- Claim C14, as stated, fails: the loop that issues the callbacks stops as
soon as the core has left the valid state.  Here the locked part of the work
handler returns a batch of two events, the first callback de-initialises the
core, and the second event is never delivered. -/
theorem work_handler_dispatch_counterexample :
    ((iris_hfi_core_work_locked sample_hfi_releasing sample_resume_callees 4
        (sample_response_device 0)).map
      fun r => (r.1, r.2.response_pkt.map fun p => (List.range r.1).map p))
      = some (2, some [⟨8, 0, 0, 11⟩, ⟨5, 0, 7, 12⟩]) ∧
    ((iris_hfi_core_work_handler sample_hfi_releasing sample_resume_callees 4
        (sample_response_device 0)).map fun d => callbacks_of d.trace)
      = some [(8, ⟨8, 0, 0, 11⟩)] := by
  decide

/-- Claim C14, amended.  For a valid core with a callback whose `__resume`
succeeds, with no fatal interrupt latched, a message queue that runs empty
after `km` packets and a debug queue that does after `kd`, and a callback
that does not call back into the dispatch: `iris_hfi_core_work_handler`
invokes the callback on the first `m` events of the drain, one invocation per
event and in the order in which their packets were read; `m` is the whole
number of events when no callback takes the core out of the valid state; and
an event of type `HAL_SYS_ERROR` can only be the last event of the drain. -/
theorem work_handler_dispatch (E : hfi_platform) (R : resume_callees)
    (device d0 : iris_hfi_device) (raw : Nat → Nat) (packets : Nat → msm_cvp_cb_info)
    (km kd fuel : Nat)
    (henum : E.IRIS_STATE_INIT ≠ E.IRIS_STATE_DEINIT)
    (hvalid : device.state ≠ E.IRIS_STATE_DEINIT) (hcb : device.callback = true)
    (hres : __resume E R (some device) = (0, some d0))
    (hstate : (__core_clear_interrupt E d0).state = E.IRIS_STATE_INIT)
    (hraw : (__core_clear_interrupt E d0).raw_packet = some raw)
    (hpk : (__core_clear_interrupt E d0).response_pkt = some packets)
    (hnf : u32 (__core_clear_interrupt E d0).intr_status &&& E.CVP_FATAL_INTR_BMSK = 0)
    (hm : msgq_depth E km (__core_clear_interrupt E d0) raw = true)
    (hd : queue_depth E.CVP_IFACEQ_VAR_HUGE_PKT_SIZE E.HFI_Q_ID_CTRL_TO_HOST_MSG_Q kd
      (__core_clear_interrupt E d0).iface_dbgq = true)
    (hfm : km < fuel) (hfd : kd < fuel)
    (hpass : callback_passive E) :
    ∃ d2 m,
      iris_hfi_core_work_handler E R fuel device = some d2 ∧
      m ≤ (drain_events E 0 packets
        (msgq_reads E km (__core_clear_interrupt E d0) raw)).length ∧
      callbacks_of d2.trace
        = callbacks_of (__core_clear_interrupt E d0).trace
          ++ ((drain_events E 0 packets
                (msgq_reads E km (__core_clear_interrupt E d0) raw)).take m).map
              (fun ev => (ev.response_type, ev)) ∧
      (callback_keeps_core E →
        m = (drain_events E 0 packets
          (msgq_reads E km (__core_clear_interrupt E d0) raw)).length) ∧
      ∀ ev, ev ∈ (drain_events E 0 packets
          (msgq_reads E km (__core_clear_interrupt E d0) raw)).dropLast →
        ev.response_type ≠ E.HAL_SYS_ERROR := by
  obtain ⟨d1, packets2, h1, h2, h3, hfr⟩ :=
    response_handler_drain_case E (__core_clear_interrupt E d0) raw packets km kd fuel
      hstate hraw hpk hnf hm hd hfm hfd
  have hsys := drain_events_sys_error E (msgq_reads E km (__core_clear_interrupt E d0) raw)
    0 packets
  generalize drain_events E 0 packets (msgq_reads E km (__core_clear_interrupt E d0) raw)
    = events at *
  have hv : __core_in_valid_state E.tocvp_platform device = true := by
    simp only [__core_in_valid_state, decide_eq_true_eq]; exact hvalid
  have hlocked : iris_hfi_core_work_locked E R fuel device = some (events.length, d1) := by
    simp only [iris_hfi_core_work_locked, hv, hcb, hres, dev_of, Option.getD_some,
      Bool.not_true, Bool.false_eq_true, if_false, ne_eq, not_true_eq_false, h1]
  obtain ⟨m, hm1, hm2, hm3⟩ := work_callbacks_spec E hpass packets2 events.length 0 d1 h2
  have hv1 : __core_in_valid_state E.tocvp_platform d1 = true := by
    simp only [__core_in_valid_state, decide_eq_true_eq, hfr.2.1, hstate]
    exact henum
  have htake : (List.range' 0 m).map (fun j => ((packets2 j).response_type, packets2 j))
      = (events.take m).map (fun ev => (ev.response_type, ev)) := by
    rw [← h3, ← List.map_take, List.take_range, Nat.min_eq_left hm1, List.map_map,
      ← List.range_eq_range']
    rfl
  have hend : ∃ d2, iris_hfi_core_work_handler E R fuel device = some d2 ∧
      callbacks_of d2.trace
        = callbacks_of (iris_hfi_core_work_callbacks E events.length 0 d1).trace := by
    simp only [iris_hfi_core_work_handler, hlocked]
    split_ifs
    · exact ⟨_, rfl, by simp only [callbacks_of_append, callbacks_of, List.append_nil]⟩
    · exact ⟨_, rfl, rfl⟩
  obtain ⟨d2, hd2, htr⟩ := hend
  refine ⟨d2, m, hd2, hm1, ?_, fun hk => hm3 hk hv1, hsys⟩
  rw [htr, hm2, htake, hfr.2.2.2.2.2]

/-- Instance of the amended claim C14: three packets pending, two of them
kept, and a callback that leaves the device alone. -/
theorem work_handler_dispatch_witness :
    ∃ d2 m,
      iris_hfi_core_work_handler (sample_hfi 0 false 0) sample_resume_callees 4
        (sample_response_device 0) = some d2 ∧
      m ≤ 2 ∧
      (callback_keeps_core (sample_hfi 0 false 0) → m = 2) :=
  let ⟨d2, m, h1, h2, _, h4, _⟩ :=
    work_handler_dispatch (sample_hfi 0 false 0) sample_resume_callees
      (sample_response_device 0) _ (fun _ => 0) (fun _ => ⟨0, 0, 0, 0⟩) 3 1 4
      (by decide) (by decide) rfl
      (resume_powered (sample_hfi 0 false 0) sample_resume_callees _ rfl)
      rfl rfl rfl (by decide) (by decide) (by decide) (by decide) (by decide)
      (fun _ _ _ => ⟨rfl, rfl⟩)
  ⟨d2, m, h1, h2, h4⟩

/-! ### Core initialisation -/

theorem acquisitions_append (a b : List hw_event) :
    acquisitions (a ++ b) = acquisitions a ++ acquisitions b := by
  induction a with
  | nil => rfl
  | cons x l ih => cases x <;> simp [acquisitions, ih]

theorem read_register_acquisitions (P : cvp_platform) (d : iris_hfi_device) (reg : Nat) :
    acquisitions (__read_register P d reg).2.trace = acquisitions d.trace := by
  simp only [__read_register]
  split_ifs
  · simp only [acquisitions_append, acquisitions, List.append_nil]
  · rfl

theorem write_register_acquisitions (d : iris_hfi_device) (reg value : Nat) :
    acquisitions (__write_register d reg value).trace = acquisitions d.trace := by
  simp only [__write_register]
  split_ifs <;> simp only [acquisitions_append, acquisitions, List.append_nil]

theorem resume_acquisitions (E : hfi_platform) (R : resume_callees)
    (hR : resume_records_no_step R) (dev : iris_hfi_device) :
    acquisitions (dev_of (__resume E R (some dev)).2 dev).trace = acquisitions dev.trace := by
  have h1 := fun d => (hR d).1
  have h2 := fun d => (hR d).2.1
  have h3 := fun d => (hR d).2.2.1
  have h4 := fun d => (hR d).2.2.2.1
  have h5 := fun d => (hR d).2.2.2.2.1
  have h6 := fun d => (hR d).2.2.2.2.2.1
  have h7 := fun d => (hR d).2.2.2.2.2.2.1
  have h8 := fun d => (hR d).2.2.2.2.2.2.2.1
  have h9 := fun d => (hR d).2.2.2.2.2.2.2.2.1
  have h10 := fun d => (hR d).2.2.2.2.2.2.2.2.2.1
  have h11 := fun d => (hR d).2.2.2.2.2.2.2.2.2.2.1
  have h12 := fun d => (hR d).2.2.2.2.2.2.2.2.2.2.2
  simp only [__resume, __resume_exit]
  split_ifs <;>
    simp only [dev_of, Option.getD_some, h1, h2, h3, h4, h5, h6, h7, h8, h9, h10, h11, h12,
      read_register_acquisitions]

theorem cmdq_write_acquisitions (E : hfi_platform) (R : resume_callees)
    (hR : resume_records_no_step R) (dev : iris_hfi_device) (pkt : Nat → Nat) :
    acquisitions (dev_of (__iface_cmdq_write E R (some dev) (some pkt)).2 dev).trace
      = acquisitions dev.trace := by
  have hres := resume_acquisitions E R hR { dev with last_packet_type := E.packet_type pkt }
  simp only [__iface_cmdq_write, __iface_cmdq_write_relaxed]
  split_ifs <;>
    simp only [dev_of, Option.getD_some, Option.map_some', write_register_acquisitions,
      acquisitions_append, acquisitions, List.append_nil] <;>
    first
      | rfl
      | exact hres

theorem record_step_acquisitions (d : iris_hfi_device) (step : init_step) :
    acquisitions (record_step d step).trace = acquisitions d.trace ++ [step] := by
  simp only [record_step, acquisitions_append, acquisitions]

theorem load_fw_acquisitions (C : core_init_callees) (R : resume_callees)
    (hC : records_no_step C) (hR : resume_records_no_step R) (d : iris_hfi_device)
    (h : (__load_fw C R d).1 = 0) :
    acquisitions (__load_fw C R d).2.trace
      = acquisitions d.trace ++ [init_step.init_resources]
        ++ (if C.load_fw_required then [init_step.load_cvp_fw_impl] else []) := by
  have c1 := fun d => (hC d).1
  have c2 := fun d => (hC d).2.1
  have c3 := fun d => (hC d).2.2.1
  have r1 := fun d => (hR d).1
  by_cases h1 : (C.__init_resources (record_step d init_step.init_resources)).1 = 0
  swap
  · simp only [__load_fw, ne_eq, h1, not_false_eq_true, if_true] at h
  by_cases h2 : (C.__initialize_packetization
      (C.__init_resources (record_step d init_step.init_resources)).2).1 = 0
  swap
  · simp only [__load_fw, ne_eq, h1, h2, not_true_eq_false, not_false_eq_true, if_true,
      if_false] at h
  by_cases h3 : (R.__iris_power_on (C.__initialize_packetization
      (C.__init_resources (record_step d init_step.init_resources)).2).2).1 = 0
  swap
  · simp only [__load_fw, ne_eq, h1, h2, h3, not_true_eq_false, not_false_eq_true, if_true,
      if_false] at h
  by_cases h4 : C.load_fw_required = true
  · by_cases h5 : (C.load_cvp_fw_impl (record_step (R.__iris_power_on
        (C.__initialize_packetization
          (C.__init_resources (record_step d init_step.init_resources)).2).2).2
        init_step.load_cvp_fw_impl)).1 = 0
    · simp only [__load_fw, ne_eq, h1, h2, h3, h4, h5, not_true_eq_false, if_true, if_false,
        c1, c2, c3, r1, record_step_acquisitions]
    · simp only [__load_fw, ne_eq, h1, h2, h3, h4, h5, not_true_eq_false, not_false_eq_true,
        if_true, if_false] at h
  · simp only [__load_fw, ne_eq, h1, h2, h3, h4, not_true_eq_false, if_false,
      Bool.false_eq_true, c1, c2, r1, record_step_acquisitions, List.append_nil]

theorem core_init_finish_acquisitions (E : hfi_platform) (C : core_init_callees)
    (R : resume_callees) (hC : records_no_step C) (hR : resume_records_no_step R)
    (d : iris_hfi_device) :
    (__core_init_finish E C R d).1 = 0 ∧
    acquisitions (dev_of (__core_init_finish E C R d).2 d).trace = acquisitions d.trace := by
  have c7 := fun d => (hC d).2.2.2.2.2.2.1
  have c8 := fun d => (hC d).2.2.2.2.2.2.2.1
  have c9 := fun d => (hC d).2.2.2.2.2.2.2.2.1
  have c10 := fun d => (hC d).2.2.2.2.2.2.2.2.2
  have r8 := fun d => (hR d).2.2.2.2.2.2.2.1
  have r9 := fun d => (hR d).2.2.2.2.2.2.2.2.1
  have r10 := fun d => (hR d).2.2.2.2.2.2.2.2.2.1
  have hw := cmdq_write_acquisitions E R hR d C.sys_image_version.2
  refine ⟨rfl, ?_⟩
  simp only [__core_init_finish]
  split_ifs <;>
    simp only [dev_of, Option.getD_some, c7, c8, c9, c10, r8, r9, r10] <;>
    first
      | rfl
      | exact hw

theorem core_init_boot_acquisitions (E : hfi_platform) (C : core_init_callees)
    (R : resume_callees) (hC : records_no_step C) (hR : resume_records_no_step R)
    (d : iris_hfi_device) (h : (__core_init_boot E C R d).1 = 0) :
    acquisitions (dev_of (__core_init_boot E C R d).2 d).trace
      = acquisitions d.trace ++ [init_step.interface_queues_init] := by
  have c5 := fun d => (hC d).2.2.2.2.1
  have c6 := fun d => (hC d).2.2.2.2.2.1
  have r4 := fun d => (hR d).2.2.2.1
  have hne1 : (-ENOMEM : Int) ≠ 0 := by decide
  have hne2 : (-ENODEV : Int) ≠ 0 := by decide
  have hne3 : (-ENOTEMPTY : Int) ≠ 0 := by decide
  by_cases h1 : (C.__interface_queues_init (record_step { d with state := E.IRIS_STATE_INIT }
      init_step.interface_queues_init)).1 = 0
  swap
  · simp only [__core_init_boot, __core_init_fail, ne_eq, h1, not_false_eq_true, if_true] at h
    exact absurd h hne1
  simp only [__core_init_boot, ne_eq, h1, not_true_eq_false, if_false] at h ⊢
  generalize hq : (C.__interface_queues_init (record_step { d with state := E.IRIS_STATE_INIT }
      init_step.interface_queues_init)).2 = q at h ⊢
  have hqa : acquisitions q.trace = acquisitions d.trace ++ [init_step.interface_queues_init] := by
    rw [← hq, c5, record_step_acquisitions]
  generalize hm : (if C.msm_cvp_map_ipcc_regs.1 = 0 then
      __write_register (C.add_va_md_nodes q) C.CVP_MMAP_ADDR (u32 C.msm_cvp_map_ipcc_regs.2)
    else C.add_va_md_nodes q) = dm at h ⊢
  have hma : acquisitions dm.trace = acquisitions q.trace := by
    rw [← hm]
    split_ifs
    · rw [write_register_acquisitions, c6]
    · rw [c6]
  by_cases h2 : (R.__boot_firmware dm).1 = 0
  swap
  · simp only [__core_init_fail, h2, not_false_eq_true, if_true] at h
    exact absurd h hne2
  simp only [h2, not_true_eq_false, if_false] at h ⊢
  by_cases h3 : C.sys_init.1 = 0
  swap
  · simp only [__core_init_fail, h3, not_false_eq_true, if_true] at h
  simp only [h3, not_true_eq_false, if_false] at h ⊢
  generalize hv : (__read_register E.tocvp_platform (R.__boot_firmware dm).2
    C.CVP_VERSION_INFO).2 = dv at h ⊢
  have hva : acquisitions dv.trace = acquisitions dm.trace := by
    rw [← hv, read_register_acquisitions, r4]
  by_cases h4 : (__iface_cmdq_write E R (some dv) (some C.sys_init.2)).1 = 0
  swap
  · simp only [__core_init_fail, h4, not_false_eq_true, if_true] at h
    exact absurd h hne3
  simp only [h4, not_true_eq_false, if_false] at h ⊢
  have hfin := (core_init_finish_acquisitions E C R hC hR
    (dev_of (__iface_cmdq_write E R (some dv) (some C.sys_init.2)).2 dv)).2
  have hw := cmdq_write_acquisitions E R hR dv C.sys_init.2
  have hsome : ∃ x, (__core_init_finish E C R
      (dev_of (__iface_cmdq_write E R (some dv) (some C.sys_init.2)).2 dv)).2 = some x :=
    ⟨_, rfl⟩
  obtain ⟨x, hx⟩ := hsome
  rw [hx] at hfin ⊢
  simp only [dev_of, Option.getD_some] at hfin ⊢
  rw [hfin]
  simp only [dev_of] at hw
  rw [hw, hva, hma, hqa]

theorem core_init_boot_some (E : hfi_platform) (C : core_init_callees) (R : resume_callees)
    (d : iris_hfi_device) : ∃ x, (__core_init_boot E C R d).2 = some x := by
  apply Option.isSome_iff_exists.mp
  simp only [__core_init_boot, __core_init_fail, __core_init_finish]
  split_ifs <;> rfl

theorem core_init_acquisitions (E : hfi_platform) (C : core_init_callees)
    (R : resume_callees) (hC : records_no_step C) (hR : resume_records_no_step R)
    (dev : iris_hfi_device) (h : (iris_hfi_core_init E C R (some dev)).1 = 0) :
    acquisitions (dev_of (iris_hfi_core_init E C R (some dev)).2 dev).trace
      = acquisitions dev.trace ++ init_acquisitions C := by
  have c4 := fun d => (hC d).2.2.2.1
  have hne1 : (-ENOMEM : Int) ≠ 0 := by decide
  by_cases h1 : C.kzalloc_bus_vote_data = true
  swap
  · simp only [Bool.not_eq_true] at h1
    simp only [iris_hfi_core_init, h1, Bool.not_false, if_true] at h
    exact absurd h hne1
  by_cases h2 : (__load_fw C R (record_step dev init_step.bus_vote_data)).1 = 0
  swap
  · simp only [iris_hfi_core_init, h1, Bool.not_true, Bool.false_eq_true, if_false, ne_eq, h2,
      not_false_eq_true, if_true] at h
  have hl := load_fw_acquisitions C R hC hR _ h2
  rw [record_step_acquisitions] at hl
  simp only [iris_hfi_core_init, h1, Bool.not_true, Bool.false_eq_true, if_false, ne_eq, h2,
    not_true_eq_false] at h ⊢
  by_cases h3 : C.msm_cvp_mmrm_enabled = true
  · simp only [h3, if_true] at h ⊢
    by_cases h4 : (C.msm_cvp_mmrm_register
        (record_step (__load_fw C R (record_step dev init_step.bus_vote_data)).2
          init_step.mmrm_register)).1 = 0
    · simp only [h4, not_true_eq_false, if_false] at h ⊢
      have hb := core_init_boot_acquisitions E C R hC hR _ h
      obtain ⟨x, hx⟩ := core_init_boot_some E C R (C.msm_cvp_mmrm_register
          (record_step (__load_fw C R (record_step dev init_step.bus_vote_data)).2
            init_step.mmrm_register)).2
      rw [hx] at hb ⊢
      simp only [dev_of, Option.getD_some] at hb ⊢
      rw [hb, c4, record_step_acquisitions, hl]
      simp only [init_acquisitions, h3, if_true, List.append_assoc, List.cons_append,
        List.nil_append, List.singleton_append]
    · simp only [__core_init_fail, h4, not_false_eq_true, if_true] at h
  · simp only [h3, if_false, Bool.false_eq_true] at h ⊢
    have hb := core_init_boot_acquisitions E C R hC hR _ h
    obtain ⟨x, hx⟩ := core_init_boot_some E C R
        (__load_fw C R (record_step dev init_step.bus_vote_data)).2
    rw [hx] at hb ⊢
    simp only [dev_of, Option.getD_some] at hb ⊢
    rw [hb, hl]
    simp only [init_acquisitions, h3, if_false, Bool.false_eq_true, List.append_nil,
      List.append_assoc, List.cons_append, List.nil_append, List.singleton_append]

/-- Claim C15, as stated, fails: `iris_hfi_core_init` has no test for a core
that is initialised already.  The first call on a fresh device returns 0 and
leaves the state `IRIS_STATE_INIT`; the second call, with no release in
between, returns 0 as well and has allocated `bus_vote.data`, initialised the
resources, loaded the firmware and allocated the interface queues a second
time. -/
theorem core_init_twice_counterexample :
    (iris_hfi_core_init (sample_hfi 0 false 0) sample_init_callees sample_resume_callees
      (some sample_fresh_device)).1 = 0 ∧
    ((iris_hfi_core_init (sample_hfi 0 false 0) sample_init_callees sample_resume_callees
      (some sample_fresh_device)).2.map fun d => d.state)
      = some (sample_hfi 0 false 0).IRIS_STATE_INIT ∧
    (iris_hfi_core_init (sample_hfi 0 false 0) sample_init_callees sample_resume_callees
      (iris_hfi_core_init (sample_hfi 0 false 0) sample_init_callees sample_resume_callees
        (some sample_fresh_device)).2).1 = 0 ∧
    ((iris_hfi_core_init (sample_hfi 0 false 0) sample_init_callees sample_resume_callees
      (iris_hfi_core_init (sample_hfi 0 false 0) sample_init_callees sample_resume_callees
        (some sample_fresh_device)).2).2.map fun d => acquisitions d.trace)
      = some [init_step.bus_vote_data, init_step.init_resources, init_step.load_cvp_fw_impl,
          init_step.interface_queues_init, init_step.bus_vote_data, init_step.init_resources,
          init_step.load_cvp_fw_impl, init_step.interface_queues_init] := by
  decide

/-- Claim C15, amended: `iris_hfi_core_init` runs the same steps on every
call.  For callees that record no acquiring step themselves, when a call
returns 0 and a second call on the device it left returns 0 again, the second
call has gone through the allocation of `bus_vote.data`, `__init_resources`,
`load_cvp_fw_impl` (where required), `msm_cvp_mmrm_register` (where enabled)
and `__interface_queues_init` once more. -/
theorem core_init_twice (E : hfi_platform) (C : core_init_callees) (R : resume_callees)
    (hC : records_no_step C) (hR : resume_records_no_step R) (dev : iris_hfi_device)
    (h1 : (iris_hfi_core_init E C R (some dev)).1 = 0)
    (h2 : (iris_hfi_core_init E C R
      (some (dev_of (iris_hfi_core_init E C R (some dev)).2 dev))).1 = 0) :
    acquisitions (dev_of (iris_hfi_core_init E C R
        (some (dev_of (iris_hfi_core_init E C R (some dev)).2 dev))).2
        (dev_of (iris_hfi_core_init E C R (some dev)).2 dev)).trace
      = acquisitions dev.trace ++ init_acquisitions C ++ init_acquisitions C := by
  rw [core_init_acquisitions E C R hC hR _ h2, core_init_acquisitions E C R hC hR _ h1]

/-- Instance of the amended claim C15: two calls on a fresh device with
callees that all succeed. -/
theorem core_init_twice_witness :
    acquisitions (dev_of (iris_hfi_core_init (sample_hfi 0 false 0) sample_init_callees
        sample_resume_callees
        (some (dev_of (iris_hfi_core_init (sample_hfi 0 false 0) sample_init_callees
          sample_resume_callees (some sample_fresh_device)).2 sample_fresh_device))).2
        (dev_of (iris_hfi_core_init (sample_hfi 0 false 0) sample_init_callees
          sample_resume_callees (some sample_fresh_device)).2 sample_fresh_device)).trace
      = acquisitions sample_fresh_device.trace ++ init_acquisitions sample_init_callees
        ++ init_acquisitions sample_init_callees :=
  core_init_twice (sample_hfi 0 false 0) sample_init_callees sample_resume_callees
    (fun _ => ⟨rfl, rfl, rfl, rfl, rfl, rfl, rfl, rfl, rfl, rfl⟩)
    (fun _ => ⟨rfl, fun _ => rfl, rfl, rfl, rfl, rfl, fun _ => rfl, rfl, rfl, rfl, rfl, rfl⟩)
    sample_fresh_device (by decide) (by decide)

theorem u32_add32 (a b : Nat) : u32 (add32 a b) = add32 a b := by
  simp only [u32, add32]; omega

theorem u32_sub32 (a b : Nat) : u32 (sub32 a b) = sub32 a b := by
  simp only [u32, sub32]; omega

theorem u32_receive_request (t MSGQ : Nat) :
    u32 (if t &&& MSGQ ≠ 0 then 1 else 0) = 1 ↔ t &&& MSGQ ≠ 0 := by
  by_cases h : t &&& MSGQ = 0
  · simp only [ne_eq, h, not_true_eq_false, if_false, iff_false]; decide
  · simp only [ne_eq, h, not_false_eq_true, if_true, iff_true]; decide

theorem rx_req_iff (queue : cvp_hfi_queue_header) (MSGQ n : Nat) (hn : u32 n = n) :
    (u32 ({ (if n ≠ u32 queue.qhdr_write_idx then { queue with qhdr_rx_req := 0 }
            else { queue with
              qhdr_rx_req := if u32 queue.qhdr_type &&& MSGQ ≠ 0 then 1 else 0 }) with
        qhdr_read_idx := n } : cvp_hfi_queue_header).qhdr_rx_req = 1 ↔
      (u32 queue.qhdr_type &&& MSGQ ≠ 0 ∧
        u32 ({ (if n ≠ u32 queue.qhdr_write_idx then { queue with qhdr_rx_req := 0 }
            else { queue with
              qhdr_rx_req := if u32 queue.qhdr_type &&& MSGQ ≠ 0 then 1 else 0 }) with
          qhdr_read_idx := n } : cvp_hfi_queue_header).qhdr_read_idx
        = u32 ({ (if n ≠ u32 queue.qhdr_write_idx then { queue with qhdr_rx_req := 0 }
            else { queue with
              qhdr_rx_req := if u32 queue.qhdr_type &&& MSGQ ≠ 0 then 1 else 0 }) with
          qhdr_read_idx := n } : cvp_hfi_queue_header).qhdr_write_idx)) := by
  by_cases h1 : n = u32 queue.qhdr_write_idx
  · simp only [ne_eq, h1, not_true_eq_false, if_false, u32_u32, and_true]
    exact u32_receive_request _ _
  · simp only [ne_eq, h1, not_false_eq_true, if_true, hn, and_false, iff_false]
    decide

theorem read_queue_rx_req_aux (HUGE MSGQ : Nat) (queue : cvp_hfi_queue_header)
    (mem : Nat → Nat) (mem_size : Nat) (out : Nat → Nat) (pb : Nat)
    (hreach : u32 queue.qhdr_read_idx = u32 queue.qhdr_write_idx ∨
      (shl2 (u32 queue.qhdr_read_idx) + 4 ≤ u32 mem_size ∧
        shr2 (u32 (mem (shl2 (u32 queue.qhdr_read_idx) / 4))) ≠ 0)) :
    ∃ queue2,
      (__read_queue HUGE MSGQ (some (mk_qinfo queue mem mem_size)) (some out) (some pb)).qinfo
        = some (mk_qinfo queue2 mem mem_size) ∧
      queue2.qhdr_type = queue.qhdr_type ∧
      queue2.qhdr_write_idx = queue.qhdr_write_idx ∧
      (u32 queue2.qhdr_rx_req = 1 ↔
        (u32 queue.qhdr_type &&& MSGQ ≠ 0 ∧
          u32 queue2.qhdr_read_idx = u32 queue2.qhdr_write_idx)) := by
  by_cases hempty : u32 queue.qhdr_read_idx = u32 queue.qhdr_write_idx
  · rw [read_queue_empty HUGE MSGQ queue mem mem_size out pb hempty]
    refine ⟨_, rfl, rfl, rfl, ?_⟩
    simp only [hempty, and_true]
    exact u32_receive_request _ _
  · rcases hreach with h | ⟨hptr, hsize⟩
    · exact absurd h hempty
    have hptr2 : ¬ (shl2 (u32 queue.qhdr_read_idx) + 4 > u32 mem_size) := by omega
    by_cases h3 : shl2 (shr2 (u32 (mem (shl2 (u32 queue.qhdr_read_idx) / 4)))) ≤ HUGE
        ∧ u32 queue.qhdr_read_idx ≤ shr2 (u32 mem_size)
    · by_cases h4 : add32 (u32 queue.qhdr_read_idx)
          (shr2 (u32 (mem (shl2 (u32 queue.qhdr_read_idx) / 4)))) < shr2 (u32 mem_size)
      · simp only [__read_queue, mk_qinfo, hempty, if_false, __read_queue_packet, hptr2, hsize,
          h3, h4, if_true, and_self]
        refine ⟨_, rfl, ?_, ?_, rx_req_iff queue MSGQ _ (u32_add32 _ _)⟩
        · split_ifs <;> rfl
        · split_ifs <;> rfl
      · simp only [__read_queue, mk_qinfo, hempty, if_false, __read_queue_packet, hptr2, hsize,
          h3, h4, if_true, and_self]
        refine ⟨_, rfl, ?_, ?_, rx_req_iff queue MSGQ _ (u32_sub32 _ _)⟩
        · split_ifs <;> rfl
        · split_ifs <;> rfl
    · simp only [__read_queue, mk_qinfo, hempty, if_false, __read_queue_packet, hptr2, hsize,
        h3, if_true]
      refine ⟨_, rfl, ?_, ?_, rx_req_iff queue MSGQ _ (u32_u32 _)⟩
      · split_ifs <;> rfl
      · split_ifs <;> rfl

theorem read_queue_unreached (HUGE MSGQ : Nat) (queue : cvp_hfi_queue_header)
    (mem : Nat → Nat) (mem_size : Nat) (out : Nat → Nat) (pb : Nat)
    (hne : u32 queue.qhdr_read_idx ≠ u32 queue.qhdr_write_idx)
    (hbad : ¬ (shl2 (u32 queue.qhdr_read_idx) + 4 ≤ u32 mem_size ∧
      shr2 (u32 (mem (shl2 (u32 queue.qhdr_read_idx) / 4))) ≠ 0)) :
    __read_queue HUGE MSGQ (some (mk_qinfo queue mem mem_size)) (some out) (some pb)
      = ⟨-ENODATA, some (mk_qinfo queue mem mem_size), some out, some pb⟩ := by
  by_cases hptr : shl2 (u32 queue.qhdr_read_idx) + 4 > u32 mem_size
  · simp only [__read_queue, mk_qinfo, hne, if_false, __read_queue_packet, hptr, if_true]
  · have hz : shr2 (u32 (mem (shl2 (u32 queue.qhdr_read_idx) / 4))) = 0 := by
      by_contra h
      exact hbad ⟨by omega, h⟩
    exact read_queue_zero_size HUGE MSGQ queue mem mem_size out pb hne hz

/-- Claim C22. Arming of the receive request by a read.  For an allocated queue
on which `__read_queue` reports the empty queue, returns a packet or drops a
packet (that is, the queue is empty, or the read pointer and the size word at
the read index pass their checks), the flag `qhdr_rx_req` is 1 afterwards
exactly when the queue type has the bit `HFI_Q_ID_CTRL_TO_HOST_MSG_Q` and the
read index equals the write index; and on a queue without that bit no call of
`__read_queue` leaves `qhdr_rx_req` at 1 unless it was 1 before. -/
theorem read_queue_arms_rx_req (CVP_IFACEQ_VAR_HUGE_PKT_SIZE HFI_Q_ID_CTRL_TO_HOST_MSG_Q : Nat)
    (queue : cvp_hfi_queue_header) (mem : Nat → Nat) (mem_size : Nat)
    (out : Nat → Nat) (pb : Nat)
    (hreach : u32 queue.qhdr_read_idx = u32 queue.qhdr_write_idx ∨
      (shl2 (u32 queue.qhdr_read_idx) + 4 ≤ u32 mem_size ∧
        shr2 (u32 (mem (shl2 (u32 queue.qhdr_read_idx) / 4))) ≠ 0)) :
    (∃ queue2,
      (__read_queue CVP_IFACEQ_VAR_HUGE_PKT_SIZE HFI_Q_ID_CTRL_TO_HOST_MSG_Q
        (some (mk_qinfo queue mem mem_size)) (some out) (some pb)).qinfo
        = some (mk_qinfo queue2 mem mem_size) ∧
      queue2.qhdr_write_idx = queue.qhdr_write_idx ∧
      (u32 queue2.qhdr_rx_req = 1 ↔
        (u32 queue.qhdr_type &&& HFI_Q_ID_CTRL_TO_HOST_MSG_Q ≠ 0 ∧
          u32 queue2.qhdr_read_idx = u32 queue2.qhdr_write_idx))) ∧
    (∀ (q : cvp_hfi_queue_header) (m o : Nat → Nat) (size b : Nat) (q2 : cvp_hfi_queue_header),
      u32 q.qhdr_type &&& HFI_Q_ID_CTRL_TO_HOST_MSG_Q = 0 →
      q_hdr_of (__read_queue CVP_IFACEQ_VAR_HUGE_PKT_SIZE HFI_Q_ID_CTRL_TO_HOST_MSG_Q
        (some (mk_qinfo q m size)) (some o) (some b)).qinfo = some q2 →
      u32 q2.qhdr_rx_req = 1 → u32 q.qhdr_rx_req = 1) := by
  constructor
  · obtain ⟨queue2, h1, -, h3, h4⟩ := read_queue_rx_req_aux CVP_IFACEQ_VAR_HUGE_PKT_SIZE
      HFI_Q_ID_CTRL_TO_HOST_MSG_Q queue mem mem_size out pb hreach
    exact ⟨queue2, h1, h3, h4⟩
  · intro q m o size b q2 hdbg hq2 hrx
    by_cases hr : u32 q.qhdr_read_idx = u32 q.qhdr_write_idx ∨
        (shl2 (u32 q.qhdr_read_idx) + 4 ≤ u32 size ∧
          shr2 (u32 (m (shl2 (u32 q.qhdr_read_idx) / 4))) ≠ 0)
    · obtain ⟨queue2, h1, -, -, h4⟩ := read_queue_rx_req_aux CVP_IFACEQ_VAR_HUGE_PKT_SIZE
        HFI_Q_ID_CTRL_TO_HOST_MSG_Q q m size o b hr
      rw [h1] at hq2
      simp only [q_hdr_of, mk_qinfo, Option.some_bind, Option.some.injEq] at hq2
      subst hq2
      exact absurd hdbg (h4.mp hrx).1
    · have hne : u32 q.qhdr_read_idx ≠ u32 q.qhdr_write_idx := fun h => hr (Or.inl h)
      have hbad : ¬ (shl2 (u32 q.qhdr_read_idx) + 4 ≤ u32 size ∧
          shr2 (u32 (m (shl2 (u32 q.qhdr_read_idx) / 4))) ≠ 0) := fun h => hr (Or.inr h)
      rw [read_queue_unreached CVP_IFACEQ_VAR_HUGE_PKT_SIZE HFI_Q_ID_CTRL_TO_HOST_MSG_Q
        q m size o b hne hbad] at hq2
      simp only [q_hdr_of, mk_qinfo, Option.some_bind, Option.some.injEq] at hq2
      subst hq2
      exact hrx

/-- Instance of claim C22: a message queue of 16 words whose only packet, of
three words, is read, so that the read index reaches the write index. -/
theorem read_queue_arms_rx_req_witness :
    ∃ queue2,
      (__read_queue 12288 1 (some (mk_qinfo ⟨1, 0, 0, 2, 5⟩ (fun _ => 12) 64))
        (some (fun _ => 0)) (some 0)).qinfo
        = some (mk_qinfo queue2 (fun _ => 12) 64) ∧
      queue2.qhdr_write_idx = 5 ∧
      (u32 queue2.qhdr_rx_req = 1 ↔
        (u32 1 &&& 1 ≠ 0 ∧ u32 queue2.qhdr_read_idx = u32 queue2.qhdr_write_idx)) :=
  (read_queue_arms_rx_req 12288 1 ⟨1, 0, 0, 2, 5⟩ (fun _ => 12) 64 (fun _ => 0) 0
    (Or.inr (by decide))).1

/-- Claim C27. A size word below four bytes wedges the reader: on an allocated
queue that is not empty and whose word at the read index has the size field
`size >> 2` equal to 0, `__read_queue` returns `-ENODATA` and leaves the header
(both indices, `rx_req` and `tx_req`), the queue array, the output buffer and
`*pb_tx_req_is_set` as they were; hence any number of further reads return
`-ENODATA` with the same buffer. -/
theorem read_queue_wedged (CVP_IFACEQ_VAR_HUGE_PKT_SIZE HFI_Q_ID_CTRL_TO_HOST_MSG_Q : Nat)
    (queue : cvp_hfi_queue_header) (mem : Nat → Nat) (mem_size : Nat)
    (out : Nat → Nat) (pb : Nat)
    (hne : u32 queue.qhdr_read_idx ≠ u32 queue.qhdr_write_idx)
    (hr : u32 queue.qhdr_read_idx < shr2 (u32 mem_size))
    (hzero : shr2 (u32 (mem (u32 queue.qhdr_read_idx))) = 0) :
    __read_queue CVP_IFACEQ_VAR_HUGE_PKT_SIZE HFI_Q_ID_CTRL_TO_HOST_MSG_Q
        (some (mk_qinfo queue mem mem_size)) (some out) (some pb)
      = ⟨-ENODATA, some (mk_qinfo queue mem mem_size), some out, some pb⟩ ∧
    ∀ n, run_queue CVP_IFACEQ_VAR_HUGE_PKT_SIZE HFI_Q_ID_CTRL_TO_HOST_MSG_Q
        (some (mk_qinfo queue mem mem_size)) (List.replicate n (queue_op.read out pb))
      = List.replicate n (queue_event.got (-ENODATA) (some out)) := by
  have hp : shl2 (u32 queue.qhdr_read_idx) / 4 = u32 queue.qhdr_read_idx := by
    simp only [shl2, shr2, u32] at *; omega
  have h1 := read_queue_zero_size CVP_IFACEQ_VAR_HUGE_PKT_SIZE HFI_Q_ID_CTRL_TO_HOST_MSG_Q
    queue mem mem_size out pb hne (by rw [hp]; exact hzero)
  refine ⟨h1, ?_⟩
  intro n
  induction n with
  | zero => rfl
  | succ n ih =>
    simp only [List.replicate_succ, run_queue, h1, ih]

/-- Instance of claim C27: read index 2, write index 3 and the size word 3
(fewer than four bytes) at index 2. -/
theorem read_queue_wedged_witness :
    __read_queue 12288 1 (some (mk_qinfo ⟨1, 1, 1, 2, 3⟩ (fun _ => 3) 64))
        (some (fun _ => 9)) (some 7)
      = ⟨-ENODATA, some (mk_qinfo ⟨1, 1, 1, 2, 3⟩ (fun _ => 3) 64), some (fun _ => 9),
          some 7⟩ :=
  (read_queue_wedged 12288 1 ⟨1, 1, 1, 2, 3⟩ (fun _ => 3) 64 (fun _ => 9) 7
    (by decide) (by decide) (by decide)).1

/-- Claim C23. A written queue is not empty: for an allocated queue with both
indices below the capacity, after a call of `__write_queue` that returns 0 the
write index differs from the read index; the packet has fewer words than the
capacity, and the words pending before the call and the words of the packet
together stay below the capacity; and whenever the free space computed from
the two indices does not exceed the word count of a packet of admissible
size, the write is refused with `-ENOTEMPTY`. -/
theorem write_queue_never_empty (queue : cvp_hfi_queue_header) (mem : Nat → Nat)
    (mem_size : Nat) (pkt : Nat → Nat)
    (hr : u32 queue.qhdr_read_idx < shr2 (u32 mem_size))
    (hw : u32 queue.qhdr_write_idx < shr2 (u32 mem_size))
    (hrc : (__write_queue (some (mk_qinfo queue mem mem_size)) (some pkt)).rc = 0) :
    (∃ queue2 mem2,
      (__write_queue (some (mk_qinfo queue mem mem_size)) (some pkt)).qinfo
        = some (mk_qinfo queue2 mem2 mem_size) ∧
      queue2.qhdr_read_idx = queue.qhdr_read_idx ∧
      u32 queue2.qhdr_write_idx ≠ u32 queue2.qhdr_read_idx) ∧
    shr2 (u32 (pkt 0)) < shr2 (u32 mem_size) ∧
    (u32 queue.qhdr_write_idx + shr2 (u32 mem_size) - u32 queue.qhdr_read_idx)
        % shr2 (u32 mem_size) + shr2 (u32 (pkt 0)) < shr2 (u32 mem_size) ∧
    (∀ pkt2 : Nat → Nat, shr2 (u32 (pkt2 0)) ≠ 0 →
      shr2 (u32 (pkt2 0)) ≤ shr2 (u32 mem_size) →
      empty_space (shr2 (u32 mem_size)) (u32 queue.qhdr_read_idx)
        (u32 queue.qhdr_write_idx) ≤ shr2 (u32 (pkt2 0)) →
      (__write_queue (some (mk_qinfo queue mem mem_size)) (some pkt2)).rc = -ENOTEMPTY) := by
  obtain ⟨h0, hn, hsp⟩ := write_queue_rc_zero queue mem mem_size pkt hrc
  have hok := write_queue_ok queue mem mem_size pkt h0 hn hsp hw
  have hCb : shr2 (u32 mem_size) < 1073741824 := by simp only [shr2, u32]; omega
  refine ⟨?_, ?_, ?_, ?_⟩
  · rw [hok]
    refine ⟨_, _, rfl, rfl, ?_⟩
    simp only []
    generalize shr2 (u32 mem_size) = C at *
    generalize shr2 (u32 (pkt 0)) = n at *
    generalize u32 queue.qhdr_read_idx = r at *
    generalize u32 queue.qhdr_write_idx = w at *
    simp only [empty_space, sub32] at hsp
    simp only [wrap, u32]
    split_ifs at hsp ⊢ <;> omega
  · generalize shr2 (u32 mem_size) = C at *
    generalize shr2 (u32 (pkt 0)) = n at *
    generalize u32 queue.qhdr_read_idx = r at *
    generalize u32 queue.qhdr_write_idx = w at *
    simp only [empty_space, sub32] at hsp
    split_ifs at hsp <;> omega
  · generalize shr2 (u32 mem_size) = C at *
    generalize shr2 (u32 (pkt 0)) = n at *
    generalize u32 queue.qhdr_read_idx = r at *
    generalize u32 queue.qhdr_write_idx = w at *
    simp only [empty_space, sub32] at hsp
    split_ifs at hsp with hge
    · have e : (w + C - r) % C = w - r := by
        by_cases hwr : w = r
        · subst hwr
          have : w + C - w = C := by omega
          rw [this, Nat.mod_self]; omega
        · have : w + C - r = (w - r) + C := by omega
          rw [this, Nat.add_mod_right, Nat.mod_eq_of_lt (by omega)]
      rw [e]; omega
    · have e : (w + C - r) % C = w + C - r := Nat.mod_eq_of_lt (by omega)
      rw [e]; omega
  · intro pkt2 h02 hn2 hfull
    rw [write_queue_full queue mem mem_size pkt2 h02 hn2 hfull]

/-- Instance of claim C23: a queue of 16 words with read index 2 and write
index 14, and a packet of 3 words, whose write wraps to index 1. -/
theorem write_queue_never_empty_witness :
    (∃ queue2 mem2,
      (__write_queue (some (mk_qinfo ⟨0, 0, 0, 2, 14⟩ (fun _ => 0) 64))
        (some (sample_pkt 3 0))).qinfo = some (mk_qinfo queue2 mem2 64) ∧
      queue2.qhdr_read_idx = 2 ∧
      u32 queue2.qhdr_write_idx ≠ u32 queue2.qhdr_read_idx) ∧
    shr2 (u32 (sample_pkt 3 0 0)) < shr2 (u32 64) :=
  ⟨(write_queue_never_empty ⟨0, 0, 0, 2, 14⟩ (fun _ => 0) 64 (sample_pkt 3 0)
      (by decide) (by decide) (by decide)).1,
    (write_queue_never_empty ⟨0, 0, 0, 2, 14⟩ (fun _ => 0) 64 (sample_pkt 3 0)
      (by decide) (by decide) (by decide)).2.1⟩

/-! ### Ring accesses and the bounds of the buffer -/

theorem write_queue_frame_at_capacity (queue : cvp_hfi_queue_header) (mem : Nat → Nat)
    (mem_size : Nat) (pkt : Nat → Nat)
    (h0 : shr2 (u32 (pkt 0)) ≠ 0)
    (hn : shr2 (u32 (pkt 0)) ≤ shr2 (u32 mem_size))
    (hsp : shr2 (u32 (pkt 0)) < empty_space (shr2 (u32 mem_size))
      (u32 queue.qhdr_read_idx) (u32 queue.qhdr_write_idx))
    (hw : u32 queue.qhdr_write_idx = shr2 (u32 mem_size)) :
    ∃ queue2 mem2,
      (__write_queue (some (mk_qinfo queue mem mem_size)) (some pkt)).qinfo
        = some (mk_qinfo queue2 mem2 mem_size) ∧
      ∀ i, shr2 (u32 (pkt 0)) ≤ i → mem2 i = mem i := by
  have hnot : ¬ (shr2 (u32 (pkt 0)) = 0 ∨ shr2 (u32 (pkt 0)) > shr2 (u32 mem_size)) := by
    omega
  have hsp' : ¬ (empty_space (shr2 (u32 mem_size)) (u32 queue.qhdr_read_idx)
      (u32 queue.qhdr_write_idx) ≤ shr2 (u32 (pkt 0))) := by omega
  have hptr : ¬ (shl2 (u32 queue.qhdr_write_idx) > u32 mem_size) := by
    rw [hw]; simp only [shl2, shr2, u32]; omega
  have hlt : ¬ (add32 (u32 queue.qhdr_write_idx) (shr2 (u32 (pkt 0))) < shr2 (u32 mem_size)) := by
    rw [hw]; simp only [add32, shr2, u32] at *; omega
  have e1 : sub32 (add32 (u32 queue.qhdr_write_idx) (shr2 (u32 (pkt 0)))) (shr2 (u32 mem_size))
      = shr2 (u32 (pkt 0)) := by
    rw [hw]; simp only [sub32, add32, shr2, u32] at *; omega
  simp only [__write_queue, mk_qinfo, hnot, hsp', hptr, hlt, if_true, if_false, e1]
  refine ⟨_, _, rfl, ?_⟩
  intro i hi
  simp only [memcpy, sub32, shl2, shr2, u32] at *
  split_ifs <;> first | rfl | omega

theorem write_queue_frame (queue : cvp_hfi_queue_header) (mem : Nat → Nat)
    (mem_size : Nat) (pkt : Nat → Nat)
    (hw : u32 queue.qhdr_write_idx ≤ shr2 (u32 mem_size)) :
    ∃ queue2 mem2,
      (__write_queue (some (mk_qinfo queue mem mem_size)) (some pkt)).qinfo
        = some (mk_qinfo queue2 mem2 mem_size) ∧
      ∀ i, shr2 (u32 mem_size) ≤ i → mem2 i = mem i := by
  by_cases hbad : shr2 (u32 (pkt 0)) = 0 ∨ shr2 (u32 (pkt 0)) > shr2 (u32 mem_size)
  · rw [write_queue_bad_size queue mem mem_size pkt hbad]
    exact ⟨_, _, rfl, fun _ _ => rfl⟩
  have h0 : shr2 (u32 (pkt 0)) ≠ 0 := fun h => hbad (Or.inl h)
  have hn : shr2 (u32 (pkt 0)) ≤ shr2 (u32 mem_size) := by omega
  by_cases hsp : empty_space (shr2 (u32 mem_size)) (u32 queue.qhdr_read_idx)
      (u32 queue.qhdr_write_idx) ≤ shr2 (u32 (pkt 0))
  · rw [write_queue_full queue mem mem_size pkt h0 hn hsp]
    exact ⟨_, _, rfl, fun _ _ => rfl⟩
  by_cases hlt : u32 queue.qhdr_write_idx < shr2 (u32 mem_size)
  · rw [write_queue_ok queue mem mem_size pkt h0 hn (by omega) hlt]
    refine ⟨_, _, rfl, ?_⟩
    intro i hi
    simp only [ring_store]
    split_ifs <;> first | rfl | omega
  · obtain ⟨queue2, mem2, h1, h2⟩ := write_queue_frame_at_capacity queue mem mem_size pkt
      h0 hn (by omega) (by omega)
    exact ⟨queue2, mem2, h1, fun i hi => h2 i (by omega)⟩

theorem read_queue_packet_bounds (HUGE : Nat) (qi qi2 : cvp_iface_q_info)
    (queue : cvp_hfi_queue_header) (mem mem2 : Nat → Nat) (out : Nat → Nat)
    (pb rr r w : Nat)
    (hsize : qi2.q_array.mem_size = qi.q_array.mem_size)
    (hr : r < 4294967296)
    (hmax : shr2 HUGE ≤ shr2 (u32 qi.q_array.mem_size))
    (hagree : ∀ i, i < shr2 (u32 qi.q_array.mem_size) → mem2 i = mem i) :
    (__read_queue_packet HUGE qi2 queue mem2 out pb rr r w).rc
      = (__read_queue_packet HUGE qi queue mem out pb rr r w).rc ∧
    q_hdr_of (__read_queue_packet HUGE qi2 queue mem2 out pb rr r w).qinfo
      = q_hdr_of (__read_queue_packet HUGE qi queue mem out pb rr r w).qinfo ∧
    (__read_queue_packet HUGE qi2 queue mem2 out pb rr r w).packet
      = (__read_queue_packet HUGE qi queue mem out pb rr r w).packet ∧
    (__read_queue_packet HUGE qi2 queue mem2 out pb rr r w).pb_tx_req_is_set
      = (__read_queue_packet HUGE qi queue mem out pb rr r w).pb_tx_req_is_set ∧
    ∀ o, (__read_queue_packet HUGE qi queue mem out pb rr r w).packet = some o →
      ∀ j, shr2 HUGE ≤ j → o j = out j := by
  generalize hS : u32 qi.q_array.mem_size = S at *
  by_cases h1 : shl2 r + 4 > S
  · simp only [__read_queue_packet, hsize, hS, h1, if_true, q_hdr_of, Option.some_bind,
      Option.some.injEq, true_and]
    intro o ho j _
    rw [← ho]
  have hidx : shl2 r / 4 < shr2 S := by
    simp only [shl2, shr2] at *; omega
  have hword : mem2 (shl2 r / 4) = mem (shl2 r / 4) := hagree _ hidx
  by_cases h2 : shr2 (u32 (mem (shl2 r / 4))) = 0
  · simp only [__read_queue_packet, hsize, hS, h1, hword, h2, if_true, if_false, q_hdr_of,
      Option.some_bind, Option.some.injEq, true_and]
    intro o ho j _
    rw [← ho]
  generalize hN : shr2 (u32 (mem (shl2 r / 4))) = n at *
  by_cases h3 : shl2 n ≤ HUGE ∧ r ≤ shr2 S
  swap
  · simp only [__read_queue_packet, hsize, hS, h1, hword, hN, h2, h3, if_false, q_hdr_of,
      Option.some_bind, Option.some.injEq, true_and]
    intro o ho j _
    rw [← ho]
  have hSb : S < 4294967296 := by rw [← hS]; simp only [u32]; omega
  have hnb : n < 1073741824 := by rw [← hN]; simp only [shr2, u32]; omega
  have hrS : r < shr2 S := by simp only [shl2, shr2] at *; omega
  have hnH : n ≤ shr2 HUGE := by simp only [shl2, shr2] at *; omega
  by_cases h4 : add32 r n < shr2 S
  · have hcopy : memcpy out 0 mem2 (shl2 r) (shl2 n) = memcpy out 0 mem (shl2 r) (shl2 n) := by
      funext j
      simp only [memcpy]
      split_ifs with hc
      · apply hagree
        simp only [shl2, shr2, add32] at *; omega
      · rfl
    simp only [__read_queue_packet, hsize, hS, h1, hword, hN, h2, h3, h4, if_true, if_false,
      and_self, hcopy, q_hdr_of, Option.some_bind, Option.some.injEq, true_and]
    intro o ho j hj
    rw [← ho]
    simp only [memcpy]
    split_ifs with hc
    · exfalso; simp only [shl2, shr2] at *; omega
    · rfl
  · have e1 : sub32 (add32 r n) (shr2 S) = r + n - shr2 S := by
      simp only [sub32, add32, shr2] at *; omega
    have e2 : sub32 n (r + n - shr2 S) = shr2 S - r := by
      simp only [sub32, add32, shr2] at *; omega
    have hcopy : memcpy (memcpy out 0 mem2 (shl2 r) (shl2 (shr2 S - r)))
          (shl2 (shr2 S - r)) mem2 0 (shl2 (r + n - shr2 S))
        = memcpy (memcpy out 0 mem (shl2 r) (shl2 (shr2 S - r)))
          (shl2 (shr2 S - r)) mem 0 (shl2 (r + n - shr2 S)) := by
      funext j
      simp only [memcpy]
      split_ifs with hc hd
      · apply hagree
        simp only [shl2, shr2, add32] at *; omega
      · apply hagree
        simp only [shl2, shr2, add32] at *; omega
      · rfl
    simp only [__read_queue_packet, hsize, hS, h1, hword, hN, h2, h3, h4, if_true, if_false,
      and_self, e1, e2, hcopy, q_hdr_of, Option.some_bind, Option.some.injEq, true_and]
    intro o ho j hj
    rw [← ho]
    simp only [memcpy]
    split_ifs with hc hd
    · exfalso; simp only [shl2, shr2, add32] at *; omega
    · exfalso; simp only [shl2, shr2, add32] at *; omega
    · rfl

theorem read_queue_bounds (HUGE MSGQ : Nat) (queue : cvp_hfi_queue_header)
    (mem mem2 : Nat → Nat) (mem_size : Nat) (out : Nat → Nat) (pb : Nat)
    (hmax : shr2 HUGE ≤ shr2 (u32 mem_size))
    (hagree : ∀ i, i < shr2 (u32 mem_size) → mem2 i = mem i) :
    (__read_queue HUGE MSGQ (some (mk_qinfo queue mem2 mem_size)) (some out) (some pb)).rc
      = (__read_queue HUGE MSGQ (some (mk_qinfo queue mem mem_size)) (some out) (some pb)).rc ∧
    q_hdr_of
        (__read_queue HUGE MSGQ (some (mk_qinfo queue mem2 mem_size)) (some out) (some pb)).qinfo
      = q_hdr_of
        (__read_queue HUGE MSGQ (some (mk_qinfo queue mem mem_size)) (some out)
          (some pb)).qinfo ∧
    (__read_queue HUGE MSGQ (some (mk_qinfo queue mem2 mem_size)) (some out) (some pb)).packet
      = (__read_queue HUGE MSGQ (some (mk_qinfo queue mem mem_size)) (some out)
          (some pb)).packet ∧
    (__read_queue HUGE MSGQ (some (mk_qinfo queue mem2 mem_size)) (some out)
        (some pb)).pb_tx_req_is_set
      = (__read_queue HUGE MSGQ (some (mk_qinfo queue mem mem_size)) (some out)
          (some pb)).pb_tx_req_is_set ∧
    ∀ o, (__read_queue HUGE MSGQ (some (mk_qinfo queue mem mem_size)) (some out)
        (some pb)).packet = some o →
      ∀ j, shr2 HUGE ≤ j → o j = out j := by
  by_cases hempty : u32 queue.qhdr_read_idx = u32 queue.qhdr_write_idx
  · simp only [__read_queue, mk_qinfo, hempty, if_true, ne_eq, not_true_eq_false, if_false,
      q_hdr_of, Option.some_bind, Option.some.injEq, true_and]
    intro o ho j _
    rw [← ho]
  · simp only [__read_queue, mk_qinfo, hempty, if_false]
    exact read_queue_packet_bounds HUGE ⟨some queue, ⟨some mem, mem_size⟩⟩
      ⟨some queue, ⟨some mem2, mem_size⟩⟩ queue mem mem2 out pb _ _ _ rfl
      (by simp only [u32]; omega) hmax hagree

/-- Claim C26, at the input where the code misses it, with the part of the
claim that holds.  First four conjuncts: for a write index of `2 ^ 30` on a
queue of 16 words (64 bytes) the shift `write_idx << 2` wraps to 0 in 32 bits,
so the pointer check of lines 434-441 admits the index, the packet of 2 words
is accepted with return code 0, the new write index is `2 ^ 30 - 14`, and the
second `memcpy` of the wrap-around branch stores `2 ^ 30 - 14` words from the
base of the array: the words at the offsets 16, 100 and `2 ^ 30 - 15`, beyond
the 16 words of the buffer, are overwritten.  Fifth conjunct: for a write
index up to the capacity, the boundary included, no call of `__write_queue`
changes a word at an offset from the capacity on.  Sixth conjunct: when the
maximum packet size does not exceed the capacity, a call of `__read_queue`
gives the same result whatever lies at offsets from the capacity on (it loads
nothing there) and leaves the caller's buffer as it was from the offset of
`CVP_IFACEQ_VAR_HUGE_PKT_SIZE` bytes on. -/
theorem write_queue_out_of_bounds :
    (shr2 (u32 64) = 16 ∧ shl2 (u32 1073741824) = 0) ∧
    (__write_queue (some (mk_qinfo ⟨0, 0, 0, 0, 1073741824⟩ (fun _ => 0) 64))
      (some (sample_pkt 2 7))).rc = 0 ∧
    q_hdr_of (__write_queue (some (mk_qinfo ⟨0, 0, 0, 0, 1073741824⟩ (fun _ => 0) 64))
      (some (sample_pkt 2 7))).qinfo = some ⟨0, 0, 0, 0, 1073741810⟩ ∧
    ((q_mem_of (__write_queue (some (mk_qinfo ⟨0, 0, 0, 0, 1073741824⟩ (fun _ => 0) 64))
      (some (sample_pkt 2 7))).qinfo).map fun m => [m 16, m 100, m 1073741809, m 1073741810])
      = some [39, 123, 1073741832, 0] ∧
    (∀ (queue : cvp_hfi_queue_header) (mem : Nat → Nat) (mem_size : Nat) (pkt : Nat → Nat),
      u32 queue.qhdr_write_idx ≤ shr2 (u32 mem_size) →
      ∃ queue2 mem2,
        (__write_queue (some (mk_qinfo queue mem mem_size)) (some pkt)).qinfo
          = some (mk_qinfo queue2 mem2 mem_size) ∧
        ∀ i, shr2 (u32 mem_size) ≤ i → mem2 i = mem i) ∧
    (∀ (HUGE MSGQ : Nat) (queue : cvp_hfi_queue_header) (mem mem2 : Nat → Nat)
      (mem_size : Nat) (out : Nat → Nat) (pb : Nat),
      shr2 HUGE ≤ shr2 (u32 mem_size) →
      (∀ i, i < shr2 (u32 mem_size) → mem2 i = mem i) →
      (__read_queue HUGE MSGQ (some (mk_qinfo queue mem2 mem_size)) (some out) (some pb)).rc
        = (__read_queue HUGE MSGQ (some (mk_qinfo queue mem mem_size)) (some out)
            (some pb)).rc ∧
      q_hdr_of (__read_queue HUGE MSGQ (some (mk_qinfo queue mem2 mem_size)) (some out)
          (some pb)).qinfo
        = q_hdr_of (__read_queue HUGE MSGQ (some (mk_qinfo queue mem mem_size)) (some out)
            (some pb)).qinfo ∧
      (__read_queue HUGE MSGQ (some (mk_qinfo queue mem2 mem_size)) (some out)
          (some pb)).packet
        = (__read_queue HUGE MSGQ (some (mk_qinfo queue mem mem_size)) (some out)
            (some pb)).packet ∧
      ∀ o, (__read_queue HUGE MSGQ (some (mk_qinfo queue mem mem_size)) (some out)
          (some pb)).packet = some o →
        ∀ j, shr2 HUGE ≤ j → o j = out j) := by
  refine ⟨by decide, by decide, by decide, by decide, ?_, ?_⟩
  · intro queue mem mem_size pkt hw
    exact write_queue_frame queue mem mem_size pkt hw
  · intro HUGE MSGQ queue mem mem2 mem_size out pb hmax hagree
    obtain ⟨h1, h2, h3, -, h5⟩ := read_queue_bounds HUGE MSGQ queue mem mem2 mem_size out pb
      hmax hagree
    exact ⟨h1, h2, h3, h5⟩

/-! ### Power on, power off and the failures of `__resume` -/

theorem read_register_power (P : cvp_platform) (d : iris_hfi_device) (reg : Nat) :
    (__read_register P d reg).2.power_enabled = d.power_enabled ∧
      (__read_register P d reg).2.res = d.res := by
  unfold __read_register
  split_ifs <;> exact ⟨rfl, rfl⟩

theorem write_register_power (d : iris_hfi_device) (reg value : Nat) :
    (__write_register d reg value).power_enabled = d.power_enabled ∧
      (__write_register d reg value).res = d.res := by
  unfold __write_register
  split_ifs <;> exact ⟨rfl, rfl⟩

theorem iris_power_on_fail (W : iris2_callees) (dev : iris_hfi_device)
    (h : (__iris_power_on W dev).1 ≠ 0) :
    (__iris_power_on W dev).2.power_enabled = false := by
  simp only [__iris_power_on] at h ⊢
  split_ifs at h ⊢
  · exact absurd rfl h
  · rfl
  · rfl
  · rfl
  · exact absurd rfl h

theorem iris_power_on_ok (W : iris2_callees) (R : resume_callees) (dev : iris_hfi_device)
    (hk : resume_keeps_power W R) (hoff : dev.power_enabled = false)
    (h : (__iris_power_on W dev).1 = 0) :
    (__iris_power_on W dev).2.power_enabled = true ∧
      (__iris_power_on W dev).2.res = dev.res := by
  obtain ⟨hv, hc, hk2, hs, hset, hint, -⟩ := hk
  simp only [__iris_power_on, hoff, Bool.false_eq_true, if_false] at h ⊢
  split_ifs at h ⊢
  · exact absurd h (by assumption)
  · exact absurd h (by assumption)
  · exact absurd h (by assumption)
  · refine ⟨?_, ?_⟩
    · rw [(write_register_power _ _ _).1]
      rw [(hint _).1, (hset _).1]
    · rw [(write_register_power _ _ _).2]
      show (W.interrupt_init _).res = _
      rw [(hint _).2, (hset _).2]
      show (W.msm_cvp_scale_clocks _).2.res = _
      rw [(hs _).2, (hk2 _).2, (hc _).2, (hv _).2]

theorem power_off_iris2_power (E : hfi_platform) (W : iris2_callees) (d : iris_hfi_device) :
    (power_off_iris2 E W d).power_enabled
      = (d.power_enabled && !d.res.sw_power_collapsible) := by
  simp only [power_off_iris2]
  by_cases h : (!d.power_enabled) = true ∨ (!d.res.sw_power_collapsible) = true
  · rw [if_pos h]
    cases hp : d.power_enabled <;> cases hs : d.res.sw_power_collapsible <;> simp_all
  · rw [if_neg h]
    show false = _
    cases hp : d.power_enabled <;> cases hs : d.res.sw_power_collapsible <;> simp_all

/-- The counterexample to claim C21: on a platform whose `sw_power_collapsible`
is not set, `__resume` starts with the power off and the core in a valid
state, `__iris_power_on` succeeds, the secure monitor refuses the resume with
`-EINVAL`, and `power_off_iris2` returns at its first test: `__resume` returns
`-EINVAL` and `power_enabled` is still true. -/
theorem resume_failure_counterexample :
    (sample_unpowered_device false).power_enabled = false ∧
    __core_in_valid_state (sample_hfi 0 true 0).tocvp_platform
      (sample_unpowered_device false) = true ∧
    (__resume (sample_hfi 0 true 0)
      (iris2_resume_callees (sample_hfi 0 true 0) sample_iris2_callees
        (sample_resume_callees_tz (-EINVAL)))
      (some (sample_unpowered_device false))).1 = -EINVAL ∧
    (__resume (sample_hfi 0 true 0)
      (iris2_resume_callees (sample_hfi 0 true 0) sample_iris2_callees
        (sample_resume_callees_tz (-EINVAL)))
      (some (sample_unpowered_device false))).2.map (fun d => d.power_enabled)
      = some true := by
  decide

/-- Claim C21, amended. When `__resume`, started with `power_enabled` false and
the core in a valid state, returns a non-zero result, the power is off on
return after a power-on failure, and after a failure of the secure-monitor
resume or of the firmware boot on a platform with `sw_power_collapsible` set;
on a platform without it `power_off_iris2` returns at its first test and
`power_enabled` is still true after those two failures. -/
theorem resume_failure_unwinds (E : hfi_platform) (W : iris2_callees) (R : resume_callees)
    (dev : iris_hfi_device)
    (hk : resume_keeps_power W R)
    (hoff : dev.power_enabled = false)
    (hvalid : __core_in_valid_state E.tocvp_platform dev = true)
    (hrc : (__resume E (iris2_resume_callees E W R) (some dev)).1 ≠ 0) :
    ∃ d, (__resume E (iris2_resume_callees E W R) (some dev)).2 = some d ∧
      ((__iris_power_on W dev).1 ≠ 0 → d.power_enabled = false) ∧
      (dev.res.sw_power_collapsible = true → d.power_enabled = false) ∧
      ((__iris_power_on W dev).1 = 0 → dev.res.sw_power_collapsible = false →
        d.power_enabled = true) := by
  have hk0 := hk
  obtain ⟨-, -, -, -, -, -, -, htz, hmap, hboot, hssr⟩ := hk
  simp only [__resume, hoff, hvalid, iris2_resume_callees, Bool.false_eq_true, if_false,
    Bool.not_true] at hrc ⊢
  by_cases hp : (__iris_power_on W dev).1 = 0
  · obtain ⟨hpe, hres⟩ := iris_power_on_ok W R dev hk0 hoff hp
    simp only [hp, ne_eq, not_true_eq_false, if_false] at hrc ⊢
    generalize hg : (__read_register E.tocvp_platform
      (__read_register E.tocvp_platform (__iris_power_on W dev).2 E.CVP_CC_MVS1C_GDSCR).2
      E.CVP_CC_MVS1C_CBCR).2 = g at hrc ⊢
    have hgp : g.power_enabled = true ∧ g.res = dev.res := by
      subst hg
      rw [(read_register_power _ _ _).1, (read_register_power _ _ _).1,
        (read_register_power _ _ _).2, (read_register_power _ _ _).2]
      exact ⟨hpe, hres⟩
    by_cases ht : (R.__tzbsp_set_cvp_state TZ_SUBSYS_STATE_RESUME g).1 = 0
    · simp only [ht, not_true_eq_false, if_false] at hrc ⊢
      by_cases hb : (R.__boot_firmware (R.__setup_ucregion_memory_map
          (R.__tzbsp_set_cvp_state TZ_SUBSYS_STATE_RESUME g).2)).1 = 0
      · simp only [hb, not_true_eq_false, if_false, __resume_exit] at hrc
        split_ifs at hrc <;> exact absurd rfl hrc
      · simp only [hb, not_false_eq_true, if_true] at hrc ⊢
        refine ⟨_, rfl, fun h => h.elim, ?_, ?_⟩
        · intro hs
          rw [power_off_iris2_power, (htz _ _).2, (hssr _).2, (hboot _).2, (hmap _).2,
            (htz _ _).2, hgp.2, hs]
          simp
        · intro _ hs
          rw [power_off_iris2_power, (htz _ _).2, (hssr _).2, (hboot _).2, (hmap _).2,
            (htz _ _).2, hgp.2, hs, (htz _ _).1, (hssr _).1, (hboot _).1, (hmap _).1,
            (htz _ _).1, hgp.1]
          rfl
    · simp only [ht, not_false_eq_true, if_true] at hrc ⊢
      refine ⟨_, rfl, fun h => h.elim, ?_, ?_⟩
      · intro hs
        rw [power_off_iris2_power, (htz _ _).2, hgp.2, hs]
        simp
      · intro _ hs
        rw [power_off_iris2_power, (htz _ _).2, hgp.2, hs, (htz _ _).1, hgp.1]
        rfl
  · simp only [hp, ne_eq, not_false_eq_true, if_true] at hrc ⊢
    exact ⟨_, rfl, fun _ => iris_power_on_fail W dev hp,
      fun _ => iris_power_on_fail W dev hp, fun h => h.elim⟩

/-- Instance of claim C21 as amended: on a platform with `sw_power_collapsible`
set the secure monitor refuses the resume and the power is off on return. -/
theorem resume_failure_unwinds_witness :
    ∃ d, (__resume (sample_hfi 0 true 0)
        (iris2_resume_callees (sample_hfi 0 true 0) sample_iris2_callees
          (sample_resume_callees_tz (-EINVAL)))
        (some (sample_unpowered_device true))).2 = some d ∧
      d.power_enabled = false :=
  let ⟨d, h1, _, h3, _⟩ := resume_failure_unwinds (sample_hfi 0 true 0) sample_iris2_callees
    (sample_resume_callees_tz (-EINVAL)) (sample_unpowered_device true)
    ⟨fun _ => ⟨rfl, rfl⟩, fun _ => ⟨rfl, rfl⟩, fun _ => ⟨rfl, rfl⟩, fun _ => ⟨rfl, rfl⟩,
      fun _ => ⟨rfl, rfl⟩, fun _ => ⟨rfl, rfl⟩, fun _ => ⟨rfl, rfl⟩, fun _ _ => ⟨rfl, rfl⟩,
      fun _ => ⟨rfl, rfl⟩, fun _ => ⟨rfl, rfl⟩, fun _ => ⟨rfl, rfl⟩⟩
    rfl (by decide) (by decide)
  ⟨d, h1, h3 rfl⟩

/-! ### `__power_collapse` and the power-off step -/

theorem resume_exit_of_powered (E : hfi_platform) (R : resume_callees)
    (dev : iris_hfi_device) (hp : dev.power_enabled = true) :
    __resume E R (some dev) = __resume_exit E dev := by
  simp only [__resume, hp, if_true]

theorem cmdq_write_relaxed_powered (E : hfi_platform) (R R2 : resume_callees)
    (dev : iris_hfi_device) (pkt : Nat → Nat) (hp : dev.power_enabled = true) :
    __iface_cmdq_write_relaxed E R2 (some dev) (some pkt)
      = __iface_cmdq_write_relaxed E R (some dev) (some pkt) := by
  have h1 : ∀ R3 : resume_callees,
      __resume E R3 (some { dev with last_packet_type := E.packet_type pkt })
        = __resume_exit E { dev with last_packet_type := E.packet_type pkt } :=
    fun R3 => resume_exit_of_powered E R3 _ hp
  simp only [__iface_cmdq_write_relaxed, h1]

theorem cmdq_write_power (E : hfi_platform) (R : resume_callees)
    (dev : iris_hfi_device) (pkt : Nat → Nat) (hp : dev.power_enabled = true) :
    (dev_of (__iface_cmdq_write E R (some dev) (some pkt)).2 dev).power_enabled = true := by
  have h1 : __resume E R (some { dev with last_packet_type := E.packet_type pkt })
      = __resume_exit E { dev with last_packet_type := E.packet_type pkt } :=
    resume_exit_of_powered E R _ hp
  simp only [__iface_cmdq_write, __iface_cmdq_write_relaxed, h1, __resume_exit]
  split_ifs <;>
    simp only [dev_of, Option.getD_some, Option.map_some', (write_register_power _ _ _).1] <;>
    exact hp

theorem prepare_pc_powered (E : hfi_platform) (R : resume_callees) (dev : iris_hfi_device)
    (hp : dev.power_enabled = true) :
    (__prepare_pc E R dev).2.power_enabled = true ∧
      ∀ R2, __prepare_pc E R2 dev = __prepare_pc E R dev := by
  constructor
  · have h := cmdq_write_power E R dev E.sys_pc_prep.2 hp
    simp only [__prepare_pc]
    split_ifs
    · exact hp
    · exact h
    · exact h
  · intro R2
    simp only [__prepare_pc, __iface_cmdq_write,
      cmdq_write_relaxed_powered E R R2 dev E.sys_pc_prep.2 hp]

theorem suspend_failed (W : iris2_callees) (R : resume_callees) (d : iris_hfi_device)
    (htz : ∀ s, keeps_power (fun d => (R.__tzbsp_set_cvp_state s d).2))
    (h : (__suspend W R (some d)).1 ≠ 0) :
    (dev_of (__suspend W R (some d)).2 d).power_enabled = d.power_enabled ∧
      ∀ off, __suspend W { R with power_off := off } (some d) = __suspend W R (some d) := by
  simp only [__suspend] at h ⊢
  by_cases hp : d.power_enabled = true
  · simp only [hp, Bool.not_true, Bool.false_eq_true, if_false] at h ⊢
    by_cases ht : (R.__tzbsp_set_cvp_state TZ_SUBSYS_STATE_SUSPEND d).1 = 0
    · simp only [ht, ne_eq, not_true_eq_false, if_false] at h
    · simp only [ht, ne_eq, not_false_eq_true, if_true, dev_of, Option.getD_some]
      exact ⟨((htz _ d).1).trans hp, fun _ => trivial⟩
  · simp only [Bool.not_eq_true] at hp
    simp only [hp, Bool.not_false, if_true, ne_eq, not_true_eq_false] at h

theorem pc_after_dsp_retry (P : cvp_platform) (K K2 : power_callees)
    (I : iris_hfi_device → Prop)
    (hf : ∀ d, I d → I (K.__flush_debug_queue d))
    (hp : ∀ d, I d → I (K.__prepare_pc d).2)
    (hr : ∀ d reg, I d → I (__read_register P d reg).2)
    (hs : ∀ d, I d → (K.__suspend d).1 ≠ 0 →
      I (K.__suspend d).2 ∧ K2.__suspend d = K.__suspend d)
    (hf2 : ∀ d, K2.__flush_debug_queue d = K.__flush_debug_queue d)
    (hp2 : ∀ d, I d → K2.__prepare_pc d = K.__prepare_pc d)
    (dev : iris_hfi_device) (h0 : I dev) (hrc : (pc_after_dsp P K dev).1 ≠ 0) :
    (∀ d, (pc_after_dsp P K dev).2 = some d → I d) ∧
      pc_after_dsp P K2 dev = pc_after_dsp P K dev := by
  have hskip : ∀ a, I a → (∀ d, (__power_collapse_skip K a).2 = some d → I d) ∧
      __power_collapse_skip K2 a = __power_collapse_skip K a := by
    intro a ha
    refine ⟨?_, ?_⟩
    · intro d hd
      simp only [__power_collapse_skip, Option.some.injEq] at hd
      subst hd; exact hf _ ha
    · simp only [__power_collapse_skip, hf2]
  have hsus : ∀ a, I a → (pc_suspend K a).1 ≠ 0 →
      (∀ d, (pc_suspend K a).2 = some d → I d) ∧ pc_suspend K2 a = pc_suspend K a := by
    intro a ha hne
    simp only [pc_suspend] at hne
    refine ⟨?_, ?_⟩
    · intro d hd
      simp only [pc_suspend, Option.some.injEq] at hd
      subst hd; exact (hs _ ha hne).1
    · simp only [pc_suspend, (hs _ ha hne).2]
  have hprep : ∀ a w p, I a → (pc_prepare P K a w p).1 ≠ 0 →
      (∀ d, (pc_prepare P K a w p).2 = some d → I d) ∧
        pc_prepare P K2 a w p = pc_prepare P K a w p := by
    intro a w p ha hne
    have hpa := hp a ha
    simp only [pc_prepare, hp2 a ha] at hne ⊢
    by_cases c1 : (K.__prepare_pc a).1 = 0
    · by_cases c2 : (__power_collapse_poll P 150 (K.__prepare_pc a).2 0 w p).1 = 150
      · simp only [c1, c2, ne_eq, not_true_eq_false, if_false, if_true] at hne ⊢
        exact hskip _ (power_collapse_poll_preserves P I hr _ _ _ _ _ hpa)
      · simp only [c1, c2, ne_eq, not_true_eq_false, if_false] at hne ⊢
        exact hsus _ (power_collapse_poll_preserves P I hr _ _ _ _ _ hpa) hne
    · simp only [c1, ne_eq, not_false_eq_true, if_true] at hne ⊢
      exact hskip _ hpa
  have hx := hr _ P.CVP_CTRL_STATUS (hf _ h0)
  simp only [pc_after_dsp, hf2] at hrc ⊢
  by_cases c0 : (__read_register P (K.__flush_debug_queue dev) P.CVP_CTRL_STATUS).1
      &&& P.CVP_CTRL_STATUS_PC_READY = 0
  · simp only [c0, if_true] at hrc ⊢
    generalize (__read_register P (K.__flush_debug_queue dev) P.CVP_CTRL_STATUS).2 = x
      at hrc hx ⊢
    have hy := hr _ P.CVP_CTRL_STATUS (hr _ P.CVP_WRAPPER_CPU_STATUS hx)
    simp only [pc_when_not_ready] at hrc ⊢
    by_cases c1 : (__read_register P x P.CVP_WRAPPER_CPU_STATUS).1 &&& 1 = 0
    · simp only [c1, if_true] at hrc ⊢
      exact hskip _ hy
    · by_cases c2 : (__read_register P (__read_register P x P.CVP_WRAPPER_CPU_STATUS).2
          P.CVP_CTRL_STATUS).1 &&& 1073741824 = 0
      · simp only [c1, c2, if_true, if_false] at hrc ⊢
        exact hskip _ hy
      · simp only [c1, c2, if_false] at hrc ⊢
        exact hprep _ _ _ hy hrc
  · simp only [c0, if_false] at hrc ⊢
    generalize (__read_register P (K.__flush_debug_queue dev) P.CVP_CTRL_STATUS).2 = x
      at hrc hx ⊢
    have hy := hr _ P.CVP_WRAPPER_CPU_STATUS hx
    simp only [pc_when_ready] at hrc ⊢
    by_cases c1 : (__read_register P x P.CVP_WRAPPER_CPU_STATUS).1 &&& 1 = 0
    · simp only [c1, if_true] at hrc ⊢
      exact hskip _ hy
    · simp only [c1, if_false] at hrc ⊢
      exact hsus _ hy hrc

theorem power_collapse_retry (P : cvp_platform) (K K2 : power_callees)
    (I : iris_hfi_device → Prop)
    (hf : ∀ d, I d → I (K.__flush_debug_queue d))
    (hp : ∀ d, I d → I (K.__prepare_pc d).2)
    (hr : ∀ d reg, I d → I (__read_register P d reg).2)
    (hs : ∀ d, I d → (K.__suspend d).1 ≠ 0 →
      I (K.__suspend d).2 ∧ K2.__suspend d = K.__suspend d)
    (hf2 : ∀ d, K2.__flush_debug_queue d = K.__flush_debug_queue d)
    (hp2 : ∀ d, I d → K2.__prepare_pc d = K.__prepare_pc d)
    (dev : iris_hfi_device) (force : Bool) (h0 : I dev)
    (hrc : (__power_collapse P K (some dev) force).1 ≠ 0) :
    (∀ d, (__power_collapse P K (some dev) force).2 = some d → I d) ∧
      __power_collapse P K2 (some dev) force = __power_collapse P K (some dev) force := by
  rw [power_collapse_eq, power_collapse_eq] at *
  by_cases c1 : (!dev.power_enabled) = true
  · simp only [c1, if_true] at hrc
    exact absurd rfl hrc
  by_cases c2 : (!__core_in_valid_state P dev) = true
  · simp only [c1, c2, Bool.false_eq_true, if_true, if_false, Option.some.injEq]
    exact ⟨fun d hd => hd ▸ h0, trivial⟩
  by_cases c3 : __dsp_suspend P dev force 0 = -EBUSY
  · simp only [c1, c2, c3, Bool.false_eq_true, if_true, if_false, Option.some.injEq]
    exact ⟨fun d hd => hd ▸ h0, trivial⟩
  by_cases c4 : __dsp_suspend P dev force 0 = 0
  · simp only [c1, c2, c3, c4, Bool.false_eq_true, ne_eq, not_true_eq_false, if_false] at hrc ⊢
    exact pc_after_dsp_retry P K K2 I hf hp hr hs hf2 hp2 dev h0 hrc
  · simp only [c1, c2, c3, c4, Bool.false_eq_true, ne_eq, not_false_eq_true, if_true,
      if_false, __power_collapse_skip, Option.some.injEq, hf2]
    exact ⟨fun d hd => hd ▸ hf _ h0, trivial⟩

theorem read_register_reads (P : cvp_platform) (d : iris_hfi_device) (reg : Nat) :
    (__read_register P d reg).2.reg_reads ≤ d.reg_reads + 1 := by
  unfold __read_register
  split_ifs
  · exact Nat.le_succ _
  · exact Nat.le_refl _

theorem power_collapse_poll_bound (P : cvp_platform) (fuel : Nat) :
    ∀ (d : iris_hfi_device) (c w p : Nat),
      (__power_collapse_poll P fuel d c w p).1 ≤ c + fuel ∧
        (__power_collapse_poll P fuel d c w p).2.2.2.reg_reads ≤ d.reg_reads + 2 * fuel := by
  induction fuel with
  | zero => intro d c w p; exact ⟨Nat.le_refl _, Nat.le_refl _⟩
  | succ n ih =>
    intro d c w p
    have h1 := read_register_reads P d P.CVP_WRAPPER_CPU_STATUS
    have h2 := read_register_reads P (__read_register P d P.CVP_WRAPPER_CPU_STATUS).2
      P.CVP_CTRL_STATUS
    simp only [__power_collapse_poll]
    split_ifs
    · exact ⟨by omega, by simp only; omega⟩
    · have h3 := ih (__read_register P (__read_register P d P.CVP_WRAPPER_CPU_STATUS).2
        P.CVP_CTRL_STATUS).2 (c + 1) (__read_register P d P.CVP_WRAPPER_CPU_STATUS).1
        (__read_register P (__read_register P d P.CVP_WRAPPER_CPU_STATUS).2
          P.CVP_CTRL_STATUS).1
      exact ⟨by omega, by omega⟩

/-- Claim C25. Retry-later does not tear down the hardware.  `__power_collapse`
runs with `__prepare_pc` and `__suspend` of this file; the secure monitor and
the flush of the debug queue leave `power_enabled` alone.  Whenever it returns
`-EAGAIN` or `-EBUSY`, `power_enabled` is still true on return and the whole
result is the same whatever `power_off` would do, so that no power-off step
was performed; and the loop that polls the ready bits leaves `count` at most
at 150, after at most 150 passes of two register reads each. -/
theorem power_collapse_retry_later (E : hfi_platform) (W : iris2_callees)
    (R : resume_callees) (flush : iris_hfi_device → iris_hfi_device)
    (dev : iris_hfi_device) (force : Bool)
    (hflush : keeps_power flush)
    (htz : ∀ s, keeps_power (fun d => (R.__tzbsp_set_cvp_state s d).2))
    (hrc : (__power_collapse E.tocvp_platform (collapse_callees E W R flush)
        (some dev) force).1 = -EAGAIN ∨
      (__power_collapse E.tocvp_platform (collapse_callees E W R flush)
        (some dev) force).1 = -EBUSY) :
    (∃ d, (__power_collapse E.tocvp_platform (collapse_callees E W R flush)
        (some dev) force).2 = some d ∧ d.power_enabled = true) ∧
    (∀ off, __power_collapse E.tocvp_platform
        (collapse_callees E W { R with power_off := off } flush) (some dev) force
      = __power_collapse E.tocvp_platform (collapse_callees E W R flush) (some dev) force) ∧
    (∀ (d : iris_hfi_device) (w p : Nat),
      (__power_collapse_poll E.tocvp_platform 150 d 0 w p).1 ≤ 150 ∧
      (__power_collapse_poll E.tocvp_platform 150 d 0 w p).2.2.2.reg_reads
        ≤ d.reg_reads + 300) := by
  have hne : (__power_collapse E.tocvp_platform (collapse_callees E W R flush)
      (some dev) force).1 ≠ 0 := by
    rcases hrc with h | h <;> rw [h] <;> decide
  have h0 : dev.power_enabled = true := by
    by_contra hc
    simp only [Bool.not_eq_true] at hc
    apply hne
    rw [power_collapse_eq]
    simp only [hc, Bool.not_false, if_true]
  have key : ∀ off, (∀ d, (__power_collapse E.tocvp_platform (collapse_callees E W R flush)
        (some dev) force).2 = some d → d.power_enabled = true) ∧
      __power_collapse E.tocvp_platform
        (collapse_callees E W { R with power_off := off } flush) (some dev) force
      = __power_collapse E.tocvp_platform (collapse_callees E W R flush) (some dev) force := by
    intro off
    refine power_collapse_retry E.tocvp_platform (collapse_callees E W R flush)
      (collapse_callees E W { R with power_off := off } flush)
      (fun d => d.power_enabled = true) ?_ ?_ ?_ ?_ ?_ ?_ dev force h0 hne
    · intro d hd
      exact ((hflush d).1).trans hd
    · intro d hd
      exact (prepare_pc_powered E R d hd).1
    · intro d reg hd
      exact ((read_register_power _ d reg).1).trans hd
    · intro d hd hs
      have h := suspend_failed W R d htz hs
      refine ⟨(h.1).trans hd, ?_⟩
      show ((__suspend W { R with power_off := off } (some d)).1,
          dev_of (__suspend W { R with power_off := off } (some d)).2 d)
        = ((__suspend W R (some d)).1, dev_of (__suspend W R (some d)).2 d)
      rw [h.2 off]
    · intro d
      rfl
    · intro d hd
      exact (prepare_pc_powered E R d hd).2 _
  obtain ⟨d, hd⟩ := power_collapse_some E.tocvp_platform (collapse_callees E W R flush)
    dev force
  refine ⟨⟨d, hd, (key (fun x => x)).1 d hd⟩, fun off => (key off).2, ?_⟩
  intro d w p
  have h := power_collapse_poll_bound E.tocvp_platform 150 d 0 w p
  exact ⟨by omega, by omega⟩

/-- Instance of claim C25: the status registers read 0, so the core is not
ready, `__power_collapse` returns `-EAGAIN` and the power is still on. -/
theorem power_collapse_retry_later_witness :
    ∃ d, (__power_collapse (sample_hfi 0 true 0).tocvp_platform
        (collapse_callees (sample_hfi 0 true 0) sample_iris2_callees sample_resume_callees
          (fun d => d))
        (some (sample_device [])) false).2 = some d ∧ d.power_enabled = true :=
  (power_collapse_retry_later (sample_hfi 0 true 0) sample_iris2_callees
    sample_resume_callees (fun d => d) (sample_device []) false
    (fun _ => ⟨rfl, rfl⟩) (fun _ _ => ⟨rfl, rfl⟩) (Or.inl (by decide))).1

/-! ### The size of a batch of responses -/

theorem drain_slots_result (E : hfi_platform) (fuel : Nat) :
    ∀ s : response_state, (drain_slots E fuel s).2 = __response_handler_drain E fuel s := by
  induction fuel with
  | zero => intro s; rfl
  | succ n ih =>
    intro s
    simp only [drain_slots, __response_handler_drain]
    split_ifs <;> first | rfl | exact ih _

theorem drain_slots_bound (E : hfi_platform) (fuel : Nat) :
    ∀ s : response_state, s.packet_count < cvp_max_packets →
      ∀ i ∈ (drain_slots E fuel s).1, i < cvp_max_packets := by
  induction fuel with
  | zero => intro s _ i hi; simp only [drain_slots, List.not_mem_nil] at hi
  | succ n ih =>
    intro s hs i hi
    simp only [drain_slots] at hi
    split_ifs at hi with h1 h2 h3 h4
    · simp only [List.not_mem_nil] at hi
    · simp only [List.mem_cons] at hi
      rcases hi with hi | hi
      · rw [hi]; exact hs
      · exact ih _ (by exact hs) i hi
    · simp only [List.mem_singleton] at hi
      rw [hi]; exact hs
    · simp only [List.mem_singleton] at hi
      rw [hi]; exact hs
    · simp only [List.mem_cons] at hi
      rcases hi with hi | hi
      · rw [hi]; exact hs
      · exact ih _ (by simp only [ge_iff_le, not_le] at h3; exact h3) i hi

theorem response_handler_drain_bound (E : hfi_platform) (fuel : Nat) :
    ∀ s s2 : response_state, s.packet_count < cvp_max_packets →
      __response_handler_drain E fuel s = some s2 →
      s2.packet_count ≤ cvp_max_packets ∧
        ∀ i, cvp_max_packets ≤ i → s2.packets i = s.packets i := by
  induction fuel with
  | zero => intro s s2 _ h; simp only [__response_handler_drain] at h; cases h
  | succ n ih =>
    intro s s2 hs h
    have hupd : ∀ (v : msm_cvp_cb_info) (i : Nat), cvp_max_packets ≤ i →
        Function.update s.packets s.packet_count v i = s.packets i := by
      intro v i hi
      exact Function.update_noteq (by omega) _ _
    simp only [__response_handler_drain] at h
    split_ifs at h with h1 h2 h3 h4
    · simp only [Option.some.injEq] at h
      subst h
      exact ⟨Nat.le_of_lt hs, fun _ _ => rfl⟩
    · obtain ⟨ha, hb⟩ := ih _ s2 (by exact hs) h
      exact ⟨ha, fun i hi => (hb i hi).trans (hupd _ i hi)⟩
    · simp only [Option.some.injEq] at h
      subst h
      exact ⟨hs, fun i hi => hupd _ i hi⟩
    · simp only [Option.some.injEq] at h
      subst h
      exact ⟨hs, fun i hi => hupd _ i hi⟩
    · simp only [ge_iff_le, not_le] at h3
      obtain ⟨ha, hb⟩ := ih _ s2 h3 h
      exact ⟨ha, fun i hi => (hb i hi).trans (hupd _ i hi)⟩

theorem response_handler_exit_result (E : hfi_platform) (fuel : Nat) (s : response_state)
    (n : Nat) (d : iris_hfi_device) (h : __response_handler_exit E fuel s = some (n, d)) :
    n = s.packet_count ∧ d.response_pkt = some s.packets := by
  unfold __response_handler_exit at h
  cases hf : __flush_debug_queue E fuel s.device s.raw_packet with
  | none => simp only [hf] at h; cases h
  | some f =>
    simp only [hf, Option.some.injEq, Prod.mk.injEq] at h
    obtain ⟨h1, h2⟩ := h
    subst h1 h2
    exact ⟨rfl, rfl⟩

theorem response_handler_count (E : hfi_platform) (fuel : Nat) (device : iris_hfi_device)
    (n : Nat) (d : iris_hfi_device) (h : __response_handler E fuel device = some (n, d)) :
    n ≤ cvp_max_packets ∧
      ∀ packets, device.response_pkt = some packets →
        ∃ packets2, d.response_pkt = some packets2 ∧
          ∀ i, cvp_max_packets ≤ i → packets2 i = packets i := by
  by_cases hstate : device.state = E.IRIS_STATE_INIT
  swap
  · simp only [__response_handler, ne_eq, hstate, not_false_eq_true, if_true,
      Option.some.injEq, Prod.mk.injEq] at h
    obtain ⟨h1, h2⟩ := h
    subst h1 h2
    exact ⟨Nat.zero_le _, fun packets hp => ⟨packets, hp, fun _ _ => rfl⟩⟩
  cases hraw : device.raw_packet with
  | none =>
    simp only [__response_handler, ne_eq, hstate, not_true_eq_false, if_false, hraw,
      Option.some.injEq, Prod.mk.injEq] at h
    obtain ⟨h1, h2⟩ := h
    subst h1 h2
    exact ⟨Nat.zero_le _, fun packets hp => ⟨packets, hp, fun _ _ => rfl⟩⟩
  | some raw =>
    cases hpk : device.response_pkt with
    | none =>
      simp only [__response_handler, ne_eq, hstate, not_true_eq_false, if_false, hraw, hpk,
        Option.some.injEq, Prod.mk.injEq] at h
      obtain ⟨h1, h2⟩ := h
      subst h1 h2
      exact ⟨Nat.zero_le _, fun packets hp => by cases hp⟩
    | some packets =>
      simp only [__response_handler, ne_eq, hstate, not_true_eq_false, if_false, hraw, hpk]
        at h
      by_cases hfatal : u32 device.intr_status &&& E.CVP_FATAL_INTR_BMSK = 0
      · simp only [hfatal, not_true_eq_false, if_false] at h
        cases hdr : __response_handler_drain E fuel ⟨device, raw, packets, 0⟩ with
        | none => simp only [hdr] at h; cases h
        | some s =>
          simp only [hdr] at h
          obtain ⟨ha, hb⟩ := response_handler_drain_bound E fuel _ s
            (by decide : (0 : Nat) < cvp_max_packets) hdr
          split_ifs at h
          · obtain ⟨h1, h2⟩ := response_handler_exit_result E fuel _ n d h
            subst h1
            refine ⟨ha, ?_⟩
            intro p hp
            simp only [Option.some.injEq] at hp
            subst hp
            exact ⟨_, h2, hb⟩
          · obtain ⟨h1, h2⟩ := response_handler_exit_result E fuel _ n d h
            subst h1
            refine ⟨ha, ?_⟩
            intro p hp
            simp only [Option.some.injEq] at hp
            subst hp
            exact ⟨_, h2, hb⟩
      · simp only [hfatal, not_false_eq_true, if_true] at h
        obtain ⟨h1, h2⟩ := response_handler_exit_result E fuel _ n d h
        subst h1
        refine ⟨show (1 : Nat) ≤ cvp_max_packets by decide, ?_⟩
        intro p hp
        simp only [Option.some.injEq] at hp
        subst hp
        exact ⟨_, h2, fun i hi => Function.update_noteq
          (by simp only [cvp_max_packets] at hi; omega) _ _⟩

/-- Claim C24. Bounded batch.  For every device, hence every content of the
message queue, and every platform, hence every decoder: whenever
`__response_handler` returns, the number of events it returns is at most
`cvp_max_packets`, which is 32, and the array `response_pkt` is as before at
every index from 32 on; in every run of its loop, finished or not, the slot
`packets[packet_count]` taken by each pass has an index below 32, the fatal
path using the index 0; and when the message queue runs empty after `km`
packets and the debug queue after `kd`, fuel above both gives the result. -/
theorem response_handler_bounded (E : hfi_platform) (fuel : Nat) (device : iris_hfi_device) :
    cvp_max_packets = 32 ∧
    (∀ n d, __response_handler E fuel device = some (n, d) →
      n ≤ 32 ∧
      ∀ packets, device.response_pkt = some packets →
        ∃ packets2, d.response_pkt = some packets2 ∧
          ∀ i, 32 ≤ i → packets2 i = packets i) ∧
    (∀ raw packets,
      (drain_slots E fuel ⟨device, raw, packets, 0⟩).2
        = __response_handler_drain E fuel ⟨device, raw, packets, 0⟩ ∧
      ∀ i ∈ (drain_slots E fuel ⟨device, raw, packets, 0⟩).1, i < 32) ∧
    (∀ raw packets km kd,
      device.state = E.IRIS_STATE_INIT →
      device.raw_packet = some raw → device.response_pkt = some packets →
      msgq_depth E km device raw = true →
      queue_depth E.CVP_IFACEQ_VAR_HUGE_PKT_SIZE E.HFI_Q_ID_CTRL_TO_HOST_MSG_Q kd
        device.iface_dbgq = true →
      km < fuel → kd < fuel →
      ∃ n d, __response_handler E fuel device = some (n, d) ∧ n ≤ 32) := by
  refine ⟨rfl, ?_, ?_, ?_⟩
  · intro n d h
    exact response_handler_count E fuel device n d h
  · intro raw packets
    exact ⟨drain_slots_result E fuel _,
      drain_slots_bound E fuel ⟨device, raw, packets, 0⟩
        (show (0 : Nat) < cvp_max_packets by decide)⟩
  · intro raw packets km kd hstate hraw hpk hm hd hfm hfd
    by_cases hnf : u32 device.intr_status &&& E.CVP_FATAL_INTR_BMSK = 0
    · obtain ⟨d2, -, h, -⟩ := response_handler_drain_case E device raw packets km kd fuel
        hstate hraw hpk hnf hm hd hfm hfd
      exact ⟨_, d2, h, (response_handler_count E fuel device _ d2 h).1⟩
    · obtain ⟨d2, h, -⟩ := response_handler_fatal_spec E device raw packets kd fuel
        hstate hraw hpk hnf hd hfd
      exact ⟨1, d2, h, by decide⟩

/-- Instance of claim C24: the three packets pending in the message queue of
the sample device give a batch within the bound. -/
theorem response_handler_bounded_witness :
    ∃ n d, __response_handler (sample_hfi 0 false 0) 4 (sample_response_device 0)
      = some (n, d) ∧ n ≤ 32 :=
  (response_handler_bounded (sample_hfi 0 false 0) 4 (sample_response_device 0)).2.2.2
    (fun _ => 0) (fun _ => ⟨0, 0, 0, 0⟩) 3 1 rfl rfl rfl (by decide) (by decide)
    (by decide) (by decide)

/-! ### Session creation and the session list -/

theorem read_register_sessions (P : cvp_platform) (d : iris_hfi_device) (reg : Nat) :
    (__read_register P d reg).2.sess_head = d.sess_head := by
  simp only [__read_register]
  split_ifs <;> rfl

theorem write_register_sessions (d : iris_hfi_device) (reg value : Nat) :
    (__write_register d reg value).sess_head = d.sess_head := by
  simp only [__write_register]
  split_ifs <;> rfl

theorem resume_sessions (E : hfi_platform) (R : resume_callees)
    (hR : resume_keeps_sessions R) (dev : iris_hfi_device) :
    (dev_of (__resume E R (some dev)).2 dev).sess_head = dev.sess_head := by
  have h1 := fun d => (hR d).1
  have h2 := fun d => (hR d).2.1
  have h3 := fun d => (hR d).2.2.1
  have h4 := fun d => (hR d).2.2.2.1
  have h5 := fun d => (hR d).2.2.2.2.1
  have h6 := fun d => (hR d).2.2.2.2.2.1
  have h7 := fun d => (hR d).2.2.2.2.2.2.1
  have h8 := fun d => (hR d).2.2.2.2.2.2.2.1
  have h9 := fun d => (hR d).2.2.2.2.2.2.2.2.1
  have h10 := fun d => (hR d).2.2.2.2.2.2.2.2.2.1
  have h11 := fun d => (hR d).2.2.2.2.2.2.2.2.2.2.1
  have h12 := fun d => (hR d).2.2.2.2.2.2.2.2.2.2.2
  simp only [__resume, __resume_exit]
  split_ifs <;>
    simp only [dev_of, Option.getD_some, h1, h2, h3, h4, h5, h6, h7, h8, h9, h10, h11, h12,
      read_register_sessions]

theorem cmdq_write_sessions (E : hfi_platform) (R : resume_callees)
    (hR : resume_keeps_sessions R) (dev : iris_hfi_device) (pkt : Nat → Nat) :
    (dev_of (__iface_cmdq_write E R (some dev) (some pkt)).2 dev).sess_head
      = dev.sess_head := by
  have hres := resume_sessions E R hR { dev with last_packet_type := E.packet_type pkt }
  simp only [__iface_cmdq_write, __iface_cmdq_write_relaxed]
  split_ifs <;>
    simp only [dev_of, Option.getD_some, Option.map_some', write_register_sessions] <;>
    first
      | rfl
      | exact hres

theorem session_clean_unlink_fresh (a : Nat) (s : cvp_hal_session) (hs : s.addr = a) :
    ∀ l : List cvp_hal_session, (∀ t, t ∈ l → t.addr ≠ a) →
      __session_clean_unlink a (l ++ [s]) = l := by
  intro l
  induction l with
  | nil =>
    intro _
    simp only [List.nil_append, __session_clean_unlink, hs, if_true]
  | cons t rest ih =>
    intro h
    have ht : ¬ a = t.addr := fun e => h t (List.mem_cons_self _ _) e.symm
    simp only [List.cons_append, __session_clean_unlink, ht, if_false]
    exact congrArg (List.cons t) (ih (fun u hu => h u (List.mem_cons_of_mem _ hu)))

/-- Claim C28. Session-init is atomic on the session list.  For a device and a
pointer `new_session` that are not `NULL`, an address from `kzalloc` that no
listed session has, and callees that leave the session list alone:
whenever `iris_hfi_session_init` returns an error (the allocation, the packet
builder or the write to the command queue failed) the error is `-EINVAL`, the
session list is the same as before the call and `*new_session` is `NULL`;
whenever it returns 0, the list is the old list, in its order, with the new
session added at the tail, and `*new_session` points to it. -/
theorem session_init_atomic (E : hfi_platform) (R : resume_callees)
    (X : session_init_callees) (dev : iris_hfi_device) (session_id : Nat)
    (old : Option Nat) (kzalloc : Option Nat)
    (hR : resume_keeps_sessions R)
    (hX : ∀ d, (X.__sys_set_power_control d).sess_head = d.sess_head)
    (hfresh : ∀ a, kzalloc = some a → ∀ t, t ∈ dev.sess_head → t.addr ≠ a) :
    ∃ d, (iris_hfi_session_init E R X (some dev) session_id (some old) kzalloc).device
        = some d ∧
      ((iris_hfi_session_init E R X (some dev) session_id (some old) kzalloc).rc ≠ 0 →
        (iris_hfi_session_init E R X (some dev) session_id (some old) kzalloc).rc = -EINVAL ∧
        d.sess_head = dev.sess_head ∧
        (iris_hfi_session_init E R X (some dev) session_id (some old) kzalloc).new_session
          = some none) ∧
      ((iris_hfi_session_init E R X (some dev) session_id (some old) kzalloc).rc = 0 →
        ∃ a, kzalloc = some a ∧
          d.sess_head = dev.sess_head ++ [⟨a, 0, session_id, some dev.device_id⟩] ∧
          (iris_hfi_session_init E R X (some dev) session_id (some old) kzalloc).new_session
            = some (some a)) := by
  cases hk : kzalloc with
  | none =>
    simp only [iris_hfi_session_init]
    refine ⟨dev, rfl, fun _ => ?_, fun h => absurd h (by decide)⟩
    refine ⟨?_, ?_, ?_⟩ <;> first | rfl | trivial
  | some a =>
    have hfr := hfresh a hk
    have hprops : ∀ d, (__set_default_sys_properties R X d).sess_head = d.sess_head := by
      intro d
      simp only [__set_default_sys_properties, hX, (hR d).2.2.2.2.2.2.2.1]
    have hclean : ∀ d : iris_hfi_device,
        d.sess_head = dev.sess_head ++ [⟨a, 0, session_id, some dev.device_id⟩] →
        (__session_clean d (some ⟨a, 0, session_id, some dev.device_id⟩)).1.sess_head
          = dev.sess_head := by
      intro d hd
      simp only [__session_clean, reduceCtorEq, if_false, hd]
      exact session_clean_unlink_fresh a _ rfl _ hfr
    generalize hd1 : __set_default_sys_properties R X
      { dev with sess_head := dev.sess_head ++ [⟨a, 0, session_id, some dev.device_id⟩] }
      = d1
    have h1 : d1.sess_head
        = dev.sess_head ++ [⟨a, 0, session_id, some dev.device_id⟩] := by
      rw [← hd1, hprops]
    by_cases hb : (X.session_init ⟨a, 0, session_id, some dev.device_id⟩).1 = 0
    · have hw := cmdq_write_sessions E R hR d1
        (X.session_init ⟨a, 0, session_id, some dev.device_id⟩).2
      by_cases hwr : (__iface_cmdq_write E R (some d1)
          (some (X.session_init ⟨a, 0, session_id, some dev.device_id⟩).2)).1 = 0
      · simp only [iris_hfi_session_init, hd1, hb, hwr, ne_eq, not_true_eq_false, if_false]
        exact ⟨_, rfl, fun h => h.elim, fun _ => ⟨a, rfl, hw.trans h1, rfl⟩⟩
      · simp only [iris_hfi_session_init, hd1, hb, hwr, ne_eq, not_true_eq_false,
          not_false_eq_true, if_false, if_true]
        refine ⟨_, rfl, fun _ => ⟨?_, hclean _ (hw.trans h1), ?_⟩,
          fun h => absurd h (by decide)⟩ <;> first | rfl | trivial
    · simp only [iris_hfi_session_init, hd1, hb, ne_eq, not_false_eq_true, if_true]
      refine ⟨_, rfl, fun _ => ⟨?_, hclean _ h1, ?_⟩, fun h => absurd h (by decide)⟩ <;>
        first | rfl | trivial

/-- Instance of claim C28: on the sample device with one session, the packet
builder fails, the call returns `-EINVAL`, the list is the old one and
`*new_session` is `NULL`. -/
theorem session_init_atomic_witness :
    ∃ d, (iris_hfi_session_init (sample_hfi 0 false 0) sample_resume_callees
        (sample_session_init_callees (-ENOMEM)) (some (sample_device [0])) 7 (some (some 5))
        (some 8192)).device = some d ∧
      d.sess_head = (sample_device [0]).sess_head ∧
      (iris_hfi_session_init (sample_hfi 0 false 0) sample_resume_callees
        (sample_session_init_callees (-ENOMEM)) (some (sample_device [0])) 7 (some (some 5))
        (some 8192)).new_session = some none :=
  let ⟨d, h1, h2, _⟩ := session_init_atomic (sample_hfi 0 false 0) sample_resume_callees
    (sample_session_init_callees (-ENOMEM)) (sample_device [0]) 7 (some 5) (some 8192)
    (fun _ => ⟨rfl, fun _ => rfl, rfl, rfl, rfl, rfl, fun _ => rfl, rfl, rfl, rfl, rfl, rfl⟩)
    (fun _ => rfl) (by decide)
  ⟨d, h1, (h2 (by decide)).2.1, (h2 (by decide)).2.2⟩

/-! ### The creation of a device -/

/-- Claim C29. The detection of a duplicate core is unreachable at device
creation.  For a device without `cvp_hal_data`, as `__add_device` passes it,
`__check_core_registered` returns `-EINVAL` for every firmware address,
register range and interrupt; `__init_regs_and_interrupts` on such a device
returns `-ENOMEM`, `-EINVAL` or what `request_irq` returned, so it does not
return `-EEXIST` unless `request_irq` itself does, and neither does the `rc`
of `__add_device`; the assignment of `-EEXIST` is reached only from a device
whose `cvp_hal_data` is set and matches. -/
theorem core_registered_unreachable (Y : creation_platform) (device_id : Nat)
    (res : hal_resources) (callback : Bool) :
    (∀ fw_addr reg_addr reg_size irq,
      __check_core_registered Y (some none) fw_addr reg_addr reg_size irq = -EINVAL) ∧
    ((__init_regs_and_interrupts Y none res).1 = -ENOMEM ∨
      (__init_regs_and_interrupts Y none res).1 = -EINVAL ∨
      (__init_regs_and_interrupts Y none res).1 = Y.request_irq res.irq) ∧
    (Y.request_irq res.irq ≠ -EEXIST →
      (__init_regs_and_interrupts Y none res).1 ≠ -EEXIST ∧
      (__add_device Y device_id (some res) callback).rc ≠ -EEXIST) ∧
    (∀ hal, __check_core_registered Y (some (some hal)) res.firmware_base res.register_base
        res.register_size res.irq = 0 →
      (__init_regs_and_interrupts Y (some hal) res).1 = -EEXIST) := by
  have hcases : (__init_regs_and_interrupts Y none res).1 = -ENOMEM ∨
      (__init_regs_and_interrupts Y none res).1 = -EINVAL ∨
      (__init_regs_and_interrupts Y none res).1 = Y.request_irq res.irq := by
    simp only [__init_regs_and_interrupts, __check_core_registered]
    split_ifs with h1
    · exact absurd h1 (by decide)
    all_goals first
      | exact Or.inl rfl
      | exact Or.inr (Or.inl rfl)
      | exact Or.inr (Or.inr rfl)
  have hne : Y.request_irq res.irq ≠ -EEXIST →
      (__init_regs_and_interrupts Y none res).1 ≠ -EEXIST := by
    intro hirq
    rcases hcases with h | h | h
    · rw [h]; decide
    · rw [h]; decide
    · rw [h]; exact hirq
  refine ⟨fun _ _ _ _ => rfl, hcases, fun hirq => ⟨hne hirq, ?_⟩, ?_⟩
  · simp only [__add_device]
    split_ifs <;> first
      | exact hne hirq
      | decide
  · intro hal h
    simp only [__init_regs_and_interrupts, h, if_true]

/-- Instance of claim C29: with every allocation succeeding `__add_device`
returns a device and `rc` is 0, and a second registration check against the
`cvp_hal_data` of that device finds the core. -/
theorem core_registered_unreachable_witness :
    (__add_device sample_creation_platform 0 (some sample_hal_resources) true).rc ≠ -EEXIST ∧
    (__add_device sample_creation_platform 0 (some sample_hal_resources) true).rc = 0 ∧
    (__init_regs_and_interrupts sample_creation_platform
      ((__add_device sample_creation_platform 0 (some sample_hal_resources) true).hdevice.bind
        fun d => d.cvp_hal_data) sample_hal_resources).1 = -EEXIST :=
  ⟨((core_registered_unreachable sample_creation_platform 0 sample_hal_resources true).2.2.1
      (by decide)).2, by decide, by decide⟩

/-! ### The firmware version of `iris_hfi_get_fw_info` -/

theorem fw_version_scan_found (L : Nat) (fw : Nat → Nat) (k : Nat) (hk : k < L)
    (hV : fw k = 86) :
    ∀ (fuel i : Nat), i ≤ k → k - i < fuel → (∀ j, i ≤ j → j < k → fw j ≠ 86) →
      fw_version_scan L fw fuel i = k + 1 := by
  intro fuel
  induction fuel with
  | zero => intro i _ h _; omega
  | succ n ih =>
    intro i hik hf hno
    by_cases hi : i = k
    · subst hi
      simp only [fw_version_scan, hV, ne_eq, not_true_eq_false, false_and, if_false]
    · have hlt : i < k := by omega
      have h1 : fw i ≠ 86 := hno i (Nat.le_refl _) hlt
      have h2 : i + 1 < L := by omega
      simp only [fw_version_scan, h1, h2, ne_eq, not_false_eq_true, and_self, if_true]
      exact ih (i + 1) (by omega) (by omega) (fun j hj1 hj2 => hno j (by omega) hj2)

theorem fw_version_scan_none (L : Nat) (fw : Nat → Nat) :
    ∀ (fuel i : Nat), i < L → L - i ≤ fuel → (∀ j, i ≤ j → j < L → fw j ≠ 86) →
      fw_version_scan L fw fuel i = L := by
  intro fuel
  induction fuel with
  | zero => intro i h1 h2 _; omega
  | succ n ih =>
    intro i hi hf hno
    have h1 : fw i ≠ 86 := hno i (Nat.le_refl _) hi
    by_cases h2 : i + 1 < L
    · simp only [fw_version_scan, h1, h2, ne_eq, not_false_eq_true, and_self, if_true]
      exact ih (i + 1) h2 (by omega) (fun j hj1 hj2 => hno j (by omega) hj2)
    · simp only [fw_version_scan, h2, and_false, if_false]
      omega

theorem fw_version_scan_eq (L : Nat) (fw : Nat → Nat) (hL : 2 ≤ L) :
    fw_version_scan L fw (L + 1) 0 = L - 1 ↔ first_V_at fw (L - 2) := by
  by_cases hex : ∃ k, k < L ∧ fw k = 86
  · obtain ⟨k, ⟨hk, hV⟩, hmin⟩ := Nat.findX hex
    have hno : ∀ j, j < k → fw j ≠ 86 := by
      intro j hj hVj
      exact hmin j hj ⟨by omega, hVj⟩
    rw [fw_version_scan_found L fw k hk hV (L + 1) 0 (Nat.zero_le _) (by omega)
      (fun j _ hj => hno j hj)]
    constructor
    · intro h
      have hk2 : k = L - 2 := by omega
      subst hk2
      exact ⟨hV, hno⟩
    · intro h
      have hk2 : k = L - 2 := by
        rcases Nat.lt_trichotomy k (L - 2) with hlt | heq | hgt
        · exact absurd hV (h.2 k hlt)
        · exact heq
        · exact absurd h.1 (hno _ hgt)
      omega
  · have hno : ∀ j, j < L → fw j ≠ 86 := by
      intro j hj hVj
      exact hex ⟨j, hj, hVj⟩
    rw [fw_version_scan_none L fw (L + 1) 0 (by omega) (by omega) (fun j _ hj => hno j hj)]
    constructor
    · intro h; omega
    · intro h
      exact absurd h.1 (hno _ (by omega))

/-- The counterexample to claim C30: the stored version string is empty (all
its 8 bytes are NUL, so it has no `V`, in particular none at index 6); the
call returns 0 with the string copied, and the reported version is the empty
string although the first `V` is not at index `CVP_VERSION_LENGTH - 2`. -/
theorem fw_info_version_counterexample :
    ((iris_hfi_get_fw_info 8 (fun _ => 0) (some sample_added_device)
        (some (sample_fw_info 65))).map
      fun r => (r.1, r.2.map fun f => f.version 0)) = some (0, some 0) ∧
    ¬ first_V_at (fun _ => 0) (8 - 2) :=
  ⟨by decide, fun h => absurd h.1 (by decide)⟩

/-- Claim C30, amended. For a device with `cvp_hal_data`, an object `fw_info`
and a version length of at least 2, `iris_hfi_get_fw_info` returns 0 in all
cases.  It stores the empty string without copying (`version[0] = 0`, the
other characters as before) exactly when the first `V` of the stored string
is at index `CVP_VERSION_LENGTH - 2`; in every other case, a string without
`V` included, the stored string is copied verbatim with its last byte forced
to NUL.  Hence the reported version is the empty string exactly when the
first `V` is at that index or the stored string is itself empty. -/
theorem fw_info_version (CVP_VERSION_LENGTH : Nat) (fw_version : Nat → Nat)
    (device : added_device) (hal : cvp_hal_data) (info : cvp_hal_fw_info)
    (hL : 2 ≤ CVP_VERSION_LENGTH) (hhal : device.cvp_hal_data = some hal) :
    ∃ info2,
      iris_hfi_get_fw_info CVP_VERSION_LENGTH fw_version (some device) (some info)
        = some (0, some info2) ∧
      (first_V_at fw_version (CVP_VERSION_LENGTH - 2) →
        info2.version = Function.update info.version 0 0) ∧
      (¬ first_V_at fw_version (CVP_VERSION_LENGTH - 2) →
        ∀ j, info2.version j
          = if j = CVP_VERSION_LENGTH - 1 then 0
            else if j < CVP_VERSION_LENGTH then fw_version j else info.version j) ∧
      (info2.version 0 = 0 ↔
        (first_V_at fw_version (CVP_VERSION_LENGTH - 2) ∨ fw_version 0 = 0)) := by
  have hscan := fw_version_scan_eq CVP_VERSION_LENGTH fw_version hL
  by_cases hV : first_V_at fw_version (CVP_VERSION_LENGTH - 2)
  · have hi := hscan.mpr hV
    simp only [iris_hfi_get_fw_info, hhal, hi, if_true]
    refine ⟨_, rfl, fun _ => rfl, fun h => absurd hV h, ?_⟩
    simp only [Function.update_same, true_iff]
    exact Or.inl hV
  · have hi : ¬ fw_version_scan CVP_VERSION_LENGTH fw_version (CVP_VERSION_LENGTH + 1) 0
        = CVP_VERSION_LENGTH - 1 := fun h => hV (hscan.mp h)
    simp only [iris_hfi_get_fw_info, hhal, hi, if_false]
    refine ⟨_, rfl, fun h => absurd h hV, fun _ j => ?_, ?_⟩
    · by_cases hj : j = CVP_VERSION_LENGTH - 1
      · subst hj
        simp only [Function.update_same, if_true]
      · simp only [Function.update_noteq hj, hj, if_false]
    · have h0 : (0 : Nat) ≠ CVP_VERSION_LENGTH - 1 := by omega
      have h1 : (0 : Nat) < CVP_VERSION_LENGTH := by omega
      simp only [Function.update_noteq h0, h1, if_true]
      constructor
      · intro h; exact Or.inr h
      · intro h
        rcases h with h | h
        · exact absurd h hV
        · exact h

/-- Instance of claim C30 as amended: the stored string of 8 bytes has its
first `V` at index 6 and the reported version is blanked. -/
theorem fw_info_version_witness :
    ∃ info2,
      iris_hfi_get_fw_info 8 (fun i => if i = 6 then 86 else 65) (some sample_added_device)
        (some (sample_fw_info 66)) = some (0, some info2) ∧
      info2.version = Function.update (sample_fw_info 66).version 0 0 :=
  let ⟨info2, h1, h2, _⟩ := fw_info_version 8 (fun i => if i = 6 then 86 else 65)
    sample_added_device ⟨234, 2147483648, 180355072, 1048576, 0, 0⟩ (sample_fw_info 66)
    (by decide) rfl
  ⟨info2, h1, h2 ⟨by decide, by decide⟩⟩

end CvpHfi
